import Mathlib

/-!
# Seascape mysql extension: dispatcher and resource handle

A shallow embedding of

* `app/controller/reply_controller.go` (`Controller`, `reply`, `reply_error`, `Run`),
* `mysql.go` (`Database`, `Reconnect`, `closeReplaceConnection`, `Close`, `Query`,
  `GetParameters`, `GetDefaultCredentials`),
* `controller.go` (`onNewCredentials` and the six database handlers),
* `handler/handler.go` (the query builders),
* `security/vault/vault_renewal.go` (`renewLeases`, `PeriodicallyRenewLeases`).

Go code that talks to the outside (the zmq socket, `database/sql`, the watchers of
the secret store) is embedded as a function of a script of outcomes of the outside
calls and returns, next to its result, the trace of the calls it made.
-/

namespace Seascape

/-! ## Go values -/

/-- Go `error`: `none` is `nil`, `some text` is an error whose `Error()` is `text`. -/
abbrev Error := Option String

/-- How a call ends: it returns a value, it panics, or it never returns
(it waits for something that the scripted environment never delivers). -/
inductive Outcome (α : Type) where
  | returned (value : α)
  | panicked (reason : String)
  | blocked
  deriving Repr, DecidableEq

/-! ## Envelope (package `message`, used by the controller and the handlers) -/

/-- The value of one column of a row of the database. -/
inductive Cell where
  | null
  | bool (b : Bool)
  | number (n : Int)
  | text (s : String)
  | bytes (data : String)
  deriving Repr, DecidableEq

/-- A row of the database as a `key_value.KeyValue`: column name to value. -/
abbrev Row := List (String × Cell)

/-- A value held by a `key_value.KeyValue`; `bytes` is the byte sequence of a string,
`object` a nested key-value and `objects` a list of them. -/
inductive Value where
  | null
  | bool (b : Bool)
  | number (n : Int)
  | text (s : String)
  | bytes (data : String)
  | object (fields : Row)
  | objects (items : List Row)
  deriving Repr, DecidableEq

/-- Type `key_value.KeyValue`: a mapping from string keys to values. -/
abbrev KeyValue := List (String × Value)

/-- Function `key_value.Empty()`. -/
def KeyValue.Empty : KeyValue := []

/-- Type `message.ReplyStatus`. -/
inductive ReplyStatus where
  | OK
  | FAIL
  deriving Repr, DecidableEq

/-- Type `message.Reply`. -/
structure Reply where
  Status : ReplyStatus
  Message : String
  Parameters : KeyValue
  deriving Repr, DecidableEq

/-- Type `message.Request`; the public key is the identity that the transport attaches. -/
structure Request where
  Command : String
  Parameters : KeyValue
  public_key : String
  deriving Repr, DecidableEq

/-- Modelled from the spec: `message.Fail` of the message package, which is not
among the sources. A failure reply has status FAIL, the given message and empty parameters. -/
def Fail (message : String) : Reply :=
  { Status := ReplyStatus.FAIL, Message := message, Parameters := KeyValue.Empty }

/-- Modelled from the spec: `Reply.IsOK` of the message package. -/
def Reply.IsOK (reply : Reply) : Bool :=
  reply.Status == ReplyStatus.OK

/-- Modelled from the spec: `Request.SetPublicKey` of the message package; it attaches
the identity supplied by the transport to the parsed request. -/
def Request.SetPublicKey (request : Request) (public_key : String) : Request :=
  { request with public_key := public_key }

/-! ## Dispatcher (`app/controller/reply_controller.go`) -/

/-- The zmq socket types. -/
inductive SocketType where
  | REQ | REP | DEALER | ROUTER | PUB | SUB | XPUB | XSUB | PUSH | PULL | PAIR | STREAM
  deriving Repr, DecidableEq

/-- The part of `service.Service` that the controller reads. -/
structure Service where
  Name : String
  url : String
  limited_this : Bool
  limited_inproc : Bool
  deriving Repr, DecidableEq

def Service.Url (s : Service) : String := s.url

def Service.IsThis (s : Service) : Bool := s.limited_this

def Service.IsInproc (s : Service) : Bool := s.limited_inproc

/-- A `log.Logger`, identified by its prefix. -/
structure Logger where
  name : String
  deriving Repr, DecidableEq

/-- Type `Controller`; the socket itself is the scripted `Transport` below. -/
structure Controller where
  service : Service
  logger : Logger
  socket_type : SocketType
  deriving Repr, DecidableEq

/-- The metadata map returned by `RecvMessageWithMetadata`. -/
abbrev Metadata := List (String × String)

/-- Go map indexing `metadata[key]`: the zero value when the key is absent. -/
def Metadata.get (metadata : Metadata) (key : String) : String :=
  (metadata.lookup key).getD ""

/-- What the socket does during one pass of the serve loop: the result of
`RecvMessageWithMetadata` and the error of the `SendMessage` of that pass. -/
structure Exchange where
  recv : Except String (List String × Metadata)
  send : Error

/-- The scripted socket: the error of `Bind` and the exchanges in arrival order.
When the exchanges are used up the next receive waits for ever. -/
structure Transport where
  bind : Error
  exchanges : List Exchange

/-- What `Run` does that is visible from outside; `π` is the type of the
variadic parameters handed to the handlers. -/
inductive Event (π : Type) where
  | bind (url : String)
  | recv (result : Except String (List String × Metadata))
  | invoke (command : String) (request : Request) (logger : Logger) (parameters : List π)
  | send (message : Reply)
  | warn (command : String) (parameters : KeyValue) (message : String)

/-- Type `command.HandleFunc`, acting on a world `σ`. -/
abbrev HandleFunc (σ π : Type) := Request → Logger → List π → σ → Reply × σ

/-- Type `command.Handlers`: a map from command name to handler. -/
abbrev Handlers (σ π : Type) := String → Option (HandleFunc σ π)

/-- Modelled from the spec: `Handlers.Exist` of the command package, the existence
check of the handler table. -/
def Handlers.Exist {σ π : Type} (handlers : Handlers σ π) (command : String) : Bool :=
  (handlers command).isSome

/-- The state of a `Run`: what it did, the world the handlers left, and the
error it returned (`none` while it is still in the loop, waiting in a receive). -/
structure Served (σ π : Type) where
  trace : List (Event π)
  world : σ
  result : Option Error

/-- Function `NewReply`; `child` is the result of `logger.ChildWithTimestamp`
and `socket` the error of `zmq.NewSocket(zmq.REP)`. -/
def NewReply (s : Service) (child : Except String Logger) (socket : Error) :
    Except String Controller :=
  if !s.IsThis && !s.IsInproc then
    .error "service should be limited to service.THIS or inproc type"
  else
    match child with
    | .error err => .error ("error creating child logger: " ++ err)
    | .ok controller_logger =>
      match socket with
      | some err => .error ("zmq.NewSocket: " ++ err)
      | none =>
        .ok { service := s, logger := controller_logger, socket_type := SocketType.REP }

def Controller.is_repliable (c : Controller) : Bool :=
  c.socket_type == SocketType.REP

/-- Method `reply`; `send` is the error of the `SendMessage` call. The wire text is
`message.ToString()`, the trace keeps the reply it is the text of. The error text is
what `fmt.Errorf` makes of a format that ends in `%w` followed by the error text (a
text without a percent sign) and has no argument. -/
def Controller.reply {π : Type} (c : Controller) (message : Reply) (send : Error) :
    List (Event π) × Error :=
  if !c.is_repliable then
    ([], none)
  else
    match send with
    | some err => ([Event.send message], some ("recv error replying error %!w(MISSING)" ++ err))
    | none => ([Event.send message], none)

/-- Method `reply_error`; `err` is the text of the error. -/
def Controller.reply_error {π : Type} (c : Controller) (err : String) (send : Error) :
    List (Event π) × Error :=
  c.reply (Fail err) send

/-- One pass of the body of the `for` loop of `Run`: `result` is `some err` when
the pass ends in `return err`, and `none` when it ends in `continue` or at the end of
the body. The existence check `handlers.Exist` followed by the map lookup is the
match on the lookup. -/
def Controller.pass {σ π : Type} (c : Controller)
    (ParseRequest : List String → Except String Request)
    (handlers : Handlers σ π) (parameters : List π) (x : Exchange) (world : σ) :
    Served σ π :=
  match x.recv with
  | .error err =>
    let new_err := "socket.recvMessageWithMetadata: " ++ err
    match c.reply_error new_err x.send with
    | (sent, some err) =>
      { trace := Event.recv x.recv :: sent, world := world, result := some (some err) }
    | (sent, none) =>
      { trace := Event.recv x.recv :: sent, world := world, result := some (some new_err) }
  | .ok (msg_raw, metadata) =>
    -- All request types derive from the basic request.
    match ParseRequest msg_raw with
    | .error err =>
      let new_err := "message.ParseRequest: " ++ err
      match c.reply_error new_err x.send with
      | (sent, some err) =>
        { trace := Event.recv x.recv :: sent, world := world, result := some (some err) }
      | (sent, none) =>
        { trace := Event.recv x.recv :: sent, world := world, result := none }
    | .ok parsed =>
      let request := parsed.SetPublicKey (Metadata.get metadata "pub_key")
      let request_command := request.Command
      match handlers request_command with
      | none =>
        let new_err := "handler not found for command: " ++ request.Command
        match c.reply_error new_err x.send with
        | (sent, some err) =>
          { trace := Event.recv x.recv :: sent, world := world, result := some (some err) }
        | (sent, none) =>
          { trace := Event.recv x.recv :: sent, world := world, result := none }
      | some handler =>
        let (reply, world1) := handler request c.logger parameters world
        let called := Event.invoke request_command request c.logger parameters
        match c.reply reply x.send with
        | (sent, some err) =>
          { trace := Event.recv x.recv :: called :: sent, world := world1,
            result := some (some err) }
        | (sent, none) =>
          let warned : List (Event π) :=
            if !reply.IsOK && !c.is_repliable then
              [Event.warn request.Command request.Parameters reply.Message]
            else []
          { trace := Event.recv x.recv :: called :: sent ++ warned, world := world1,
            result := none }

/-- The `for` loop of `Run` over the scripted exchanges: pass after pass until one
returns; with the script used up the loop waits in the next receive. -/
def Controller.serve {σ π : Type} (c : Controller)
    (ParseRequest : List String → Except String Request)
    (handlers : Handlers σ π) (parameters : List π) :
    List Exchange → σ → Served σ π
  | [], world => { trace := [], world := world, result := none }
  | x :: rest, world =>
    let once := c.pass ParseRequest handlers parameters x world
    match once.result with
    | some err => { once with result := some err }
    | none =>
      let next := c.serve ParseRequest handlers parameters rest once.world
      { next with trace := once.trace ++ next.trace }

/-- Method `Run`. -/
def Controller.Run {σ π : Type} (c : Controller)
    (ParseRequest : List String → Except String Request)
    (handlers : Handlers σ π) (parameters : List π) (socket : Transport) (world : σ) :
    Served σ π :=
  match socket.bind with
  | some err =>
    { trace := [Event.bind c.service.Url], world := world,
      result := some (some ("socket.bind on tcp protocol for " ++ c.service.Name ++
        " at url " ++ c.service.Url ++ ": " ++ err)) }
  | none =>
    let served := c.serve ParseRequest handlers parameters socket.exchanges world
    { served with trace := Event.bind c.service.Url :: served.trace }

/-! ## Resource handle (`mysql.go`) -/

/-- The identity of a `*sql.DB`. -/
abbrev Handle := Nat

/-- Type `time.Duration`, in nanoseconds. -/
abbrev Duration := Int

/-- TimeoutCap: no configured time can be greater than this. -/
def TimeoutCap : Nat := 3600

structure DatabaseParameters where
  hostname : String
  port : String
  name : String
  timeout : Duration
  deriving Repr, DecidableEq

/-- DatabaseCredentials is a set of dynamic credentials retrieved from Vault. -/
structure DatabaseCredentials where
  Username : String
  Password : String
  deriving Repr, DecidableEq

/-- Type `Database`; `Connection` is `none` for a nil pointer and
`connectionMutex` is `true` while the mutex is held. -/
structure Database where
  Connection : Option Handle
  connectionMutex : Bool
  parameters : DatabaseParameters
  logger : Logger
  deriving Repr, DecidableEq

/-- A value logged as a field of a log record. -/
inductive LogValue where
  | text (s : String)
  | duration (d : Duration)
  deriving Repr, DecidableEq

/-- Type `handler.DatabaseQueryRequest`: the sql and its parameters. -/
structure DatabaseQueryRequest where
  Fields : List String
  Tables : List String
  Where : String
  Arguments : List Value
  deriving Repr, DecidableEq

/-- What the database code does that is visible from outside. The calls of the
handlers of `controller.go`: `parse` is `request.Parameters.Interface`, `build` the
call of a query builder, `query` and `exec` the calls of `Connection.Query` and
`Connection.Exec`, `warn` a call of `logger.Warn`. -/
inductive DbEvent where
  | info (logger : Logger) (message : String) (fields : List (String × LogValue))
  | sqlOpen (driver : String) (dsn : String)
  | ping (connection : Handle)
  | lock
  | unlock
  | close (connection : Handle)
  | queryContext (connection : Handle) (query : String) (arguments : List Value)
  | rowsClose
  | parse (parameters : KeyValue)
  | build (builder : String) (request : DatabaseQueryRequest)
  | query (connection : Handle) (query : String) (arguments : List Value)
  | exec (connection : Handle) (query : String) (arguments : List Value)
  | warn (logger : Logger) (message : String) (fields : List (String × LogValue))
  deriving Repr, DecidableEq

/-- One pass of the ping loop of `Reconnect`: the ping succeeds, or it fails
with an error and the `select` that follows is ended by the 500 ms timer
(`deadline = false`) or by the context of the timeout (`deadline = true`). -/
inductive PingResult where
  | ok
  | failed (err : String) (deadline : Bool)
  deriving Repr, DecidableEq

/-- The scripted `database/sql` of one `Reconnect`: the result of `sql.Open` and
the results of the pings in order. When the pings are used up the next ping
never returns. -/
structure Dial where
  opened : Except String Handle
  pings : List PingResult

/-- What a database operation leaves behind: how it ended, the handle
afterwards and the calls it made. -/
structure Effect (α : Type) where
  outcome : Outcome α
  database : Database
  trace : List DbEvent

/-- Call `connectionMutex.Lock()`: `none` when the mutex is held, in which case
the caller waits. -/
def Database.Lock (database : Database) : Option Database :=
  if database.connectionMutex then none
  else some { database with connectionMutex := true }

/-- Call `connectionMutex.Unlock()`. -/
def Database.Unlock (database : Database) : Database :=
  { database with connectionMutex := false }

def Database.Timeout (database : Database) : Duration :=
  database.parameters.timeout

/-- Method `closeReplaceConnection`. -/
def Database.closeReplaceConnection (database : Database) (new : Handle) : Effect Unit :=
  match database.Lock with
  | none => { outcome := Outcome.blocked, database := database, trace := [] }
  | some held =>
    -- close the existing connection, if exists
    let closed : List DbEvent :=
      match held.Connection with
      | some old => [DbEvent.close old]
      | none => []
    -- replace with a new connection
    let replaced := { held with Connection := some new }
    -- deferred: database.connectionMutex.Unlock()
    { outcome := Outcome.returned (), database := replaced.Unlock,
      trace := DbEvent.lock :: closed ++ [DbEvent.unlock] }

/-- The loop of `Reconnect` that waits until the database is ready or the timeout
expires: `some none` when a ping succeeded, `some (some err)` when the context was
done after a failed ping, `none` when a ping never returns. -/
def pingLoop (connection : Handle) : List PingResult → List DbEvent × Option Error
  | [] => ([DbEvent.ping connection], none)
  | PingResult.ok :: _ => ([DbEvent.ping connection], some none)
  | PingResult.failed err true :: _ =>
    ([DbEvent.ping connection], some (some ("database ping error: " ++ err)))
  | PingResult.failed _ false :: rest =>
    let (trace, result) := pingLoop connection rest
    (DbEvent.ping connection :: trace, result)

/-- The first log record of `Reconnect`, the call `database.logger.Info` with the
fields protocol, database, host, port, user and timeout. -/
def Database.connecting (database : Database) (credentials : DatabaseCredentials) : DbEvent :=
  DbEvent.info database.logger "connecting to `mysql` database"
    [("protocol", LogValue.text "tcp"),
     ("database", LogValue.text database.parameters.name),
     ("host", LogValue.text database.parameters.hostname),
     ("port", LogValue.text database.parameters.port),
     ("user", LogValue.text credentials.Username),
     ("timeout", LogValue.duration database.parameters.timeout)]

/-- The connection string of `Reconnect`, format `%s:%s@tcp(%s:%s)/%s?timeout=%s`;
`durationString` is `time.Duration.String`. -/
def Database.dsn (durationString : Duration → String) (database : Database)
    (credentials : DatabaseCredentials) : String :=
  credentials.Username ++ ":" ++ credentials.Password ++ "@tcp(" ++
    database.parameters.hostname ++ ":" ++ database.parameters.port ++ ")/" ++
    database.parameters.name ++ "?timeout=" ++ durationString database.parameters.timeout

/-- The last log record of `Reconnect`. -/
def Database.connected (database : Database) : DbEvent :=
  DbEvent.info database.logger "connection success!"
    [("database", LogValue.text database.parameters.name)]

/-- Method `Reconnect`; `durationString` is `time.Duration.String`. -/
def Database.Reconnect (durationString : Duration → String) (database : Database)
    (credentials : DatabaseCredentials) (dial : Dial) : Effect Error :=
  let opening := [database.connecting credentials,
    DbEvent.sqlOpen "mysql" (database.dsn durationString credentials)]
  match dial.opened with
  | .error err =>
    { outcome := Outcome.returned (some ("sql.open: " ++ err)), database := database,
      trace := opening }
  | .ok connection =>
    -- wait until the database is ready or timeout expires
    match pingLoop connection dial.pings with
    | (pinged, none) =>
      { outcome := Outcome.blocked, database := database, trace := opening ++ pinged }
    | (pinged, some (some err)) =>
      { outcome := Outcome.returned (some err), database := database,
        trace := opening ++ pinged }
    | (pinged, some none) =>
      let swap := database.closeReplaceConnection connection
      match swap.outcome with
      | Outcome.returned _ =>
        { outcome := Outcome.returned none, database := swap.database,
          trace := opening ++ pinged ++ swap.trace ++ [database.connected] }
      | Outcome.panicked reason =>
        { outcome := Outcome.panicked reason, database := swap.database,
          trace := opening ++ pinged ++ swap.trace }
      | Outcome.blocked =>
        { outcome := Outcome.blocked, database := swap.database,
          trace := opening ++ pinged ++ swap.trace }

/-- Method `Close`; `closed` is the error of `Connection.Close()`. -/
def Database.Close (database : Database) (closed : Error) : Effect Error :=
  match database.Lock with
  | none => { outcome := Outcome.blocked, database := database, trace := [] }
  | some held =>
    let (result, body) : Error × List DbEvent :=
      match held.Connection with
      | some connection =>
        match closed with
        | some err => (some ("connection.Close: " ++ err), [DbEvent.close connection])
        | none => (none, [DbEvent.close connection])
      | none => (none, [])
    -- deferred: database.connectionMutex.Unlock()
    { outcome := Outcome.returned result, database := held.Unlock,
      trace := DbEvent.lock :: body ++ [DbEvent.unlock] }

/-- The rows of a result set as `Query` reads them: the result of `Scan` for each
row that `Next` reports, and the error of `rows.Err()`. -/
structure Rows where
  scans : List (Except String String)
  err : Error

/-- The verbs of `fmt` that `Query` uses in its error texts: `%q` of a string and
`%v` of the argument list. -/
structure Fmt where
  q : String → String
  v : List Value → String

/-- The `for rows.Next()` loop of `Query`: the first failing `Scan` ends it. -/
def scanRows (fmt : Fmt) (query : String) : List (Except String String) → List Value →
    Except String (List Value)
  | [], results => .ok results
  | .error err :: _, _ =>
    .error ("failed to scan table row for " ++ fmt.q query ++ " query: " ++ err)
  | .ok p :: rest, results => scanRows fmt query rest (results ++ [Value.text p])

/-- Method `Query`; `answer` is the result of `Connection.QueryContext`. A nil
`Connection` makes `QueryContext` panic, and the deferred unlock still runs. -/
def Database.Query (fmt : Fmt) (database : Database) (query : String)
    (arguments : List Value) (answer : Except String Rows) :
    Effect (Except String (List Value)) :=
  match database.Lock with
  | none => { outcome := Outcome.blocked, database := database, trace := [] }
  | some held =>
    let (outcome, body) : Outcome (Except String (List Value)) × List DbEvent :=
      match held.Connection with
      | none => (Outcome.panicked "invalid memory address or nil pointer dereference", [])
      | some connection =>
        let asked := DbEvent.queryContext connection query arguments
        match answer with
        | .error err =>
          (Outcome.returned (.error ("failed to execute '" ++ fmt.q query ++
            "' query with arguments " ++ fmt.v arguments ++ ": " ++ err)), [asked])
        | .ok rows =>
          -- deferred: rows.Close()
          match scanRows fmt query rows.scans [] with
          | .error err => (Outcome.returned (.error err), [asked, DbEvent.rowsClose])
          | .ok results =>
            match rows.err with
            | some err =>
              (Outcome.returned (.error ("error after scanning " ++ fmt.q query ++
                " query: " ++ err)), [asked, DbEvent.rowsClose])
            | none => (Outcome.returned (.ok results), [asked, DbEvent.rowsClose])
    -- deferred: database.connectionMutex.Unlock()
    { outcome := outcome, database := held.Unlock,
      trace := DbEvent.lock :: body ++ [DbEvent.unlock] }

/-! ## Control channel handler (`controller.go`, `main.go`) -/

/-- The handle as `main` creates it when security is enabled: no connection yet. -/
def secureDatabase (databaseParameters : DatabaseParameters) (logger : Logger) : Database :=
  { Connection := none, connectionMutex := false, parameters := databaseParameters,
    logger := logger }

/-- Function `connectWithDefault`; `credentials` is `GetDefaultCredentials(appConfig)`. -/
def connectWithDefault (durationString : Duration → String) (logger : Logger)
    (parameters : DatabaseParameters) (credentials : DatabaseCredentials) (dial : Dial) :
    Effect (Except String Unit) :=
  let database : Database :=
    { Connection := none, connectionMutex := false, parameters := parameters,
      logger := logger }
  -- establish the first connection
  let first := database.Reconnect durationString credentials dial
  match first.outcome with
  | Outcome.returned (some err) =>
    { first with outcome := Outcome.returned (.error ("database.reconnect: " ++ err)) }
  | Outcome.returned none => { first with outcome := Outcome.returned (.ok ()) }
  | Outcome.panicked reason => { first with outcome := Outcome.panicked reason }
  | Outcome.blocked => { first with outcome := Outcome.blocked }

/-- What a handler of `controller.go` leaves behind: how it ended, the global `db`
afterwards (`none` is the nil pointer), the calls of `Reconnect` it made with how
each ended, and the calls made on the database. -/
structure Handled where
  outcome : Outcome Reply
  db : Option Database
  reconnects : List (DatabaseCredentials × Outcome Error)
  trace : List DbEvent

/-- Handler `onNewCredentials`; `Interface` is `request.Parameters.Interface`
into a `DatabaseCredentials` and `db` is the global handle. -/
def onNewCredentials (Interface : KeyValue → Except String DatabaseCredentials)
    (durationString : Duration → String) (db : Option Database) (request : Request)
    (dial : Dial) : Handled :=
  match Interface request.Parameters with
  | .error _ =>
    { outcome := Outcome.returned (Fail "the received database credentials are invalid"),
      db := db, reconnects := [], trace := [] }
  | .ok credentials =>
    match db with
    | none =>
      { outcome := Outcome.panicked "invalid memory address or nil pointer dereference",
        db := db, reconnects := [], trace := [] }
    | some database =>
      if database.Connection = none then
        { outcome := Outcome.returned
            (Fail "database.Connection is nil, please open the connection first"),
          db := db, reconnects := [], trace := [] }
      else
        -- establish the first connection
        let tried := database.Reconnect durationString credentials dial
        let outcome : Outcome Reply :=
          match tried.outcome with
          | Outcome.returned (some err) =>
            Outcome.returned (Fail ("database.reconnect:" ++ err))
          | Outcome.returned none =>
            Outcome.returned
              { Status := ReplyStatus.OK, Message := "", Parameters := KeyValue.Empty }
          | Outcome.panicked reason => Outcome.panicked reason
          | Outcome.blocked => Outcome.blocked
        { outcome := outcome, db := some tried.database,
          reconnects := [(credentials, tried.outcome)], trace := tried.trace }

/-- Successive calls of `Reconnect` on one handle, each with its credentials and its
scripted dial: how each call ended, the handle after the last one and the calls made. -/
def Database.ReconnectEach (durationString : Duration → String) (database : Database) :
    List (DatabaseCredentials × Dial) → List (Outcome Error) × Database × List DbEvent
  | [] => ([], database, [])
  | (credentials, dial) :: rest =>
    let tried := database.Reconnect durationString credentials dial
    let (outcomes, final, trace) := tried.database.ReconnectEach durationString rest
    (tried.outcome :: outcomes, final, tried.trace ++ trace)

/-- The connections that a trace closes, in the order of the `Close` calls. -/
def closes : List DbEvent → List Handle
  | [] => []
  | DbEvent.close connection :: rest => connection :: closes rest
  | _ :: rest => closes rest

/-- The handle that `sql.Open` returned in a dial, if it returned one. -/
def Dial.handle (dial : Dial) : Option Handle :=
  match dial.opened with
  | .ok connection => some connection
  | .error _ => none

/-! ## The request/reply protocol as the specification words it -/

/-- The reply that the specification asks for one received message, and the world
afterwards: FAIL on a parse failure, FAIL "handler not found for command: X" for a
command absent from the handler table, otherwise the Reply of the handler, invoked
with the request that carries the identity of the transport. -/
def answer {σ π : Type} (ParseRequest : List String → Except String Request)
    (handlers : Handlers σ π) (logger : Logger) (parameters : List π)
    (received : List String × Metadata) (world : σ) : Reply × σ :=
  match ParseRequest received.1 with
  | .error err => (Fail ("message.ParseRequest: " ++ err), world)
  | .ok parsed =>
    let request := parsed.SetPublicKey (Metadata.get received.2 "pub_key")
    match handlers request.Command with
    | none => (Fail ("handler not found for command: " ++ request.Command), world)
    | some handler => handler request logger parameters world

/-- The strictly synchronous dialogue of the specification: each message is
received and answered before the next one is received. -/
def dialogue {σ π : Type} (ParseRequest : List String → Except String Request)
    (handlers : Handlers σ π) (logger : Logger) (parameters : List π) :
    List (List String × Metadata) → σ → List (Event π)
  | [], _ => []
  | received :: rest, world =>
    let (reply, world1) := answer ParseRequest handlers logger parameters received world
    Event.recv (.ok received) :: Event.send reply ::
      dialogue ParseRequest handlers logger parameters rest world1

/-- The events of the transport: receives and sends. -/
def Event.onWire {π : Type} : Event π → Bool
  | Event.recv _ => true
  | Event.send _ => true
  | _ => false

/-- The handler invocations of a trace. -/
def Event.isInvoke {π : Type} : Event π → Bool
  | Event.invoke _ _ _ _ => true
  | _ => false

/-- The sends of a trace. -/
def Event.isSend {π : Type} : Event π → Bool
  | Event.send _ => true
  | _ => false

/-- An exchange whose receive fails or, for a controller that replies, whose send fails. -/
def Exchange.broken (c : Controller) (x : Exchange) : Bool :=
  match x.recv with
  | .error _ => true
  | .ok _ => c.is_repliable && x.send.isSome

/-! ## A small service, used to run the definitions -/

namespace Sample

def service : Service :=
  { Name := "database", url := "inproc://database", limited_this := false,
    limited_inproc := true }

def controller : Controller :=
  { service := service, logger := { name := "reply_database" }, socket_type := SocketType.REP }

/-- A parser that accepts one-frame messages whose frame is not empty. -/
def parse : List String → Except String Request
  | [frame] =>
    if frame = "" then .error "empty" else
      .ok { Command := frame, Parameters := [], public_key := "" }
  | _ => .error "frames"

/-- A handler that counts its invocations in the world and fails on every other one. -/
def count : HandleFunc Nat Unit := fun request _ _ world =>
  if world % 2 = 0 then
    ({ Status := ReplyStatus.OK, Message := "", Parameters := request.Parameters }, world + 1)
  else (Fail "odd", world + 1)

def handlers : Handlers Nat Unit := fun command =>
  if command = "count" then some count else none

def incoming (frames : List String) (send : Error) : Exchange :=
  { recv := .ok (frames, [("pub_key", "key")]), send := send }

def parameters : DatabaseParameters :=
  { hostname := "localhost", port := "3306", name := "seascape_sds", timeout := 10000000000 }

def database : Database :=
  { Connection := some 1, connectionMutex := false, parameters := parameters,
    logger := { name := "main" } }

def credentials : DatabaseCredentials := { Username := "root", Password := "tiger" }

def seconds (d : Duration) : String := toString (d / 1000000000) ++ "s"

def decode : KeyValue → Except String DatabaseCredentials
  | [("username", Value.text u), ("password", Value.text p)] =>
    .ok { Username := u, Password := p }
  | _ => .error "invalid"

def newCredentials : Request :=
  { Command := "new-credentials",
    Parameters := [("username", Value.text "root"), ("password", Value.text "tiger")],
    public_key := "" }

end Sample

/-! ## Log records -/

/-- The log records of a trace, in order: the logger called, the message and the
fields that the call passed. -/
def logs : List DbEvent → List (Logger × String × List (String × LogValue))
  | [] => []
  | DbEvent.info logger message fields :: rest => (logger, message, fields) :: logs rest
  | _ :: rest => logs rest

/-! ## Configuration (`mysql.go`) -/

/-- The value of a configuration parameter. -/
inductive Setting where
  | text (s : String)
  | uint64 (n : Nat)
  deriving Repr, DecidableEq

/-- Modelled from the spec: `configuration.Config` of the service library, which is
not among the sources. It keeps the values that the user provided and the default
values; "the values are the default values if it wasn't provided by the user". -/
structure Config where
  provided : List (String × Setting)
  defaults : List (String × Setting)
  deriving Repr, DecidableEq

/-- Modelled from the spec: the value of a parameter, the provided one first and the
default one otherwise. -/
def Config.value (appConfig : Config) (name : String) : Option Setting :=
  match appConfig.provided.lookup name with
  | some setting => some setting
  | none => appConfig.defaults.lookup name

/-- Modelled from the spec: `Config.GetString`; a parameter without value reads as
the empty string. -/
def Config.GetString (appConfig : Config) (name : String) : String :=
  match appConfig.value name with
  | some (Setting.text s) => s
  | some (Setting.uint64 n) => toString n
  | none => ""

/-- Modelled from the spec: `Config.GetUint64`, a Go `uint64`; a parameter without
value reads as zero. -/
def Config.GetUint64 (appConfig : Config) (name : String) : Nat :=
  match appConfig.value name with
  | some (Setting.uint64 n) => n % 2 ^ 64
  | some (Setting.text s) => (s.toNat?.getD 0) % 2 ^ 64
  | none => 0

/-- Modelled from the spec: `Config.SetDefault`, which sets the default value of one
parameter over an earlier default value. -/
def Config.SetDefault (appConfig : Config) (name : String) (setting : Setting) : Config :=
  { appConfig with defaults := (name, setting) :: appConfig.defaults }

/-- Type `configuration.DefaultConfig`; a parameter that is required from the user
has the default value nil. -/
structure DefaultConfig where
  Title : String
  Parameters : List (String × Option Setting)
  deriving Repr, DecidableEq

/-- Modelled from the spec: `Config.SetDefaults`, which sets the default value of
every parameter of the given defaults that has one. -/
def Config.SetDefaults (appConfig : Config) (defaultConfig : DefaultConfig) : Config :=
  defaultConfig.Parameters.foldl
    (fun config parameter =>
      match parameter.2 with
      | some setting => config.SetDefault parameter.1 setting
      | none => config)
    appConfig

/-- DatabaseConfigurations: the configuration parameters; the values are the default
values if it was not provided by the user. -/
def DatabaseConfigurations : DefaultConfig :=
  { Title := "Database",
    Parameters :=
      [("SDS_DATABASE_HOST", some (Setting.text "localhost")),
       ("SDS_DATABASE_PORT", some (Setting.text "3306")),
       ("SDS_DATABASE_NAME", some (Setting.text "seascape_sds")),
       ("SDS_DATABASE_TIMEOUT", some (Setting.uint64 10)),
       ("SDS_DATABASE_USERNAME", some (Setting.text "root")),
       ("SDS_DATABASE_PASSWORD", some (Setting.text "tiger"))] }

/-- The Go `int64` that an integer wraps to. -/
def int64 (n : Int) : Int :=
  (n + 2 ^ 63) % 2 ^ 64 - 2 ^ 63

/-- Constant `time.Second`, in nanoseconds. -/
def Second : Duration := 1000000000

/-- Function `GetParameters`: the database parameters fetched from the configuration.
The duration is the int64 product `time.Duration(timeout) * time.Second`. -/
def GetParameters (appConfig : Config) : Except String DatabaseParameters :=
  let timeout := appConfig.GetUint64 "SDS_DATABASE_TIMEOUT"
  if timeout > TimeoutCap then
    .error ("'SDS_DATABASE_TIMEOUT' can not be greater than " ++ toString TimeoutCap ++
      " (seconds)")
  else if timeout = 0 then
    .error "the 'SDS_DATABASE_TIMEOUT' can not be zero"
  else
    .ok { hostname := appConfig.GetString "SDS_DATABASE_HOST",
          port := appConfig.GetString "SDS_DATABASE_PORT",
          name := appConfig.GetString "SDS_DATABASE_NAME",
          timeout := int64 (int64 timeout * Second) }

/-- Function `GetDefaultCredentials`: the default user and password that have access
to the database. -/
def GetDefaultCredentials (appConfig : Config) : DatabaseCredentials :=
  { Username := appConfig.GetString "SDS_DATABASE_USERNAME",
    Password := appConfig.GetString "SDS_DATABASE_PASSWORD" }

/-! ## Query builders (`handler/handler.go`) -/

/-- The loop that the builders use to list names: each name, followed by the
separator unless it is the last one. -/
def joined (separator : String) : List String → String
  | [] => ""
  | [name] => name
  | name :: rest => name ++ separator ++ joined separator rest

/-- Method `BuildSelectQuery`: creates a SELECT SQL query. -/
def DatabaseQueryRequest.BuildSelectQuery (request : DatabaseQueryRequest) :
    Except String String :=
  if request.Tables.length = 0 then
    .error "missing Tables parameter"
  else if request.Where ≠ "" ∧ request.Arguments.length = 0 then
    .error "missing Arguments for Where clause"
  else
    let str := "SELECT " ++
      (if request.Fields.length = 0 then " * FROM "
       else joined ", " request.Fields ++ " FROM ") ++
      joined ", " request.Tables ++ " WHERE "
    if request.Where = "" then .ok (str ++ " 1 ") else .ok (str ++ request.Where)

/-- Method `BuildExistQuery`. -/
def DatabaseQueryRequest.BuildExistQuery (request : DatabaseQueryRequest) :
    Except String String :=
  if request.Arguments.length = 0 then
    .error "missing Arguments parameter"
  else if request.Tables.length = 0 then
    .error "missing Tables parameter"
  else if request.Where = "" then
    .error "missing Where parameter"
  else
    .ok ("SELECT 1 FROM " ++ joined ", " request.Tables ++ " WHERE " ++ request.Where)

/-- Method `BuildSelectRowQuery`: creates a SELECT SQL query for fetching one row. -/
def DatabaseQueryRequest.BuildSelectRowQuery (request : DatabaseQueryRequest) :
    Except String String :=
  match request.BuildSelectQuery with
  | .error err => .error ("BuildSelectQuery: " ++ err)
  | .ok query => .ok (query ++ " LIMIT 1 ")

/-- Method `BuildUpdateQuery`: creates an UPDATE SQL query. -/
def DatabaseQueryRequest.BuildUpdateQuery (request : DatabaseQueryRequest) :
    Except String String :=
  if request.Fields.length = 0 then
    .error "missing Fields parameter"
  else if request.Tables.length = 0 then
    .error "missing Tables parameter"
  else if request.Arguments.length = 0 then
    .error "missing Arguments parameter"
  else if request.Where = "" then
    .error "missing Where parameter, updating all rows is prohibited"
  else
    .ok ("UPDATE " ++ joined ", " request.Tables ++ " SET " ++
      joined ", " (request.Fields.map fun field => field ++ " = ?") ++
      " WHERE " ++ request.Where)

/-- Method `BuildInsertRowQuery`: creates an INSERT INTO SQL query. -/
def DatabaseQueryRequest.BuildInsertRowQuery (request : DatabaseQueryRequest) :
    Except String String :=
  if request.Fields.length = 0 then
    .error "missing Fields parameter"
  else if request.Tables.length = 0 then
    .error "missing Tables parameter"
  else if request.Arguments.length ≠ request.Fields.length then
    .error "arguments to pass in insert clause mismatch"
  else
    .ok ("INSERT INTO " ++ joined ", " request.Tables ++ " (" ++
      joined ", " request.Fields ++ ") VALUES ( " ++
      joined ", " (request.Fields.map fun _ => "?") ++ ") ")

/-- Method `BuildDeleteQuery`: creates a DELETE FROM SQL query. -/
def DatabaseQueryRequest.BuildDeleteQuery (request : DatabaseQueryRequest) :
    Except String String :=
  if request.Fields.length = 0 then
    .error "missing Fields parameter"
  else if request.Tables.length = 0 then
    .error "missing Tables parameter"
  else
    let str := "DELETE FROM " ++ joined ", " request.Tables
    if request.Where = "" then .ok str
    else .ok (str ++ " WHERE " ++ joined " AND " request.Fields)

/-- Method `DeserializeBytes`: an argument that is a string and that
`data_type.DecodeJsonPrefixed` decodes into a non-empty string is replaced, in the
arguments that the caller holds, by the bytes of that string. It returns nil. -/
def DatabaseQueryRequest.DeserializeBytes (DecodeJsonPrefixed : String → String)
    (request : DatabaseQueryRequest) : Error × DatabaseQueryRequest :=
  (none,
    { request with
      Arguments := request.Arguments.map fun rawArg =>
        match rawArg with
        | Value.text baseStr =>
          if DecodeJsonPrefixed baseStr ≠ "" then Value.bytes (DecodeJsonPrefixed baseStr)
          else rawArg
        | _ => rawArg })

/-! ## Database handlers (`controller.go`) -/

/-- Type `sql.ColumnType`, as far as the handlers read it. -/
structure ColumnType where
  Name : String
  DatabaseTypeName : String
  deriving Repr, DecidableEq

/-- The scripted `sql.Rows` of one query: the result of `ColumnTypes`, for each row
that `Next` reports the result of `Scan`, and the error of `Close`. -/
structure ResultSet where
  columnTypes : Except String (List ColumnType)
  scans : List (Except String (List Cell))
  closed : Error

/-- The scripted `database/sql` of one handler call: the result of
`Connection.Query` and, for `Connection.Exec`, the result of `RowsAffected`. -/
structure Answers where
  query : Except String ResultSet
  exec : Except String (Except String Int)

/-- The bodies of the replies of the handlers, types `SelectRowReply`,
`SelectAllReply`, `ExistReply`, `InsertReply`, `DeleteReply` and `UpdateReply`. -/
inductive ReplyBody where
  | SelectRowReply (Outputs : Row)
  | SelectAllReply (Rows : List Row)
  | ExistReply (Exist : Bool)
  | InsertReply
  | DeleteReply
  | UpdateReply
  deriving Repr, DecidableEq

/-- The key-value of a reply body, by the json names of its fields. -/
def ReplyBody.fields : ReplyBody → KeyValue
  | ReplyBody.SelectRowReply outputs => [("outputs", Value.object outputs)]
  | ReplyBody.SelectAllReply rows => [("rows", Value.objects rows)]
  | ReplyBody.ExistReply exist => [("exist", Value.bool exist)]
  | ReplyBody.InsertReply => []
  | ReplyBody.DeleteReply => []
  | ReplyBody.UpdateReply => []

/-- The functions of the libraries that the handlers call and that are not among
the sources: `request.Parameters.Interface` into a `DatabaseQueryRequest`,
`database.SetValue`, `data_type.DecodeJsonPrefixed`, and the error of the encoding of
a reply body in `command.Reply`. -/
structure Library where
  Interface : KeyValue → Except String DatabaseQueryRequest
  SetValue : Row → ColumnType → Cell → Except String Row
  DecodeJsonPrefixed : String → String
  encode : ReplyBody → Error

/-- Modelled from the spec: `command.Reply` of the service library, which is not
among the sources: the OK reply with an empty message whose parameters are the body,
or the error of the encoding. -/
def commandReply (library : Library) (body : ReplyBody) : Except String Reply :=
  match library.encode body with
  | some err => .error err
  | none => .ok { Status := ReplyStatus.OK, Message := "", Parameters := body.fields }

/-- The connection that a handler works on: none when `db == nil || db.Connection == nil`. -/
def current (db : Option Database) : Option Handle :=
  match db with
  | none => none
  | some database => database.Connection

/-- A handler that returns a reply after the given calls; the handlers below leave
the global `db` as it is and never call `Reconnect`. -/
def replied (db : Option Database) (trace : List DbEvent) (reply : Reply) : Handled :=
  { outcome := Outcome.returned reply, db := db, reconnects := [], trace := trace }

/-- The loop `for i, v := range scans` of the select handlers: the values of one row
are set in the key-value, column by column. -/
def setValues (library : Library) : Row → List ColumnType → List Cell → Except String Row
  | row, fieldType :: fieldTypes, v :: scans =>
    match library.SetValue row fieldType v with
    | .error err =>
      .error ("failed to set value for field " ++ fieldType.Name ++ " of " ++
        fieldType.DatabaseTypeName ++ " type: " ++ err)
    | .ok row1 => setValues library row1 fieldTypes scans
  | row, _, _ => .ok row

/-- The loop `for rows.Next()` of `onSelectAll`: every row is read into a key-value of
its own; the error is the message of the FAIL reply. -/
def readAll (library : Library) (fieldTypes : List ColumnType) :
    List (Except String (List Cell)) → List Row → Except String (List Row)
  | [], replyObjects => .ok replyObjects
  | .error err :: _, _ => .error ("failed to read database data into code: " ++ err)
  | .ok scans :: rest, replyObjects =>
    match setValues library [] fieldTypes scans with
    | .error message => .error message
    | .ok row => readAll library fieldTypes rest (replyObjects ++ [row])

/-- The loop `for rows.Next()` of `onSelectRow`: every row is read into the one
key-value `row`; the error is the message of the FAIL reply. -/
def readRow (library : Library) (fieldTypes : List ColumnType) :
    List (Except String (List Cell)) → Row → Except String Row
  | [], row => .ok row
  | .error err :: _, _ => .error ("failed to read database data into code: " ++ err)
  | .ok scans :: rest, row =>
    match setValues library row fieldTypes scans with
    | .error message => .error message
    | .ok row1 => readRow library fieldTypes rest row1

/-- Handler `onSelectAll`: selects all rows from the database. -/
def onSelectAll (library : Library) (db : Option Database) (request : Request)
    (sql : Answers) : Handled :=
  match current db with
  | none => replied db [] (Fail "database.Connection is nil, please open the connection first")
  | some connection =>
    match library.Interface request.Parameters with
    | .error err =>
      replied db [DbEvent.parse request.Parameters] (Fail ("parameter validation:" ++ err))
    | .ok queryParameters =>
      let built := [DbEvent.parse request.Parameters,
        DbEvent.build "BuildSelectQuery" queryParameters]
      match queryParameters.BuildSelectQuery with
      | .error err => replied db built (Fail ("query_parameter.BuildSelectQuery: " ++ err))
      | .ok query =>
        let asked := built ++
          [if queryParameters.Where ≠ "" then
             DbEvent.query connection query queryParameters.Arguments
           else DbEvent.query connection query []]
        match sql.query with
        | .error err => replied db asked (Fail ("db.Connection.Query: " ++ err))
        | .ok rows =>
          match rows.columnTypes with
          | .error err => replied db asked (Fail ("rows.ColumnTypes: " ++ err))
          | .ok fieldTypes =>
            match readAll library fieldTypes rows.scans [] with
            | .error message => replied db asked (Fail message)
            | .ok replyObjects =>
              match commandReply library (ReplyBody.SelectAllReply replyObjects) with
              | .error err => replied db asked (Fail ("command.Reply: " ++ err))
              | .ok replyMessage => replied db asked replyMessage

/-- Handler `onExist`: checks whether there are any rows that match the query. The
reply made for a failing `rows.Close` is dropped. -/
def onExist (library : Library) (db : Option Database) (request : Request)
    (sql : Answers) : Handled :=
  match current db with
  | none => replied db [] (Fail "database.Connection is nil, please open the connection first")
  | some connection =>
    match library.Interface request.Parameters with
    | .error err =>
      replied db [DbEvent.parse request.Parameters] (Fail ("parameter validation:" ++ err))
    | .ok queryParameters =>
      let built := [DbEvent.parse request.Parameters,
        DbEvent.build "BuildExistQuery" queryParameters]
      match queryParameters.BuildExistQuery with
      | .error err => replied db built (Fail ("query_parameter.BuildExistQuery: " ++ err))
      | .ok query =>
        let asked := built ++ [DbEvent.query connection query queryParameters.Arguments]
        match sql.query with
        | .error err => replied db asked (Fail ("db.Connection.Query: " ++ err))
        | .ok rows =>
          let exist := !rows.scans.isEmpty
          match commandReply library (ReplyBody.ExistReply exist) with
          | .error err => replied db asked (Fail ("command.Reply: " ++ err))
          | .ok replyMessage => replied db (asked ++ [DbEvent.rowsClose]) replyMessage

/-- Handler `onSelectRow`: reads the row only once. The deferred `rows.Close` runs on
every return after the query and warns when it fails. -/
def onSelectRow (library : Library) (db : Option Database) (request : Request)
    (sql : Answers) : Handled :=
  match db, current db with
  | some database, some connection =>
    match library.Interface request.Parameters with
    | .error err =>
      replied db [DbEvent.parse request.Parameters] (Fail ("parameter validation:" ++ err))
    | .ok queryParameters =>
      let built := [DbEvent.parse request.Parameters,
        DbEvent.build "BuildSelectRowQuery" queryParameters]
      match queryParameters.BuildSelectRowQuery with
      | .error err => replied db built (Fail ("query_parameter.BuildSelectRowQuery: " ++ err))
      | .ok query =>
        let asked := built ++ [DbEvent.query connection query queryParameters.Arguments]
        match sql.query with
        | .error err => replied db asked (Fail ("db.Connection.Query: " ++ err))
        | .ok rows =>
          let deferred : List DbEvent :=
            match rows.closed with
            | some err =>
              [DbEvent.rowsClose,
               DbEvent.warn database.logger "failed to close the database connection: "
                 [("error", LogValue.text err)]]
            | none => [DbEvent.rowsClose]
          match rows.columnTypes with
          | .error err => replied db (asked ++ deferred) (Fail ("rows.ColumnTypes: " ++ err))
          | .ok fieldTypes =>
            match readRow library fieldTypes rows.scans [] with
            | .error message => replied db (asked ++ deferred) (Fail message)
            | .ok row =>
              let noResult := rows.scans.isEmpty
              if noResult then replied db (asked ++ deferred) (Fail "not found")
              else
                match commandReply library (ReplyBody.SelectRowReply row) with
                | .error err => replied db (asked ++ deferred) (Fail ("command.Reply: " ++ err))
                | .ok replyMessage => replied db (asked ++ deferred) replyMessage
  | _, _ => replied db [] (Fail "database.Connection is nil, please open the connection first")

/-- The end that `onDelete`, `onInsert` and `onUpdate` share: `Connection.Exec`,
`RowsAffected`, the FAIL for no affected row and the reply. -/
def executed (library : Library) (db : Option Database) (trace : List DbEvent)
    (sql : Answers) (none_affected : String) (body : ReplyBody) : Handled :=
  match sql.exec with
  | .error err => replied db trace (Fail ("db.Connection.Exec: " ++ err))
  | .ok result =>
    match result with
    | .error err => replied db trace (Fail ("result.RowsAffected: " ++ err))
    | .ok affected =>
      if affected = 0 then replied db trace (Fail none_affected)
      else
        match commandReply library body with
        | .error err => replied db trace (Fail ("command.Reply: " ++ err))
        | .ok replyMessage => replied db trace replyMessage

/-- Handler `onDelete`: executes the deletion. -/
def onDelete (library : Library) (db : Option Database) (request : Request)
    (sql : Answers) : Handled :=
  match current db with
  | none => replied db [] (Fail "database.Connection is nil, please open the connection first")
  | some connection =>
    match library.Interface request.Parameters with
    | .error err =>
      replied db [DbEvent.parse request.Parameters] (Fail ("parameter validation:" ++ err))
    | .ok queryParameters =>
      let built := [DbEvent.parse request.Parameters,
        DbEvent.build "BuildDeleteQuery" queryParameters]
      match queryParameters.BuildDeleteQuery with
      | .error err => replied db built (Fail ("query_parameter.BuildDeleteQuery: " ++ err))
      | .ok query =>
        executed library db
          (built ++ [DbEvent.exec connection query queryParameters.Arguments]) sql
          "no rows were deleted" ReplyBody.DeleteReply

/-- Handler `onInsert`: executes the insert. -/
def onInsert (library : Library) (db : Option Database) (request : Request)
    (sql : Answers) : Handled :=
  match current db with
  | none => replied db [] (Fail "database.Connection is nil, please open the connection first")
  | some connection =>
    match library.Interface request.Parameters with
    | .error err =>
      replied db [DbEvent.parse request.Parameters] (Fail ("parameter validation:" ++ err))
    | .ok parsed =>
      match parsed.DeserializeBytes library.DecodeJsonPrefixed with
      | (some err, _) =>
        replied db [DbEvent.parse request.Parameters]
          (Fail ("serialization failed: %w" ++ err))
      | (none, queryParameters) =>
        let built := [DbEvent.parse request.Parameters,
          DbEvent.build "BuildInsertRowQuery" queryParameters]
        match queryParameters.BuildInsertRowQuery with
        | .error err =>
          replied db built (Fail ("query_parameter.BuildInsertRowQuery: " ++ err))
        | .ok query =>
          executed library db
            (built ++ [DbEvent.exec connection query queryParameters.Arguments]) sql
            "no rows were inserted or updated" ReplyBody.InsertReply

/-- Handler `onUpdate`: executes the row update. -/
def onUpdate (library : Library) (db : Option Database) (request : Request)
    (sql : Answers) : Handled :=
  match current db with
  | none => replied db [] (Fail "database.Connection is nil, please open the connection first")
  | some connection =>
    match library.Interface request.Parameters with
    | .error err =>
      replied db [DbEvent.parse request.Parameters] (Fail ("parameter validation:" ++ err))
    | .ok parsed =>
      match parsed.DeserializeBytes library.DecodeJsonPrefixed with
      | (some err, _) =>
        replied db [DbEvent.parse request.Parameters]
          (Fail ("serialization failed: %w" ++ err))
      | (none, queryParameters) =>
        let built := [DbEvent.parse request.Parameters,
          DbEvent.build "BuildUpdateQuery" queryParameters]
        match queryParameters.BuildUpdateQuery with
        | .error err =>
          replied db built (Fail ("query_parameter.BuildUpdateQuery: " ++ err))
        | .ok query =>
          executed library db
            (built ++ [DbEvent.exec connection query queryParameters.Arguments]) sql
            "no rows were inserted or updated" ReplyBody.UpdateReply

/-- A text contains another one. -/
def contains (text part : String) : Prop :=
  ∃ before behind : String, text = before ++ part ++ behind

/-! ## Lease renewal (`security/vault/vault_renewal.go`) -/

/-- Type `renewResult`: a bitmask (a Go `uint8`) which could contain one or more of
the values below. -/
abbrev renewResult := Nat

def renewError : renewResult := 1 <<< 0

def exitRequested : renewResult := 1 <<< 1

/-- The auth token will be revoked soon. -/
def expiringAuthToken : renewResult := 1 <<< 2

/-- The lease of the database credentials will be revoked soon. -/
def expiringDatabaseCredentialsLease : renewResult := 1 <<< 3

/-- A `*hashicorp.Secret`, identified by its lease. -/
abbrev Secret := String

/-- The part of `Vault` that the renewal loop reads and writes. -/
structure Vault where
  auth_token : Secret
  database_auth_token : Secret
  deriving Repr, DecidableEq

/-- A communication that a `select` of `renewLeases` can proceed with: the context
is done, a watcher publishes on its `DoneCh` (with the error it carries, nil or not),
or a watcher publishes a renewal on its `RenewCh` (with the remaining duration). -/
inductive Signal where
  | ctxDone
  | authTokenDone (err : Error)
  | databaseCredentialsDone (err : Error)
  | authTokenRenew (leaseDuration : Int)
  | databaseCredentialsRenew (leaseDuration : Int)
  deriving Repr, DecidableEq

/-- The select of the branch without the authentication layer has no case for the
watcher of the auth token. -/
def Signal.withoutAuth : Signal → Bool
  | Signal.ctxDone => true
  | Signal.databaseCredentialsDone _ => true
  | Signal.databaseCredentialsRenew _ => true
  | _ => false

/-- One moment at which a `select` is waiting: the communications that can proceed,
and the pseudo-random pick of the Go runtime among those of them that the select has
a case for. -/
structure Moment where
  ready : List Signal
  pick : Nat
  deriving Repr, DecidableEq

/-- The communication that a `select` proceeds with at a moment, none when none of
its cases can proceed. -/
def Moment.chosen (moment : Moment) (cases : Signal → Bool) : Option Signal :=
  (moment.ready.filter cases)[moment.pick % (moment.ready.filter cases).length]?

/-- What the renewal loop does that is visible from outside; `login` and
`GetDatabaseCredentials` are methods of the vault and carry the vault they are called
on, `fatal` is `log.Fatalf`, `log` a line of `log.Println` or `log.Printf`. -/
inductive VaultEvent where
  | log (line : String)
  | NewLifetimeWatcher (secret : Secret)
  | Start (secret : Secret)
  | Stop (secret : Secret)
  | login (v : Vault)
  | GetDatabaseCredentials (v : Vault)
  | db_reconnect (credentials : DatabaseCredentials)
  | fatal (message : String)
  deriving Repr, DecidableEq

/-- How a call of `renewLeases` ends: it returns, it panics, or it waits in its
`select` for a communication that the script never delivers. -/
inductive Renewed where
  | returned (result : renewResult) (err : Error)
  | panicked (reason : String)
  | watching
  deriving Repr, DecidableEq

/-- The scripted surroundings of one call of `renewLeases`: the value of
SDS_VAULT_SECURE, the errors of the two `NewLifetimeWatcher` calls, and the moments
of the selects. -/
structure Watch where
  secure : String
  authTokenWatcher : Error
  databaseCredentialsWatcher : Error
  moments : List Moment
  deriving Repr, DecidableEq

/-- The `for` loop of `renewLeases` that monitors the events of both watchers.
`authTokenWatcher` is the variable of the function scope that the first select reads,
`none` when it is the nil pointer, on which `DoneCh()` panics as soon as the select
evaluates its channels. -/
def monitor (secure : String) (authTokenWatcher : Option Secret) (moments : List Moment) :
    Renewed × List VaultEvent :=
  if secure = "true" then
    match authTokenWatcher with
    | none => (Renewed.panicked "invalid memory address or nil pointer dereference", [])
    | some _ =>
      match moments with
      | [] => (Renewed.watching, [])
      | moment :: rest =>
        match moment.chosen (fun _ => true) with
        | none => monitor secure authTokenWatcher rest
        | some Signal.ctxDone => (Renewed.returned exitRequested none, [])
        | some (Signal.authTokenDone err) =>
          -- Leases created by a token get revoked when the token is revoked.
          (Renewed.returned (expiringAuthToken ||| expiringDatabaseCredentialsLease) err, [])
        | some (Signal.databaseCredentialsDone err) =>
          (Renewed.returned expiringDatabaseCredentialsLease err, [])
        | some (Signal.authTokenRenew leaseDuration) =>
          let (ended, trace) := monitor secure authTokenWatcher rest
          (ended, VaultEvent.log ("auth token: successfully renewed; remaining duration: " ++
            toString leaseDuration ++ "s") :: trace)
        | some (Signal.databaseCredentialsRenew leaseDuration) =>
          let (ended, trace) := monitor secure authTokenWatcher rest
          (ended, VaultEvent.log
            ("database credentials: successfully renewed; remaining lease duration: " ++
              toString leaseDuration ++ "s") :: trace)
  else
    match moments with
    | [] => (Renewed.watching, [])
    | moment :: rest =>
      match moment.chosen Signal.withoutAuth with
      | some Signal.ctxDone => (Renewed.returned exitRequested none, [])
      | some (Signal.databaseCredentialsDone err) =>
        (Renewed.returned expiringDatabaseCredentialsLease err, [])
      | some (Signal.databaseCredentialsRenew leaseDuration) =>
        let (ended, trace) := monitor secure authTokenWatcher rest
        (ended, VaultEvent.log
          ("database credentials: successfully renewed; remaining lease duration: " ++
            toString leaseDuration ++ "s") :: trace)
      | _ => monitor secure authTokenWatcher rest

/-- What one call of `renewLeases` did and how it ended. -/
structure Cycle where
  ended : Renewed
  trace : List VaultEvent
  deriving Repr, DecidableEq

/-- Method `renewLeases`. The watcher that the secure branch creates is bound by `:=`
to a variable of the block of the `if`; the `authTokenWatcher` of the function scope,
which the selects read, is declared by `var` and never assigned. The deferred calls
run in reverse order on a return and on a panic. -/
def Vault.renewLeases (_v : Vault) (authToken databaseCredentialsLease : Secret)
    (watch : Watch) : Cycle :=
  let authTokenWatcher : Option Secret := none
  let begun := VaultEvent.log "renew cycle: begin"
  let finished := VaultEvent.log "renew cycle: end"
  -- auth token
  match (if watch.secure = "true" then some watch.authTokenWatcher else none) with
  | some (some err) =>
    { ended := Renewed.returned renewError
        (some ("unable to initialize auth token lifetime watcher: " ++ err)),
      trace := [begun, VaultEvent.NewLifetimeWatcher authToken, finished] }
  | created =>
    let started : List VaultEvent :=
      if created.isSome then
        [VaultEvent.NewLifetimeWatcher authToken, VaultEvent.Start authToken]
      else []
    let deferred : List VaultEvent :=
      if created.isSome then [VaultEvent.Stop authToken, finished] else [finished]
    -- database credentials
    match watch.databaseCredentialsWatcher with
    | some err =>
      { ended := Renewed.returned renewError
          (some ("unable to initialize database credentials lifetime watcher: " ++ err)),
        trace := begun :: started ++
          [VaultEvent.NewLifetimeWatcher databaseCredentialsLease] ++ deferred }
    | none =>
      let watched := begun :: started ++
        [VaultEvent.NewLifetimeWatcher databaseCredentialsLease,
         VaultEvent.Start databaseCredentialsLease]
      -- monitor events from both watchers
      match monitor watch.secure authTokenWatcher watch.moments with
      | (Renewed.watching, monitored) =>
        { ended := Renewed.watching, trace := watched ++ monitored }
      | (ended, monitored) =>
        { ended := ended,
          trace := watched ++ monitored ++
            VaultEvent.Stop databaseCredentialsLease :: deferred }

/-- The scripted surroundings of one pass of the loop of `PeriodicallyRenewLeases`:
the watch cycle, the result of `v.login`, the result of `v.GetDatabaseCredentials`
(the credentials, and the value of `v.database_auth_token` after the call) and the
error of `db_reconnect`. -/
structure Round where
  watch : Watch
  login : Except String Secret
  credentials : Except String (DatabaseCredentials × Secret)
  reconnect : Error

/-- How the renewal loop ends: it returns, `log.Fatalf` terminates the process, it
panics, or it waits in a select for ever. -/
inductive Ending where
  | returned
  | exited (message : String)
  | panicked (reason : String)
  | watching
  deriving Repr, DecidableEq

/-- A part of a pass of the loop: how the loop ended in it (`none` when the loop goes
on), the vault afterwards and the calls made. -/
structure Step where
  ended : Option Ending
  vault : Vault
  trace : List VaultEvent
  deriving Repr, DecidableEq

/-- The body of the loop of `PeriodicallyRenewLeases` that follows the call of
`renewLeases`, which returned `renewed` and `err`. -/
def Vault.recover (v : Vault) (renewed : renewResult) (err : Error) (round : Round) : Step :=
  match err with
  | some err =>
    { ended := some (Ending.exited ("renew error: " ++ err)), vault := v,
      trace := [VaultEvent.fatal ("renew error: " ++ err)] }
  | none =>
    if renewed &&& exitRequested ≠ 0 then
      { ended := some Ending.returned, vault := v, trace := [] }
    else
      let first : Step :=
        if renewed &&& expiringAuthToken ≠ 0 then
          let said := VaultEvent.log "auth token: can no longer be renewed; will log in again"
          match round.login with
          | .error err =>
            { ended := some (Ending.exited ("login authentication error: " ++ err)),
              vault := v,
              trace := [said, VaultEvent.login v,
                VaultEvent.fatal ("login authentication error: " ++ err)] }
          | .ok auth_token =>
            { ended := none, vault := { v with auth_token := auth_token },
              trace := [said, VaultEvent.login v] }
        else { ended := none, vault := v, trace := [] }
      match first.ended with
      | some ending => { first with ended := some ending }
      | none =>
        if renewed &&& expiringDatabaseCredentialsLease ≠ 0 then
          let said := VaultEvent.log ("database credentials: can no longer be renewed; " ++
            "will fetch new credentials & reconnect")
          match round.credentials with
          | .error err =>
            { ended := some (Ending.exited ("database credentials error: " ++ err)),
              vault := first.vault,
              trace := first.trace ++ [said, VaultEvent.GetDatabaseCredentials first.vault,
                VaultEvent.fatal ("database credentials error: " ++ err)] }
          | .ok (databaseCredentials, lease) =>
            let fetched := { first.vault with database_auth_token := lease }
            match round.reconnect with
            | some err =>
              { ended := some (Ending.exited ("database connection error: " ++ err)),
                vault := fetched,
                trace := first.trace ++ [said, VaultEvent.GetDatabaseCredentials first.vault,
                  VaultEvent.db_reconnect databaseCredentials,
                  VaultEvent.fatal ("database connection error: " ++ err)] }
            | none =>
              { ended := none, vault := fetched,
                trace := first.trace ++ [said, VaultEvent.GetDatabaseCredentials first.vault,
                  VaultEvent.db_reconnect databaseCredentials] }
        else first

/-- One pass of the loop of `PeriodicallyRenewLeases`: the call of `renewLeases` on
the secrets of the vault, then the rest of the body. -/
def Vault.iteration (v : Vault) (round : Round) : Step :=
  let cycle := v.renewLeases v.auth_token v.database_auth_token round.watch
  match cycle.ended with
  | Renewed.watching => { ended := some Ending.watching, vault := v, trace := cycle.trace }
  | Renewed.panicked reason =>
    { ended := some (Ending.panicked reason), vault := v, trace := cycle.trace }
  | Renewed.returned renewed err =>
    let step := v.recover renewed err round
    { step with trace := cycle.trace ++ step.trace }

/-- The `for` loop of `PeriodicallyRenewLeases` over the scripted rounds: pass after
pass until one ends the loop; `ended` is none when the rounds are used up. -/
def Vault.loop (v : Vault) : List Round → Step
  | [] => { ended := none, vault := v, trace := [] }
  | round :: rest =>
    let once := v.iteration round
    match once.ended with
    | some ending => { once with ended := some ending }
    | none =>
      let next := once.vault.loop rest
      { next with trace := once.trace ++ next.trace }

/-- Method `PeriodicallyRenewLeases`; `db_reconnect` is the scripted error of each
round. The deferred last line is logged on a return and on a panic, not when
`log.Fatalf` terminates the process. -/
def Vault.PeriodicallyRenewLeases (v : Vault) (rounds : List Round) : Step :=
  let looped := v.loop rounds
  let deferred : List VaultEvent :=
    match looped.ended with
    | some Ending.returned => [VaultEvent.log "renew / recreate secrets loop: end"]
    | some (Ending.panicked _) => [VaultEvent.log "renew / recreate secrets loop: end"]
    | _ => []
  { looped with
    trace := VaultEvent.log "renew / recreate secrets loop: begin" :: looped.trace ++ deferred }

/-- The calls of `login`, `GetDatabaseCredentials` and `db_reconnect` of a trace. -/
def recoveries : List VaultEvent → List VaultEvent
  | [] => []
  | VaultEvent.login v :: rest => VaultEvent.login v :: recoveries rest
  | VaultEvent.GetDatabaseCredentials v :: rest =>
    VaultEvent.GetDatabaseCredentials v :: recoveries rest
  | VaultEvent.db_reconnect credentials :: rest =>
    VaultEvent.db_reconnect credentials :: recoveries rest
  | _ :: rest => recoveries rest

namespace Sample

def vault : Vault := { auth_token := "token-1", database_auth_token := "lease-1" }

/-- A round whose recovery calls all succeed. -/
def round (watch : Watch) : Round :=
  { watch := watch, login := .ok "token-2",
    credentials := .ok ({ Username := "v-user", Password := "v-pass" }, "lease-2"),
    reconnect := none }

end Sample

namespace Sample

/-- A library that reads the parameters `tables`, `where` and one argument, and sets
a value under the name of its column. -/
def library : Library :=
  { Interface := fun parameters =>
      match parameters with
      | [("tables", Value.text table), ("where", Value.text condition),
         ("arguments", argument)] =>
        .ok { Fields := [], Tables := [table], Where := condition, Arguments := [argument] }
      | _ => .error "invalid",
    SetValue := fun row fieldType v => .ok (row ++ [(fieldType.Name, v)]),
    DecodeJsonPrefixed := fun _ => "",
    encode := fun _ => none }

def selectRow : Request :=
  { Command := "select-row",
    Parameters := [("tables", Value.text "t"), ("where", Value.text "id=?"),
      ("arguments", Value.number 1)],
    public_key := "" }

def columns : List ColumnType :=
  [{ Name := "id", DatabaseTypeName := "INT" }, { Name := "body", DatabaseTypeName := "TEXT" }]

def oneRow : Answers :=
  { query := .ok { columnTypes := .ok columns,
                   scans := [.ok [Cell.number 1, Cell.text "abi"]], closed := none },
    exec := .error "not used" }

end Sample

namespace Sample

/-- A controller on a PULL socket, which cannot reply. -/
def puller : Controller :=
  { service := service, logger := { name := "pull_database" },
    socket_type := SocketType.PULL }

end Sample

/-! ## Measures on queries, traces and flags -/

/-- The number of placeholders `?` in a text of SQL. -/
def placeholders (text : String) : Nat :=
  text.toList.count '?'

/-- The warnings of a trace. -/
def Event.isWarn {π : Type} : Event π → Bool
  | Event.warn _ _ _ => true
  | _ => false

/-- The four flags of `renewResult`, in the order of the `const` block. -/
def renewFlags : List renewResult :=
  [renewError, exitRequested, expiringAuthToken, expiringDatabaseCredentialsLease]

/-- The bitwise OR of a set of flags, 0 for the empty set. -/
def orOf (flags : List renewResult) : renewResult :=
  flags.foldr (fun flag result => flag ||| result) 0

/-- The secrets for which a trace creates a lifetime watcher, in the order of the
calls of `NewLifetimeWatcher`. -/
def created : List VaultEvent → List Secret
  | [] => []
  | VaultEvent.NewLifetimeWatcher secret :: rest => secret :: created rest
  | _ :: rest => created rest

/-! ## Dispatcher: lemmas on the serve loop -/

section Dispatcher

variable {σ π : Type}

theorem reply_repliable (c : Controller) (h : c.is_repliable = true) (message : Reply)
    (send : Error) :
    (c.reply message send : List (Event π) × Error) =
      ([Event.send message],
        send.map (fun err => "recv error replying error %!w(MISSING)" ++ err)) := by
  cases send <;> simp [Controller.reply, h]

/-- Every controller that `NewReply` creates is one that replies. -/
theorem NewReply_is_repliable (s : Service) (child : Except String Logger) (socket : Error)
    (c : Controller) (h : NewReply s child socket = .ok c) : c.is_repliable = true := by
  unfold NewReply at h
  split at h
  · exact Except.noConfusion h
  · split at h
    · exact Except.noConfusion h
    · split at h
      · exact Except.noConfusion h
      · injection h with h
        rw [← h]
        rfl

theorem reply_not_repliable (c : Controller) (h : c.is_repliable = false) (message : Reply)
    (send : Error) :
    (c.reply message send : List (Event π) × Error) = ([], none) := by
  simp [Controller.reply, h]

theorem serve_nil (c : Controller) (ParseRequest : List String → Except String Request)
    (handlers : Handlers σ π) (parameters : List π) (world : σ) :
    c.serve ParseRequest handlers parameters [] world =
      { trace := [], world := world, result := none } := rfl

theorem serve_cons (c : Controller) (ParseRequest : List String → Except String Request)
    (handlers : Handlers σ π) (parameters : List π) (x : Exchange) (rest : List Exchange)
    (world : σ) :
    c.serve ParseRequest handlers parameters (x :: rest) world =
      match (c.pass ParseRequest handlers parameters x world).result with
      | some err =>
        { trace := (c.pass ParseRequest handlers parameters x world).trace,
          world := (c.pass ParseRequest handlers parameters x world).world,
          result := some err }
      | none =>
        let next := c.serve ParseRequest handlers parameters rest
          (c.pass ParseRequest handlers parameters x world).world
        { trace := (c.pass ParseRequest handlers parameters x world).trace ++ next.trace,
          world := next.world, result := next.result } := rfl

/-- Serving a script that continues after `pre`: when the loop is still running after
`pre` it goes on with `post` from the world that `pre` left, otherwise `post` is never
looked at. -/
theorem serve_append (c : Controller) (ParseRequest : List String → Except String Request)
    (handlers : Handlers σ π) (parameters : List π) (pre post : List Exchange) (world : σ) :
    c.serve ParseRequest handlers parameters (pre ++ post) world =
      match (c.serve ParseRequest handlers parameters pre world).result with
      | none =>
        let before := c.serve ParseRequest handlers parameters pre world
        let later := c.serve ParseRequest handlers parameters post before.world
        { trace := before.trace ++ later.trace, world := later.world, result := later.result }
      | some _ => c.serve ParseRequest handlers parameters pre world := by
  induction pre generalizing world with
  | nil => simp [serve_nil]
  | cons x rest ih =>
    rw [List.cons_append, serve_cons, serve_cons]
    cases hx : (c.pass ParseRequest handlers parameters x world).result with
    | some err => simp
    | none =>
      simp only []
      rw [ih]
      cases hr : (c.serve ParseRequest handlers parameters rest
        (c.pass ParseRequest handlers parameters x world).world).result <;> simp [hr]

/-- Every pass starts with its receive. -/
theorem pass_trace_head (c : Controller) (ParseRequest : List String → Except String Request)
    (handlers : Handlers σ π) (parameters : List π) (x : Exchange) (world : σ) :
    ∃ t, (c.pass ParseRequest handlers parameters x world).trace = Event.recv x.recv :: t := by
  unfold Controller.pass
  split
  · dsimp only
    split <;> exact ⟨_, rfl⟩
  · split
    · dsimp only
      split <;> exact ⟨_, rfl⟩
    · dsimp only
      split
      · split <;> exact ⟨_, rfl⟩
      · split <;> exact ⟨_, rfl⟩

/-- A loop that has a next exchange starts with the receive of that exchange. -/
theorem serve_trace_head (c : Controller) (ParseRequest : List String → Except String Request)
    (handlers : Handlers σ π) (parameters : List π) (y : Exchange) (rest : List Exchange)
    (world : σ) :
    ∃ t, (c.serve ParseRequest handlers parameters (y :: rest) world).trace =
      Event.recv y.recv :: t := by
  obtain ⟨t, ht⟩ := pass_trace_head c ParseRequest handlers parameters y world
  rw [serve_cons]
  cases (c.pass ParseRequest handlers parameters y world).result with
  | some err => exact ⟨t, by simp [ht]⟩
  | none =>
    exact ⟨t ++ (c.serve ParseRequest handlers parameters rest
      (c.pass ParseRequest handlers parameters y world).world).trace, by simp [ht]⟩

/-- A `Run` whose bind succeeds, whose loop is still running after `pre` and whose
pass of `x` does not return: it goes on with `post`. -/
theorem Run_reach_continue (c : Controller)
    (ParseRequest : List String → Except String Request)
    (handlers : Handlers σ π) (parameters : List π) (pre post : List Exchange)
    (x : Exchange) (world : σ)
    (hreach : (c.serve ParseRequest handlers parameters pre world).result = none)
    (hpass : (c.pass ParseRequest handlers parameters x
      (c.serve ParseRequest handlers parameters pre world).world).result = none) :
    c.Run ParseRequest handlers parameters { bind := none, exchanges := pre ++ x :: post }
        world =
      { trace := Event.bind c.service.Url ::
          (c.serve ParseRequest handlers parameters pre world).trace ++
          (c.pass ParseRequest handlers parameters x
            (c.serve ParseRequest handlers parameters pre world).world).trace ++
          (c.serve ParseRequest handlers parameters post
            (c.pass ParseRequest handlers parameters x
              (c.serve ParseRequest handlers parameters pre world).world).world).trace,
        world := (c.serve ParseRequest handlers parameters post
            (c.pass ParseRequest handlers parameters x
              (c.serve ParseRequest handlers parameters pre world).world).world).world,
        result := (c.serve ParseRequest handlers parameters post
            (c.pass ParseRequest handlers parameters x
              (c.serve ParseRequest handlers parameters pre world).world).world).result } := by
  simp only [Controller.Run]
  rw [serve_append, hreach]
  simp only []
  rw [serve_cons, hpass]
  simp

/-- A `Run` whose bind succeeds, whose loop is still running after `pre` and whose
pass of `x` returns: `Run` returns that error and `post` is never looked at. -/
theorem Run_reach_return (c : Controller)
    (ParseRequest : List String → Except String Request)
    (handlers : Handlers σ π) (parameters : List π) (pre post : List Exchange)
    (x : Exchange) (world : σ) (err : Error)
    (hreach : (c.serve ParseRequest handlers parameters pre world).result = none)
    (hpass : (c.pass ParseRequest handlers parameters x
      (c.serve ParseRequest handlers parameters pre world).world).result = some err) :
    c.Run ParseRequest handlers parameters { bind := none, exchanges := pre ++ x :: post }
        world =
      { trace := Event.bind c.service.Url ::
          (c.serve ParseRequest handlers parameters pre world).trace ++
          (c.pass ParseRequest handlers parameters x
            (c.serve ParseRequest handlers parameters pre world).world).trace,
        world := (c.pass ParseRequest handlers parameters x
            (c.serve ParseRequest handlers parameters pre world).world).world,
        result := some err } := by
  simp only [Controller.Run]
  rw [serve_append, hreach]
  simp only []
  rw [serve_cons, hpass]
  simp

/-- The pass of a message that `ParseRequest` rejects, for a controller that replies. -/
theorem pass_parse_error (c : Controller) (hrep : c.is_repliable = true)
    (ParseRequest : List String → Except String Request)
    (handlers : Handlers σ π) (parameters : List π) (x : Exchange) (world : σ)
    (msg_raw : List String) (metadata : Metadata) (err : String)
    (hrecv : x.recv = .ok (msg_raw, metadata)) (hparse : ParseRequest msg_raw = .error err) :
    c.pass ParseRequest handlers parameters x world =
      { trace := [Event.recv x.recv, Event.send (Fail ("message.ParseRequest: " ++ err))],
        world := world,
        result := x.send.map
          (fun failed => some ("recv error replying error %!w(MISSING)" ++ failed)) } := by
  unfold Controller.pass
  simp only [hrecv, hparse, Controller.reply_error, reply_repliable c hrep]
  cases x.send <;> simp

/-- The pass of a well-formed request whose command is not in the handler table,
for a controller that replies. -/
theorem pass_handler_not_found (c : Controller) (hrep : c.is_repliable = true)
    (ParseRequest : List String → Except String Request)
    (handlers : Handlers σ π) (parameters : List π) (x : Exchange) (world : σ)
    (msg_raw : List String) (metadata : Metadata) (parsed : Request)
    (hrecv : x.recv = .ok (msg_raw, metadata)) (hparse : ParseRequest msg_raw = .ok parsed)
    (habsent : handlers.Exist parsed.Command = false) :
    c.pass ParseRequest handlers parameters x world =
      { trace := [Event.recv x.recv,
          Event.send (Fail ("handler not found for command: " ++ parsed.Command))],
        world := world,
        result := x.send.map
          (fun failed => some ("recv error replying error %!w(MISSING)" ++ failed)) } := by
  have hnone : handlers parsed.Command = none := by
    simpa [Handlers.Exist] using habsent
  unfold Controller.pass
  simp only [hrecv, hparse, Request.SetPublicKey, hnone, Controller.reply_error,
    reply_repliable c hrep]
  cases x.send <;> simp

/-- The pass of a well-formed request whose command is in the handler table, for a
controller that replies. -/
theorem pass_handled (c : Controller) (hrep : c.is_repliable = true)
    (ParseRequest : List String → Except String Request)
    (handlers : Handlers σ π) (parameters : List π) (x : Exchange) (world : σ)
    (msg_raw : List String) (metadata : Metadata) (parsed : Request)
    (handler : HandleFunc σ π)
    (hrecv : x.recv = .ok (msg_raw, metadata)) (hparse : ParseRequest msg_raw = .ok parsed)
    (hfound : handlers parsed.Command = some handler) :
    c.pass ParseRequest handlers parameters x world =
      { trace := [Event.recv x.recv,
          Event.invoke parsed.Command (parsed.SetPublicKey (Metadata.get metadata "pub_key"))
            c.logger parameters,
          Event.send (handler (parsed.SetPublicKey (Metadata.get metadata "pub_key"))
            c.logger parameters world).1],
        world := (handler (parsed.SetPublicKey (Metadata.get metadata "pub_key"))
            c.logger parameters world).2,
        result := x.send.map
          (fun failed => some ("recv error replying error %!w(MISSING)" ++ failed)) } := by
  unfold Controller.pass
  simp only [hrecv, hparse, Request.SetPublicKey, hfound, reply_repliable c hrep, hrep]
  cases x.send <;> simp

/-- The pass of a failed receive, for a controller that replies: it tries to send
the FAIL that describes the receive error and returns, the error of the send when the
send fails too, the receive error otherwise. -/
theorem pass_recv_error (c : Controller) (hrep : c.is_repliable = true)
    (ParseRequest : List String → Except String Request)
    (handlers : Handlers σ π) (parameters : List π) (x : Exchange) (world : σ)
    (err : String) (hrecv : x.recv = .error err) :
    c.pass ParseRequest handlers parameters x world =
      { trace := [Event.recv x.recv,
          Event.send (Fail ("socket.recvMessageWithMetadata: " ++ err))],
        world := world,
        result := some (some (match x.send with
          | some failed => "recv error replying error %!w(MISSING)" ++ failed
          | none => "socket.recvMessageWithMetadata: " ++ err)) } := by
  unfold Controller.pass
  simp only [hrecv, Controller.reply_error, reply_repliable c hrep]
  cases x.send <;> simp

/-- A pass returns exactly on a broken exchange, and then with a non-nil error. -/
theorem pass_result (c : Controller) (ParseRequest : List String → Except String Request)
    (handlers : Handlers σ π) (parameters : List π) (x : Exchange) (world : σ) :
    ((c.pass ParseRequest handlers parameters x world).result = none ∧ x.broken c = false) ∨
    (∃ err, (c.pass ParseRequest handlers parameters x world).result = some (some err) ∧
      x.broken c = true) := by
  unfold Controller.pass Exchange.broken
  cases hrep : c.is_repliable <;> cases hsend : x.send <;> cases hrecv : x.recv with
  | error e => simp [Controller.reply_error, Controller.reply, hrep, *]
  | ok received =>
    obtain ⟨msg_raw, metadata⟩ := received
    cases hparse : ParseRequest msg_raw with
    | error e => simp [Controller.reply_error, Controller.reply, hrep, *]
    | ok parsed =>
      cases hfound : handlers (parsed.SetPublicKey (Metadata.get metadata "pub_key")).Command with
      | none => simp [Controller.reply_error, Controller.reply, hrep, hfound, hparse]
      | some handler => simp [Controller.reply_error, Controller.reply, hrep, hfound, hparse]

/-- The loop returns exactly when the script holds a broken exchange, and then with a
non-nil error. -/
theorem serve_result (c : Controller) (ParseRequest : List String → Except String Request)
    (handlers : Handlers σ π) (parameters : List π) (xs : List Exchange) (world : σ) :
    ((c.serve ParseRequest handlers parameters xs world).result = none ∧
      ∀ x ∈ xs, x.broken c = false) ∨
    (∃ err, (c.serve ParseRequest handlers parameters xs world).result = some (some err) ∧
      ∃ x ∈ xs, x.broken c = true) := by
  induction xs generalizing world with
  | nil => left; simp [serve_nil]
  | cons x rest ih =>
    rw [serve_cons]
    rcases pass_result c ParseRequest handlers parameters x world with ⟨hnone, hok⟩ | ⟨err, herr, hbad⟩
    · rw [hnone]
      rcases ih (c.pass ParseRequest handlers parameters x world).world with
        ⟨hrest, hall⟩ | ⟨err, herr, y, hy, hbad⟩
      · left
        refine ⟨hrest, ?_⟩
        intro y hy
        rcases List.mem_cons.mp hy with rfl | hy
        · exact hok
        · exact hall y hy
      · right
        exact ⟨err, herr, y, List.mem_cons_of_mem _ hy, hbad⟩
    · right
      rw [herr]
      exact ⟨err, rfl, x, List.mem_cons_self _ _, hbad⟩

/-- One pass over a received message whose reply is sent, for a controller that
replies: on the wire it is the receive followed by the one send of the answer. -/
theorem pass_answer (c : Controller) (hrep : c.is_repliable = true)
    (ParseRequest : List String → Except String Request)
    (handlers : Handlers σ π) (parameters : List π) (received : List String × Metadata)
    (world : σ) :
    let once := c.pass ParseRequest handlers parameters { recv := .ok received, send := none }
      world
    let answered := answer ParseRequest handlers c.logger parameters received world
    once.trace.filter Event.onWire = [Event.recv (.ok received), Event.send answered.1] ∧
    once.trace.filter Event.isSend = [Event.send answered.1] ∧
    once.world = answered.2 ∧ once.result = none := by
  obtain ⟨msg_raw, metadata⟩ := received
  cases hparse : ParseRequest msg_raw with
  | error err =>
    have h := pass_parse_error c hrep ParseRequest handlers parameters
      { recv := .ok (msg_raw, metadata), send := none } world msg_raw metadata err rfl hparse
    simp only [h, answer, hparse]
    simp [Event.onWire, Event.isSend]
  | ok parsed =>
    cases hfound : handlers parsed.Command with
    | none =>
      have h := pass_handler_not_found c hrep ParseRequest handlers parameters
        { recv := .ok (msg_raw, metadata), send := none } world msg_raw metadata parsed rfl
        hparse (by simp [Handlers.Exist, hfound])
      simp only [h, answer, hparse, Request.SetPublicKey, hfound]
      simp [Event.onWire, Event.isSend]
    | some handler =>
      have h := pass_handled c hrep ParseRequest handlers parameters
        { recv := .ok (msg_raw, metadata), send := none } world msg_raw metadata parsed
        handler rfl hparse hfound
      simp only [h, answer, hparse, Request.SetPublicKey, hfound]
      simp [Event.onWire, Event.isSend]

/-- The loop over messages that are all received and whose replies are all sent, for
a controller that replies: on the wire it is the dialogue of the specification. -/
theorem serve_dialogue (c : Controller) (hrep : c.is_repliable = true)
    (ParseRequest : List String → Except String Request)
    (handlers : Handlers σ π) (parameters : List π)
    (received : List (List String × Metadata)) (world : σ) :
    let served := c.serve ParseRequest handlers parameters
      (received.map fun message => { recv := .ok message, send := none }) world
    served.trace.filter Event.onWire =
      dialogue ParseRequest handlers c.logger parameters received world ∧
    (served.trace.filter Event.isSend).length = received.length ∧
    served.result = none := by
  induction received generalizing world with
  | nil => simp [serve_nil, dialogue]
  | cons message rest ih =>
    obtain ⟨hwire, hsend, hworld, hres⟩ :=
      pass_answer c hrep ParseRequest handlers parameters message world
    obtain ⟨ihwire, ihsend, ihres⟩ :=
      ih (answer ParseRequest handlers c.logger parameters message world).2
    simp only [List.map_cons]
    rw [serve_cons, hres]
    simp only [List.filter_append, hwire, hsend, hworld, dialogue, List.length_append,
      List.length_cons, List.length_nil]
    refine ⟨?_, ?_, ?_⟩
    · rw [ihwire]; rfl
    · rw [ihsend]; omega
    · exact ihres

/-- C1: in `Run` of a controller that replies (as every controller made by `NewReply`
is), a received message that `ParseRequest` rejects, at whatever place of the arrival
order the loop reaches it, makes the controller send exactly one reply, the FAIL
carrying the parse error, and invoke no handler; the world is left as it was. When
that send succeeds `Run` stays in the loop and goes on with the receive of the next
message; when the send fails `Run` returns the error of the send. -/
theorem Run_parse_error_replies_fail_and_continues (c : Controller)
    (hrep : c.is_repliable = true)
    (ParseRequest : List String → Except String Request)
    (handlers : Handlers σ π) (parameters : List π) (pre post : List Exchange)
    (x : Exchange) (world : σ) (msg_raw : List String) (metadata : Metadata) (err : String)
    (hreach : (c.serve ParseRequest handlers parameters pre world).result = none)
    (hrecv : x.recv = .ok (msg_raw, metadata))
    (hparse : ParseRequest msg_raw = .error err) :
    let before := c.serve ParseRequest handlers parameters pre world
    let once := c.pass ParseRequest handlers parameters x before.world
    let later := c.serve ParseRequest handlers parameters post before.world
    let ran := c.Run ParseRequest handlers parameters
      { bind := none, exchanges := pre ++ x :: post } world
    once.trace = [Event.recv x.recv,
      Event.send { Status := ReplyStatus.FAIL, Message := "message.ParseRequest: " ++ err,
                   Parameters := [] }] ∧
    (once.trace.filter Event.isSend).length = 1 ∧
    once.trace.filter Event.isInvoke = [] ∧
    once.world = before.world ∧
    (x.send = none →
      ran.trace = Event.bind c.service.Url :: before.trace ++ once.trace ++ later.trace ∧
      ran.world = later.world ∧ ran.result = later.result ∧
      ∀ y rest, post = y :: rest → ∃ t, later.trace = Event.recv y.recv :: t) ∧
    (∀ failed, x.send = some failed →
      ran.trace = Event.bind c.service.Url :: before.trace ++ once.trace ∧
      ran.world = before.world ∧
      ran.result = some (some ("recv error replying error %!w(MISSING)" ++ failed))) := by
  intro before once later ran
  have hpass : once = _ :=
    pass_parse_error c hrep ParseRequest handlers parameters x before.world msg_raw metadata
      err hrecv hparse
  have hworld : (c.pass ParseRequest handlers parameters x
      (c.serve ParseRequest handlers parameters pre world).world).world =
      (c.serve ParseRequest handlers parameters pre world).world := by
    show once.world = before.world
    rw [hpass]
  refine ⟨by rw [hpass]; rfl, by rw [hpass]; rfl, by rw [hpass]; rfl, hworld, ?_, ?_⟩
  · intro hsend
    have hres : once.result = none := by rw [hpass, hsend]; rfl
    have hran : ran = _ :=
      Run_reach_continue c ParseRequest handlers parameters pre post x world hreach hres
    rw [hworld] at hran
    refine ⟨?_, ?_, ?_, ?_⟩
    · rw [hran]
    · rw [hran]
    · rw [hran]
    · intro y rest hpost
      simp only [later, hpost]
      exact serve_trace_head c ParseRequest handlers parameters y rest before.world
  · intro failed hsend
    have hres : once.result =
        some (some ("recv error replying error %!w(MISSING)" ++ failed)) := by
      rw [hpass, hsend]; rfl
    have hran : ran = _ :=
      Run_reach_return c ParseRequest handlers parameters pre post x world _ hreach hres
    refine ⟨?_, ?_, ?_⟩
    · rw [hran]
    · rw [hran]; exact hworld
    · rw [hran]

/-- C2: in `Run` of a controller that replies (as every controller made by `NewReply`
is), a well-formed request whose command is not a key of the handler table, at whatever
place of the arrival order the loop reaches it, invokes no handler and is answered by
one reply, the FAIL whose message is "handler not found for command: " followed by the
command of the request; the world is left as it was. When the send succeeds the loop
continues with the next receive. -/
theorem Run_unknown_command_replies_fail_and_continues (c : Controller)
    (hrep : c.is_repliable = true)
    (ParseRequest : List String → Except String Request)
    (handlers : Handlers σ π) (parameters : List π) (pre post : List Exchange)
    (x : Exchange) (world : σ) (msg_raw : List String) (metadata : Metadata)
    (parsed : Request)
    (hreach : (c.serve ParseRequest handlers parameters pre world).result = none)
    (hrecv : x.recv = .ok (msg_raw, metadata))
    (hparse : ParseRequest msg_raw = .ok parsed)
    (habsent : handlers.Exist parsed.Command = false) :
    let before := c.serve ParseRequest handlers parameters pre world
    let once := c.pass ParseRequest handlers parameters x before.world
    let later := c.serve ParseRequest handlers parameters post before.world
    let ran := c.Run ParseRequest handlers parameters
      { bind := none, exchanges := pre ++ x :: post } world
    once.trace = [Event.recv x.recv,
      Event.send { Status := ReplyStatus.FAIL,
                   Message := "handler not found for command: " ++ parsed.Command,
                   Parameters := [] }] ∧
    once.trace.filter Event.isInvoke = [] ∧
    once.world = before.world ∧
    (x.send = none →
      ran.trace = Event.bind c.service.Url :: before.trace ++ once.trace ++ later.trace ∧
      ran.world = later.world ∧ ran.result = later.result ∧
      ∀ y rest, post = y :: rest → ∃ t, later.trace = Event.recv y.recv :: t) := by
  intro before once later ran
  have hpass : once = _ :=
    pass_handler_not_found c hrep ParseRequest handlers parameters x before.world msg_raw
      metadata parsed hrecv hparse habsent
  have hworld : (c.pass ParseRequest handlers parameters x
      (c.serve ParseRequest handlers parameters pre world).world).world =
      (c.serve ParseRequest handlers parameters pre world).world := by
    show once.world = before.world
    rw [hpass]
  refine ⟨by rw [hpass]; rfl, by rw [hpass]; rfl, hworld, ?_⟩
  intro hsend
  have hres : once.result = none := by rw [hpass, hsend]; rfl
  have hran : ran = _ :=
    Run_reach_continue c ParseRequest handlers parameters pre post x world hreach hres
  rw [hworld] at hran
  refine ⟨by rw [hran], by rw [hran], by rw [hran], ?_⟩
  intro y rest hpost
  simp only [later, hpost]
  exact serve_trace_head c ParseRequest handlers parameters y rest before.world

/-- C3: in `Run` of a controller that replies (as every controller made by `NewReply`
is), a well-formed request whose command is registered in the handler table, at
whatever place of the arrival order the loop reaches it, invokes the handler registered
under that command exactly once, with the request (carrying the identity of the
transport), the logger of the controller and the variadic parameters, and the one
reply sent is the Reply that this handler returned, unchanged, whatever its status;
the world is the one the handler left. -/
theorem Run_registered_command_invokes_once_and_replies_verbatim (c : Controller)
    (hrep : c.is_repliable = true)
    (ParseRequest : List String → Except String Request)
    (handlers : Handlers σ π) (parameters : List π) (pre post : List Exchange)
    (x : Exchange) (world : σ) (msg_raw : List String) (metadata : Metadata)
    (parsed : Request) (handler : HandleFunc σ π)
    (hreach : (c.serve ParseRequest handlers parameters pre world).result = none)
    (hrecv : x.recv = .ok (msg_raw, metadata))
    (hparse : ParseRequest msg_raw = .ok parsed)
    (hfound : handlers parsed.Command = some handler) :
    let before := c.serve ParseRequest handlers parameters pre world
    let once := c.pass ParseRequest handlers parameters x before.world
    let request := parsed.SetPublicKey (Metadata.get metadata "pub_key")
    let returned := handler request c.logger parameters before.world
    let ran := c.Run ParseRequest handlers parameters
      { bind := none, exchanges := pre ++ x :: post } world
    once.trace = [Event.recv x.recv,
      Event.invoke parsed.Command request c.logger parameters,
      Event.send returned.1] ∧
    (once.trace.filter Event.isInvoke).length = 1 ∧
    (once.trace.filter Event.isSend).length = 1 ∧
    once.world = returned.2 ∧
    (x.send = none →
      let later := c.serve ParseRequest handlers parameters post returned.2
      ran.trace = Event.bind c.service.Url :: before.trace ++ once.trace ++ later.trace ∧
      ran.world = later.world ∧ ran.result = later.result) ∧
    (∀ failed, x.send = some failed →
      ran.trace = Event.bind c.service.Url :: before.trace ++ once.trace ∧
      ran.world = returned.2 ∧
      ran.result = some (some ("recv error replying error %!w(MISSING)" ++ failed))) := by
  intro before once request returned ran
  have hpass : once = _ :=
    pass_handled c hrep ParseRequest handlers parameters x before.world msg_raw
      metadata parsed handler hrecv hparse hfound
  have hworld : (c.pass ParseRequest handlers parameters x
      (c.serve ParseRequest handlers parameters pre world).world).world = returned.2 := by
    show once.world = returned.2
    rw [hpass]
  refine ⟨by rw [hpass], by rw [hpass]; rfl, by rw [hpass]; rfl, hworld, ?_, ?_⟩
  · intro hsend
    have hres : once.result = none := by rw [hpass, hsend]; rfl
    have hran : ran = _ :=
      Run_reach_continue c ParseRequest handlers parameters pre post x world hreach hres
    rw [hworld] at hran
    exact ⟨by rw [hran], by rw [hran], by rw [hran]⟩
  · intro failed hsend
    have hres : once.result =
        some (some ("recv error replying error %!w(MISSING)" ++ failed)) := by
      rw [hpass, hsend]; rfl
    have hran : ran = _ :=
      Run_reach_return c ParseRequest handlers parameters pre post x world _ hreach hres
    exact ⟨by rw [hran], by rw [hran]; exact hworld, by rw [hran]⟩

/-- C4: `Run` never returns a nil error, and it returns exactly when the bind fails
or the script holds an exchange whose receive fails or (the controller being one that
replies) whose send fails; so with a transport that does not fail, no parse error,
unknown command or FAIL reply of a handler makes it return. On a failed receive that
the loop reaches, a controller that replies sends the FAIL describing the receive
error and then returns, without looking at any later exchange. -/
theorem Run_returns_exactly_on_transport_failure (c : Controller)
    (ParseRequest : List String → Except String Request)
    (handlers : Handlers σ π) (parameters : List π) (socket : Transport) (world : σ) :
    let ran := c.Run ParseRequest handlers parameters socket world
    (∀ err, ran.result = some err → err ≠ none) ∧
    (ran.result ≠ none ↔
      socket.bind ≠ none ∨
      ∃ x ∈ socket.exchanges,
        (∃ err, x.recv = .error err) ∨ (c.is_repliable = true ∧ x.send ≠ none)) ∧
    (socket.bind = none →
      (∀ x ∈ socket.exchanges, (∃ received, x.recv = .ok received) ∧ x.send = none) →
      ran.result = none) ∧
    (∀ pre x post err, socket = { bind := none, exchanges := pre ++ x :: post } →
      c.is_repliable = true →
      (c.serve ParseRequest handlers parameters pre world).result = none →
      x.recv = .error err →
      ran.trace = Event.bind c.service.Url ::
        (c.serve ParseRequest handlers parameters pre world).trace ++
        [Event.recv x.recv,
         Event.send { Status := ReplyStatus.FAIL,
                      Message := "socket.recvMessageWithMetadata: " ++ err,
                      Parameters := [] }] ∧
      ran.world = (c.serve ParseRequest handlers parameters pre world).world ∧
      ran.result = some (some (match x.send with
        | some failed => "recv error replying error %!w(MISSING)" ++ failed
        | none => "socket.recvMessageWithMetadata: " ++ err))) := by
  intro ran
  have hbroken : ∀ x : Exchange, x.broken c = true ↔
      ((∃ err, x.recv = .error err) ∨ (c.is_repliable = true ∧ x.send ≠ none)) := by
    intro x
    unfold Exchange.broken
    cases hrecv : x.recv with
    | error e => simp
    | ok received => cases hsend : x.send <;> simp
  have hiff : ran.result ≠ none ↔
      socket.bind ≠ none ∨
      ∃ x ∈ socket.exchanges,
        (∃ err, x.recv = .error err) ∨ (c.is_repliable = true ∧ x.send ≠ none) := by
    simp only [ran, Controller.Run]
    cases hbind : socket.bind with
    | some failed => simp
    | none =>
      simp only [ne_eq, not_true_eq_false, false_or]
      rcases serve_result c ParseRequest handlers parameters socket.exchanges world with
        ⟨hnone, hall⟩ | ⟨err, herr, y, hy, hbad⟩
      · rw [hnone]
        simp only [not_true_eq_false, false_iff, not_exists, not_and]
        intro y hy hbad
        have := hall y hy
        rw [(hbroken y).mpr hbad] at this
        exact Bool.noConfusion this
      · rw [herr]
        simp only [reduceCtorEq, not_false_eq_true, true_iff]
        exact ⟨y, hy, (hbroken y).mp hbad⟩
  refine ⟨?_, hiff, ?_, ?_⟩
  · intro err herr
    simp only [ran, Controller.Run] at herr
    cases hbind : socket.bind with
    | some failed =>
      rw [hbind] at herr
      simp only [Option.some.injEq] at herr
      rw [← herr]
      simp
    | none =>
      rw [hbind] at herr
      simp only at herr
      rcases serve_result c ParseRequest handlers parameters socket.exchanges world with
        ⟨hnone, _⟩ | ⟨e, he, _⟩
      · rw [hnone] at herr
        exact Option.noConfusion herr
      · rw [he] at herr
        simp only [Option.some.injEq] at herr
        rw [← herr]
        simp
  · intro hbind hall
    by_contra hne
    rcases hiff.mp hne with hb | ⟨y, hy, hbad⟩
    · exact hb hbind
    · obtain ⟨⟨received, hok⟩, hsend⟩ := hall y hy
      rcases hbad with ⟨err, herr⟩ | ⟨_, hs⟩
      · rw [hok] at herr
        exact Except.noConfusion herr
      · exact hs hsend
  · intro pre x post err hsocket hrep hreach hrecv
    have hpass := pass_recv_error c hrep ParseRequest handlers parameters x
      (c.serve ParseRequest handlers parameters pre world).world err hrecv
    have hran := Run_reach_return c ParseRequest handlers parameters pre post x world _ hreach
      (by rw [hpass])
    rw [hpass, ← hsocket] at hran
    simp only [ran]
    exact ⟨by rw [hran]; rfl, by rw [hran], by rw [hran]⟩

/-- C5: a controller that replies, fed any finite sequence of messages that are all
received and whose replies are all sent, sends exactly one reply per received message;
on the wire the run is the strictly synchronous dialogue: the receive of the first
message, the reply that answers it, the receive of the second message, the reply that
answers it, and so on in arrival order, so no receive comes before the reply to the
message received before it; after the last reply the loop is still serving. -/
theorem Run_one_outstanding_request_in_arrival_order (c : Controller)
    (hrep : c.is_repliable = true)
    (ParseRequest : List String → Except String Request)
    (handlers : Handlers σ π) (parameters : List π)
    (received : List (List String × Metadata)) (world : σ) :
    let ran := c.Run ParseRequest handlers parameters
      { bind := none,
        exchanges := received.map fun message => { recv := .ok message, send := none } }
      world
    ran.trace.filter Event.onWire =
      dialogue ParseRequest handlers c.logger parameters received world ∧
    (ran.trace.filter Event.isSend).length = received.length ∧
    ran.result = none := by
  obtain ⟨hwire, hsend, hres⟩ :=
    serve_dialogue c hrep ParseRequest handlers parameters received world
  simp only [Controller.Run]
  refine ⟨?_, ?_, hres⟩
  · simpa [List.filter_cons, Event.onWire] using hwire
  · simpa [List.filter_cons, Event.isSend] using hsend

end Dispatcher

/-! ## Resource handle: lemmas -/

theorem closes_append (xs ys : List DbEvent) : closes (xs ++ ys) = closes xs ++ closes ys := by
  induction xs with
  | nil => rfl
  | cons e rest ih => cases e <;> simp [closes, ih]

/-- The ping loop only pings. -/
theorem pingLoop_trace (connection : Handle) (pings : List PingResult) :
    ∀ e ∈ (pingLoop connection pings).1, e = DbEvent.ping connection := by
  induction pings with
  | nil => simp [pingLoop]
  | cons p rest ih =>
    cases p with
    | ok => simp [pingLoop]
    | failed err deadline =>
      cases deadline
      · intro e he
        simp only [pingLoop, List.mem_cons] at he
        rcases he with rfl | he
        · rfl
        · exact ih e he
      · simp [pingLoop]

/-- The ping loop ends in an error only through a failed ping at which the context
of the timeout was done. -/
theorem pingLoop_error (connection : Handle) (pings : List PingResult) (err : String)
    (h : (pingLoop connection pings).2 = some (some err)) :
    ∃ failed, err = "database ping error: " ++ failed ∧
      PingResult.failed failed true ∈ pings := by
  induction pings with
  | nil => simp [pingLoop] at h
  | cons p rest ih =>
    cases p with
    | ok => simp [pingLoop] at h
    | failed failed deadline =>
      cases deadline
      · simp only [pingLoop] at h
        obtain ⟨f, hf, hmem⟩ := ih h
        exact ⟨f, hf, List.mem_cons_of_mem _ hmem⟩
      · simp only [pingLoop, Option.some.injEq] at h
        exact ⟨failed, h.symm, List.mem_cons_self _ _⟩

theorem closes_of_pings (connection : Handle) (trace : List DbEvent)
    (h : ∀ e ∈ trace, e = DbEvent.ping connection) : closes trace = [] := by
  induction trace with
  | nil => rfl
  | cons e rest ih =>
    have he := h e (List.mem_cons_self _ _)
    subst he
    simpa [closes] using ih (fun e he => h e (List.mem_cons_of_mem _ he))

/-- What `closeReplaceConnection` does on a free mutex. -/
theorem closeReplaceConnection_free (database : Database) (new : Handle)
    (hfree : database.connectionMutex = false) :
    database.closeReplaceConnection new =
      { outcome := Outcome.returned (),
        database := { database with Connection := some new },
        trace := DbEvent.lock ::
          (match database.Connection with
            | some old => [DbEvent.close old]
            | none => []) ++ [DbEvent.unlock] } := by
  obtain ⟨connection, mutex, parameters, logger⟩ := database
  simp only at hfree
  subst hfree
  simp [Database.closeReplaceConnection, Database.Lock, Database.Unlock]

/-- What `closeReplaceConnection` does on a held mutex: it waits. -/
theorem closeReplaceConnection_held (database : Database) (new : Handle)
    (hheld : database.connectionMutex = true) :
    database.closeReplaceConnection new =
      { outcome := Outcome.blocked, database := database, trace := [] } := by
  simp [Database.closeReplaceConnection, Database.Lock, hheld]

/-- A `Reconnect` whose `sql.Open` fails. -/
theorem Reconnect_open_failed (durationString : Duration → String) (database : Database)
    (credentials : DatabaseCredentials) (dial : Dial) (failed : String)
    (hopen : dial.opened = .error failed) :
    database.Reconnect durationString credentials dial =
      { outcome := Outcome.returned (some ("sql.open: " ++ failed)), database := database,
        trace := [database.connecting credentials,
          DbEvent.sqlOpen "mysql" (database.dsn durationString credentials)] } := by
  simp [Database.Reconnect, hopen]

/-- A `Reconnect` whose ping never returns. -/
theorem Reconnect_ping_blocked (durationString : Duration → String) (database : Database)
    (credentials : DatabaseCredentials) (dial : Dial) (connection : Handle)
    (pinged : List DbEvent)
    (hopen : dial.opened = .ok connection)
    (hloop : pingLoop connection dial.pings = (pinged, none)) :
    database.Reconnect durationString credentials dial =
      { outcome := Outcome.blocked, database := database,
        trace := [database.connecting credentials,
          DbEvent.sqlOpen "mysql" (database.dsn durationString credentials)] ++ pinged } := by
  simp [Database.Reconnect, hopen, hloop]

/-- A `Reconnect` whose pings fail until the deadline. -/
theorem Reconnect_ping_deadline (durationString : Duration → String) (database : Database)
    (credentials : DatabaseCredentials) (dial : Dial) (connection : Handle)
    (pinged : List DbEvent) (err : String)
    (hopen : dial.opened = .ok connection)
    (hloop : pingLoop connection dial.pings = (pinged, some (some err))) :
    database.Reconnect durationString credentials dial =
      { outcome := Outcome.returned (some err), database := database,
        trace := [database.connecting credentials,
          DbEvent.sqlOpen "mysql" (database.dsn durationString credentials)] ++ pinged } := by
  simp [Database.Reconnect, hopen, hloop]

/-- A `Reconnect` whose ping succeeds while the mutex is held: it waits for the mutex. -/
theorem Reconnect_swap_blocked (durationString : Duration → String) (database : Database)
    (credentials : DatabaseCredentials) (dial : Dial) (connection : Handle)
    (pinged : List DbEvent)
    (hopen : dial.opened = .ok connection)
    (hloop : pingLoop connection dial.pings = (pinged, some none))
    (hheld : database.connectionMutex = true) :
    database.Reconnect durationString credentials dial =
      { outcome := Outcome.blocked, database := database,
        trace := [database.connecting credentials,
          DbEvent.sqlOpen "mysql" (database.dsn durationString credentials)] ++ pinged } := by
  simp [Database.Reconnect, hopen, hloop, closeReplaceConnection_held database connection hheld]

/-- A `Reconnect` whose ping succeeds while the mutex is free: the swap. -/
theorem Reconnect_swapped (durationString : Duration → String) (database : Database)
    (credentials : DatabaseCredentials) (dial : Dial) (connection : Handle)
    (pinged : List DbEvent)
    (hopen : dial.opened = .ok connection)
    (hloop : pingLoop connection dial.pings = (pinged, some none))
    (hfree : database.connectionMutex = false) :
    database.Reconnect durationString credentials dial =
      { outcome := Outcome.returned none,
        database := { database with Connection := some connection },
        trace := [database.connecting credentials,
          DbEvent.sqlOpen "mysql" (database.dsn durationString credentials)] ++ pinged ++
          (DbEvent.lock ::
            (match database.Connection with
              | some old => [DbEvent.close old]
              | none => []) ++ [DbEvent.unlock]) ++ [database.connected] } := by
  simp [Database.Reconnect, hopen, hloop, closeReplaceConnection_free database connection hfree]

/-- The five ways a `Reconnect` goes. -/
theorem Reconnect_cases (dial : Dial) (mutex : Bool) :
    (∃ failed, dial.opened = .error failed) ∨
    (∃ connection pinged, dial.opened = .ok connection ∧
      (∀ e ∈ pinged, e = DbEvent.ping connection) ∧
      (pingLoop connection dial.pings = (pinged, none) ∨
       (∃ err, pingLoop connection dial.pings = (pinged, some (some err))) ∨
       (pingLoop connection dial.pings = (pinged, some none) ∧ mutex = true) ∨
       (pingLoop connection dial.pings = (pinged, some none) ∧ mutex = false))) := by
  cases hopen : dial.opened with
  | error failed => exact Or.inl ⟨failed, rfl⟩
  | ok connection =>
    right
    have htrace := pingLoop_trace connection dial.pings
    rcases hloop : pingLoop connection dial.pings with ⟨pinged, result⟩
    rw [hloop] at htrace
    refine ⟨connection, pinged, rfl, htrace, ?_⟩
    cases result with
    | none => exact Or.inl hloop
    | some ended =>
      cases ended with
      | some err => exact Or.inr (Or.inl ⟨err, hloop⟩)
      | none =>
        cases mutex
        · exact Or.inr (Or.inr (Or.inr ⟨hloop, rfl⟩))
        · exact Or.inr (Or.inr (Or.inl ⟨hloop, rfl⟩))

/-- A `Reconnect` that returns an error leaves the handle as it was given. -/
theorem Reconnect_error (durationString : Duration → String)
    (database : Database) (credentials : DatabaseCredentials) (dial : Dial) (err : String)
    (h : (database.Reconnect durationString credentials dial).outcome =
      Outcome.returned (some err)) :
    (database.Reconnect durationString credentials dial).database = database := by
  rcases Reconnect_cases dial database.connectionMutex with
    ⟨failed, hopen⟩ | ⟨connection, pinged, hopen, _, hloop⟩
  · rw [Reconnect_open_failed durationString database credentials dial failed hopen]
  · rcases hloop with hloop | ⟨failed, hloop⟩ | ⟨hloop, hheld⟩ | ⟨hloop, hfree⟩
    · rw [Reconnect_ping_blocked durationString database credentials dial connection pinged
        hopen hloop]
    · rw [Reconnect_ping_deadline durationString database credentials dial connection pinged
        failed hopen hloop]
    · rw [Reconnect_swap_blocked durationString database credentials dial connection pinged
        hopen hloop hheld]
    · rw [Reconnect_swapped durationString database credentials dial connection pinged
        hopen hloop hfree] at h
      simp at h

/-- A `Reconnect` that returns nil: `sql.Open` returned a connection, which is now the
current one, and the one close made is that of the connection that was current. -/
theorem Reconnect_success (durationString : Duration → String)
    (database : Database) (credentials : DatabaseCredentials) (dial : Dial)
    (h : (database.Reconnect durationString credentials dial).outcome =
      Outcome.returned none) :
    ∃ connection, dial.handle = some connection ∧
      (database.Reconnect durationString credentials dial).database =
        { database with Connection := some connection } ∧
      closes (database.Reconnect durationString credentials dial).trace =
        database.Connection.toList := by
  rcases Reconnect_cases dial database.connectionMutex with
    ⟨failed, hopen⟩ | ⟨connection, pinged, hopen, hpings, hloop⟩
  · rw [Reconnect_open_failed durationString database credentials dial failed hopen] at h
    simp at h
  · rcases hloop with hloop | ⟨failed, hloop⟩ | ⟨hloop, hheld⟩ | ⟨hloop, hfree⟩
    · rw [Reconnect_ping_blocked durationString database credentials dial connection pinged
        hopen hloop] at h
      simp at h
    · rw [Reconnect_ping_deadline durationString database credentials dial connection pinged
        failed hopen hloop] at h
      simp at h
    · rw [Reconnect_swap_blocked durationString database credentials dial connection pinged
        hopen hloop hheld] at h
      simp at h
    · rw [Reconnect_swapped durationString database credentials dial connection pinged
        hopen hloop hfree]
      refine ⟨connection, by simp [Dial.handle, hopen], rfl, ?_⟩
      simp only [closes_append, closes_of_pings connection pinged hpings]
      cases database.Connection <;> simp [closes, Database.connecting, Database.connected]

/-- Successive successful calls of `Reconnect`: the closes made are, in order, those
of every connection that was current before the last call, and the current connection
is the last one opened. -/
theorem ReconnectEach_success (durationString : Duration → String)
    (calls : List (DatabaseCredentials × Dial)) (database : Database)
    (hsuccess : ∀ o ∈ (database.ReconnectEach durationString calls).1,
      o = Outcome.returned none) :
    (calls.filterMap fun call => call.2.handle).length = calls.length ∧
    (database.ReconnectEach durationString calls).2.1.Connection =
      (database.Connection.toList ++ calls.filterMap fun call => call.2.handle).getLast? ∧
    closes (database.ReconnectEach durationString calls).2.2 =
      (database.Connection.toList ++ calls.filterMap fun call => call.2.handle).dropLast := by
  induction calls generalizing database with
  | nil =>
    cases h : database.Connection <;> simp [Database.ReconnectEach, closes, h]
  | cons call rest ih =>
    obtain ⟨credentials, dial⟩ := call
    simp only [Database.ReconnectEach] at hsuccess ⊢
    have hfirst : (database.Reconnect durationString credentials dial).outcome =
        Outcome.returned none := hsuccess _ (List.mem_cons_self _ _)
    obtain ⟨connection, hhandle, hdb, hcloses⟩ :=
      Reconnect_success durationString database credentials dial hfirst
    obtain ⟨ihlen, ihconn, ihcloses⟩ :=
      ih (database.Reconnect durationString credentials dial).database
        (fun o ho => hsuccess o (List.mem_cons_of_mem _ ho))
    rw [hdb] at ihconn ihcloses
    simp only [Option.toList_some, List.singleton_append] at ihconn ihcloses
    simp only [List.filterMap_cons, hhandle, List.length_cons, ihlen, closes_append, hcloses,
      ihcloses, true_and]
    rw [hdb]
    refine ⟨?_, ?_⟩
    · rw [ihconn, List.getLast?_append_of_ne_nil _ (List.cons_ne_nil _ _)]
    · rw [List.dropLast_append_of_ne_nil _ (List.cons_ne_nil _ _), ihcloses]

theorem count_dropLast_of_nodup (l : List Handle) (hl : l.Nodup) :
    (∀ h ∈ l.dropLast, l.dropLast.count h = 1) ∧
    (∀ h, l.getLast? = some h → l.dropLast.count h = 0) := by
  constructor
  · intro h hh
    exact List.count_eq_one_of_mem (hl.sublist (List.dropLast_sublist l)) hh
  · intro h hh
    rw [List.count_eq_zero]
    intro hmem
    have hne : l ≠ [] := by
      intro hnil
      rw [hnil] at hh
      simp at hh
    have hsplit := List.dropLast_append_getLast hne
    rw [List.getLast?_eq_getLast _ hne] at hh
    simp only [Option.some.injEq] at hh
    rw [← hsplit, hh] at hl
    have := List.nodup_append.mp hl
    exact this.2.2 hmem (List.mem_singleton_self h)

/-- C7: starting from any handle, after n >= 1 calls of `Reconnect` that all returned
nil and opened the connections c1..cn in this order (connections that are distinct from
one another and from the initial one), `Connection` is cn, no call closed cn, and every
connection that was current before (the initial one when not nil, and c1..c(n-1)) was
closed exactly once by these calls; so of all these connections cn alone is left
open. -/
theorem ReconnectEach_leaves_one_live_connection (durationString : Duration → String)
    (database : Database) (calls : List (DatabaseCredentials × Dial))
    (hcalls : calls ≠ [])
    (hsuccess : ∀ o ∈ (database.ReconnectEach durationString calls).1,
      o = Outcome.returned none)
    (hfresh : (database.Connection.toList ++
      calls.filterMap fun call => call.2.handle).Nodup) :
    let opened := calls.filterMap fun call => call.2.handle
    let final := (database.ReconnectEach durationString calls).2.1
    let closed := closes (database.ReconnectEach durationString calls).2.2
    opened.length = calls.length ∧
    (∃ last, opened.getLast? = some last ∧ final.Connection = some last ∧
      closed.count last = 0) ∧
    (∀ h ∈ database.Connection.toList ++ opened.dropLast, closed.count h = 1) ∧
    (∀ h ∈ database.Connection.toList ++ opened, (closed.count h = 0 ↔ final.Connection = some h)) := by
  intro opened final closed
  obtain ⟨hlen, hconn, hcloses⟩ := ReconnectEach_success durationString calls database hsuccess
  have hne : opened ≠ [] := by
    intro hnil
    have : opened.length = calls.length := hlen
    rw [hnil] at this
    exact hcalls (List.length_eq_zero.mp this.symm)
  have hall : database.Connection.toList ++ opened ≠ [] := by simp [hne]
  obtain ⟨hone, hzero⟩ := count_dropLast_of_nodup _ hfresh
  have hconn2 : final.Connection = (database.Connection.toList ++ opened).getLast? := hconn
  have hcloses2 : closed = (database.Connection.toList ++ opened).dropLast := hcloses
  have hlast : (database.Connection.toList ++ opened).getLast? = opened.getLast? :=
    List.getLast?_append_of_ne_nil _ hne
  have hdrop : (database.Connection.toList ++ opened).dropLast =
      database.Connection.toList ++ opened.dropLast :=
    List.dropLast_append_of_ne_nil _ hne
  refine ⟨hlen, ?_, ?_, ?_⟩
  · refine ⟨opened.getLast hne, List.getLast?_eq_getLast _ hne, ?_, ?_⟩
    · rw [hconn2, hlast, List.getLast?_eq_getLast _ hne]
    · rw [hcloses2]
      exact hzero _ (by rw [hlast, List.getLast?_eq_getLast _ hne])
  · intro h hh
    rw [hcloses2]
    exact hone h (by rw [hdrop]; exact hh)
  · intro h hh
    rw [hcloses2, hconn2]
    constructor
    · intro hcount
      have hnot : h ∉ (database.Connection.toList ++ opened).dropLast :=
        List.count_eq_zero.mp hcount
      rw [← List.dropLast_append_getLast hall, List.mem_append, List.mem_singleton] at hh
      rcases hh with hh | hh
      · exact absurd hh hnot
      · rw [List.getLast?_eq_getLast _ hall, hh]
    · intro hsome
      exact hzero h hsome
/-- C6: whenever `Reconnect` returns a non-nil error, `sql.Open` failed or a ping failed
with the context of the timeout done; the handle, and with it `Connection`, is the
one it was before the call (nil or not), and `Reconnect` made no call of
`closeReplaceConnection`: it took no lock and closed no connection. -/
theorem Reconnect_error_keeps_connection (durationString : Duration → String)
    (database : Database) (credentials : DatabaseCredentials) (dial : Dial) (err : String)
    (h : (database.Reconnect durationString credentials dial).outcome =
      Outcome.returned (some err)) :
    (database.Reconnect durationString credentials dial).database = database ∧
    (database.Reconnect durationString credentials dial).database.Connection =
      database.Connection ∧
    closes (database.Reconnect durationString credentials dial).trace = [] ∧
    (∀ e ∈ (database.Reconnect durationString credentials dial).trace,
      e ≠ DbEvent.lock ∧ e ≠ DbEvent.unlock ∧ ∀ connection, e ≠ DbEvent.close connection) ∧
    ((∃ failed, dial.opened = .error failed ∧ err = "sql.open: " ++ failed) ∨
     (∃ connection failed, dial.opened = .ok connection ∧
        err = "database ping error: " ++ failed ∧
        PingResult.failed failed true ∈ dial.pings)) := by
  have hstart : ∀ e, e = database.connecting credentials ∨
      e = DbEvent.sqlOpen "mysql" (database.dsn durationString credentials) →
      e ≠ DbEvent.lock ∧ e ≠ DbEvent.unlock ∧ ∀ connection, e ≠ DbEvent.close connection := by
    intro e he
    rcases he with rfl | rfl <;> simp [Database.connecting]
  rcases Reconnect_cases dial database.connectionMutex with
    ⟨failed, hopen⟩ | ⟨connection, pinged, hopen, hpings, hloop⟩
  · rw [Reconnect_open_failed durationString database credentials dial failed hopen] at h ⊢
    simp only [Outcome.returned.injEq, Option.some.injEq] at h
    refine ⟨rfl, rfl, by simp [closes, Database.connecting], ?_, Or.inl ⟨failed, hopen, h.symm⟩⟩
    intro e he
    simp only [List.mem_cons, List.mem_singleton, List.not_mem_nil, or_false] at he
    exact hstart e he
  · rcases hloop with hloop | ⟨failed, hloop⟩ | ⟨hloop, hheld⟩ | ⟨hloop, hfree⟩
    · rw [Reconnect_ping_blocked durationString database credentials dial connection pinged
        hopen hloop] at h
      simp at h
    · rw [Reconnect_ping_deadline durationString database credentials dial connection pinged
        failed hopen hloop] at h ⊢
      simp only [Outcome.returned.injEq, Option.some.injEq] at h
      subst h
      obtain ⟨f, hf, hmem⟩ := pingLoop_error connection dial.pings failed (by rw [hloop])
      refine ⟨rfl, rfl, ?_, ?_, Or.inr ⟨connection, f, hopen, hf, hmem⟩⟩
      · rw [closes_append, closes_of_pings connection pinged hpings]
        simp [closes, Database.connecting]
      · intro e he
        simp only [List.mem_append, List.mem_cons, List.mem_singleton, List.not_mem_nil,
          or_false] at he
        rcases he with he | he
        · exact hstart e he
        · rw [hpings e he]; simp
    · rw [Reconnect_swap_blocked durationString database credentials dial connection pinged
        hopen hloop hheld] at h
      simp at h
    · rw [Reconnect_swapped durationString database credentials dial connection pinged
        hopen hloop hfree] at h
      simp at h

/-! ## Resource handle: the claims on `Close` and the mutex -/

/-- C8: on a free mutex, `Close` of a handle whose `Connection` is nil returns nil and
changes nothing (it only takes and releases the lock); on a `Connection` that is not
nil it closes that connection once and returns a non-nil error exactly when the
underlying close fails. `Close`, `closeReplaceConnection` and `Query` each take the
lock once and release it once, as their last step, however they end (the error returns
and the nil-pointer panic of `Query` included), so the mutex is free afterwards. -/
theorem Close_closes_once_and_mutex_is_released (fmt : Fmt) (database : Database)
    (hfree : database.connectionMutex = false)
    (closed : Error) (new : Handle) (query : String) (arguments : List Value)
    (answer : Except String Rows) :
    (database.Connection = none →
      database.Close closed =
        { outcome := Outcome.returned none, database := database,
          trace := [DbEvent.lock, DbEvent.unlock] }) ∧
    (∀ connection, database.Connection = some connection →
      (database.Close closed).trace =
        [DbEvent.lock, DbEvent.close connection, DbEvent.unlock] ∧
      (database.Close closed).database = database ∧
      ∃ result, (database.Close closed).outcome = Outcome.returned result ∧
        (result ≠ none ↔ closed ≠ none)) ∧
    (∀ op : Effect Error, op = database.Close closed →
      op.outcome ≠ Outcome.blocked ∧ op.database.connectionMutex = false ∧
      op.trace.count DbEvent.lock = 1 ∧ op.trace.count DbEvent.unlock = 1 ∧
      op.trace.getLast? = some DbEvent.unlock) ∧
    (∀ op : Effect Unit, op = database.closeReplaceConnection new →
      op.outcome ≠ Outcome.blocked ∧ op.database.connectionMutex = false ∧
      op.trace.count DbEvent.lock = 1 ∧ op.trace.count DbEvent.unlock = 1 ∧
      op.trace.getLast? = some DbEvent.unlock) ∧
    (∀ op : Effect (Except String (List Value)),
      op = database.Query fmt query arguments answer →
      op.outcome ≠ Outcome.blocked ∧ op.database.connectionMutex = false ∧
      op.trace.count DbEvent.lock = 1 ∧ op.trace.count DbEvent.unlock = 1 ∧
      op.trace.getLast? = some DbEvent.unlock) := by
  obtain ⟨current, mutex, parameters, logger⟩ := database
  simp only at hfree
  subst hfree
  refine ⟨?_, ?_, ?_, ?_, ?_⟩
  · intro hnil
    simp only at hnil
    subst hnil
    simp [Database.Close, Database.Lock, Database.Unlock]
  · intro connection hsome
    simp only at hsome
    subst hsome
    cases closed <;> simp [Database.Close, Database.Lock, Database.Unlock]
  · intro op hop
    subst hop
    cases current <;> cases closed <;>
      simp [Database.Close, Database.Lock, Database.Unlock, List.count_cons]
  · intro op hop
    subst hop
    cases current <;>
      simp [Database.closeReplaceConnection, Database.Lock, Database.Unlock, List.count_cons]
  · intro op hop
    subst hop
    cases current with
    | none => simp [Database.Query, Database.Lock, Database.Unlock, List.count_cons]
    | some connection =>
      cases answer with
      | error err => simp [Database.Query, Database.Lock, Database.Unlock, List.count_cons]
      | ok rows =>
        simp only [Database.Query, Database.Lock, Database.Unlock]
        cases scanRows fmt query rows.scans [] with
        | error err => simp [List.count_cons]
        | ok results => cases rows.err <;> simp [List.count_cons]
/-! ## Control channel handler -/

/-- On a handle whose `Connection` is nil, `onNewCredentials` never calls `Reconnect`,
whatever the request: the handle stays as it is. -/
theorem onNewCredentials_nil_connection (Interface : KeyValue → Except String DatabaseCredentials)
    (durationString : Duration → String) (database : Database) (request : Request)
    (dial : Dial) (hnil : database.Connection = none) :
    (onNewCredentials Interface durationString (some database) request dial).reconnects = [] ∧
    (onNewCredentials Interface durationString (some database) request dial).trace = [] ∧
    (onNewCredentials Interface durationString (some database) request dial).db =
      some database := by
  unfold onNewCredentials
  cases Interface request.Parameters <;> simp [hnil]

/-- C9: `onNewCredentials` on the empty handle that `main` creates when security is
enabled, with a request whose parameters deserialize into credentials and a database
that opens and answers the first ping: the handler does not call `Reconnect`, replies
FAIL "database.Connection is nil, please open the connection first" and leaves the
handle empty, while `Reconnect` called on that same handle with those credentials
returns nil and installs the connection, as it does for `connectWithDefault`, which
calls it on a handle whose `Connection` is nil. -/
theorem onNewCredentials_skips_Reconnect_on_empty_handle :
    Sample.decode Sample.newCredentials.Parameters = .ok Sample.credentials ∧
    (secureDatabase Sample.parameters (Logger.mk "main")).Connection = none ∧
    (onNewCredentials Sample.decode Sample.seconds
      (some (secureDatabase Sample.parameters (Logger.mk "main")))
      Sample.newCredentials (Dial.mk (.ok 7) [PingResult.ok])).reconnects = [] ∧
    (onNewCredentials Sample.decode Sample.seconds
      (some (secureDatabase Sample.parameters (Logger.mk "main")))
      Sample.newCredentials (Dial.mk (.ok 7) [PingResult.ok])).trace = [] ∧
    (onNewCredentials Sample.decode Sample.seconds
      (some (secureDatabase Sample.parameters (Logger.mk "main")))
      Sample.newCredentials (Dial.mk (.ok 7) [PingResult.ok])).outcome =
      Outcome.returned (Reply.mk ReplyStatus.FAIL
        "database.Connection is nil, please open the connection first" []) ∧
    (onNewCredentials Sample.decode Sample.seconds
      (some (secureDatabase Sample.parameters (Logger.mk "main")))
      Sample.newCredentials (Dial.mk (.ok 7) [PingResult.ok])).db =
      some (secureDatabase Sample.parameters (Logger.mk "main")) ∧
    ((secureDatabase Sample.parameters (Logger.mk "main")).Reconnect Sample.seconds
      Sample.credentials (Dial.mk (.ok 7) [PingResult.ok])).outcome = Outcome.returned none ∧
    ((secureDatabase Sample.parameters (Logger.mk "main")).Reconnect Sample.seconds
      Sample.credentials (Dial.mk (.ok 7) [PingResult.ok])).database.Connection = some 7 ∧
    (connectWithDefault Sample.seconds (Logger.mk "main") Sample.parameters Sample.credentials
      (Dial.mk (.ok 7) [PingResult.ok])).outcome = Outcome.returned (.ok ()) ∧
    (connectWithDefault Sample.seconds (Logger.mk "main") Sample.parameters Sample.credentials
      (Dial.mk (.ok 7) [PingResult.ok])).database.Connection = some 7 :=
  ⟨rfl, rfl, rfl, rfl, rfl, rfl, rfl, rfl, rfl, rfl⟩

/-- The ping loop ends when one of the scripted pings succeeds or fails with the
context of the timeout done. -/
theorem pingLoop_ends (connection : Handle) (pings : List PingResult)
    (h : ∃ ping ∈ pings, ping = PingResult.ok ∨ ∃ err, ping = PingResult.failed err true) :
    (pingLoop connection pings).2 ≠ none := by
  induction pings with
  | nil =>
    obtain ⟨ping, hmem, _⟩ := h
    exact absurd hmem (List.not_mem_nil _)
  | cons p rest ih =>
    cases p with
    | ok => simp [pingLoop]
    | failed failed deadline =>
      cases deadline
      · simp only [pingLoop]
        apply ih
        obtain ⟨ping, hmem, hping⟩ := h
        rcases List.mem_cons.mp hmem with rfl | hrest
        · rcases hping with hping | ⟨err, hping⟩
          · exact PingResult.noConfusion hping
          · simp at hping
        · exact ⟨ping, hrest, hping⟩
      · simp [pingLoop]

/-- A `Reconnect` never panics, and it returns when the mutex is free and `sql.Open`
fails or one of the scripted pings ends the ping loop. -/
theorem Reconnect_returns (durationString : Duration → String)
    (database : Database) (credentials : DatabaseCredentials) (dial : Dial) :
    (∀ reason, (database.Reconnect durationString credentials dial).outcome ≠
      Outcome.panicked reason) ∧
    (database.connectionMutex = false →
      ((∃ failed, dial.opened = .error failed) ∨
        ∃ ping ∈ dial.pings, ping = PingResult.ok ∨ ∃ err, ping = PingResult.failed err true) →
      ∃ result, (database.Reconnect durationString credentials dial).outcome =
        Outcome.returned result) := by
  rcases Reconnect_cases dial database.connectionMutex with
    ⟨failed, hopen⟩ | ⟨connection, pinged, hopen, _, hloop⟩
  · rw [Reconnect_open_failed durationString database credentials dial failed hopen]
    exact ⟨fun reason h => Outcome.noConfusion h, fun _ _ => ⟨_, rfl⟩⟩
  · rcases hloop with hloop | ⟨failed, hloop⟩ | ⟨hloop, hheld⟩ | ⟨hloop, hfree⟩
    · rw [Reconnect_ping_blocked durationString database credentials dial connection pinged
        hopen hloop]
      refine ⟨fun reason h => Outcome.noConfusion h, fun _ hends => ?_⟩
      rcases hends with ⟨failed, hfailed⟩ | hends
      · rw [hopen] at hfailed
        exact Except.noConfusion hfailed
      · have := pingLoop_ends connection dial.pings hends
        rw [hloop] at this
        exact absurd rfl this
    · rw [Reconnect_ping_deadline durationString database credentials dial connection pinged
        failed hopen hloop]
      exact ⟨fun reason h => Outcome.noConfusion h, fun _ _ => ⟨_, rfl⟩⟩
    · rw [Reconnect_swap_blocked durationString database credentials dial connection pinged
        hopen hloop hheld]
      refine ⟨fun reason h => Outcome.noConfusion h, fun hfree _ => ?_⟩
      rw [hheld] at hfree
      exact Bool.noConfusion hfree
    · rw [Reconnect_swapped durationString database credentials dial connection pinged
        hopen hloop hfree]
      exact ⟨fun reason h => Outcome.noConfusion h, fun _ _ => ⟨_, rfl⟩⟩

/-- On a populated handle and a payload that deserializes, `onNewCredentials` calls
`Reconnect` once, with the credentials of the payload, and answers by how it ended. -/
theorem onNewCredentials_populated
    (Interface : KeyValue → Except String DatabaseCredentials)
    (durationString : Duration → String) (database : Database) (request : Request)
    (dial : Dial) (credentials : DatabaseCredentials)
    (hdecode : Interface request.Parameters = .ok credentials)
    (hconn : database.Connection ≠ none) :
    onNewCredentials Interface durationString (some database) request dial =
      { outcome :=
          match (database.Reconnect durationString credentials dial).outcome with
          | Outcome.returned (some err) =>
            Outcome.returned (Reply.mk ReplyStatus.FAIL ("database.reconnect:" ++ err) [])
          | Outcome.returned none => Outcome.returned (Reply.mk ReplyStatus.OK "" [])
          | Outcome.panicked reason => Outcome.panicked reason
          | Outcome.blocked => Outcome.blocked,
        db := some (database.Reconnect durationString credentials dial).database,
        reconnects := [(credentials, (database.Reconnect durationString credentials dial).outcome)],
        trace := (database.Reconnect durationString credentials dial).trace } := by
  unfold onNewCredentials
  simp only [hdecode, hconn, if_false]
  rfl

/-- C10: `onNewCredentials` on a handle that is not the nil pointer, for every request.
A payload that does not deserialize gives FAIL without a call of `Reconnect`, and so
does an empty handle. With a payload that deserializes and a populated handle the
handler calls `Reconnect` exactly once, with the credentials of the payload: when that
call returns nil the reply is the OK reply with empty message and empty parameters and
the handle is the one `Reconnect` left; when it returns an error the reply is FAIL with
message "database.reconnect:" followed by the text of the error and the handle,
`Connection` included, is left as it was; the call returns when the mutex is free and
`sql.Open` fails or a ping ends the ping loop, and then the handler returns. The reply
is the OK reply exactly when the payload deserialized, the handle was populated and
`Reconnect` returned nil; every reply is that OK reply or a FAIL without parameters,
and the handler never panics. -/
theorem onNewCredentials_acknowledges_or_fails
    (Interface : KeyValue → Except String DatabaseCredentials)
    (durationString : Duration → String) (database : Database) (request : Request)
    (dial : Dial) :
    let handled := onNewCredentials Interface durationString (some database) request dial
    let acknowledged : Reply :=
      { Status := ReplyStatus.OK, Message := "", Parameters := [] }
    (∀ call ∈ handled.reconnects, Interface request.Parameters = .ok call.1 ∧
      call.2 = (database.Reconnect durationString call.1 dial).outcome) ∧
    ((∀ call ∈ handled.reconnects, ∃ result, call.2 = Outcome.returned result) →
      ∃ reply, handled.outcome = Outcome.returned reply ∧
        (reply = acknowledged ∨ reply.Status = ReplyStatus.FAIL)) ∧
    (handled.outcome = Outcome.returned acknowledged ↔
      ∃ credentials, Interface request.Parameters = .ok credentials ∧
        handled.reconnects = [(credentials, Outcome.returned none)]) ∧
    (∀ credentials err,
      (credentials, Outcome.returned (some err)) ∈ handled.reconnects →
      handled.outcome = Outcome.returned
        { Status := ReplyStatus.FAIL, Message := "database.reconnect:" ++ err,
          Parameters := [] } ∧
      handled.db = some database) ∧
    (∀ failed, Interface request.Parameters = .error failed →
      handled.outcome = Outcome.returned
        (Reply.mk ReplyStatus.FAIL "the received database credentials are invalid" []) ∧
      handled.reconnects = [] ∧ handled.db = some database) ∧
    (∀ credentials, Interface request.Parameters = .ok credentials →
      database.Connection = none →
      handled.outcome = Outcome.returned
        (Reply.mk ReplyStatus.FAIL
          "database.Connection is nil, please open the connection first" []) ∧
      handled.reconnects = [] ∧ handled.db = some database) ∧
    (∀ credentials, Interface request.Parameters = .ok credentials →
      database.Connection ≠ none →
      handled.reconnects =
        [(credentials, (database.Reconnect durationString credentials dial).outcome)] ∧
      handled.trace = (database.Reconnect durationString credentials dial).trace ∧
      handled.db = some (database.Reconnect durationString credentials dial).database ∧
      ((database.Reconnect durationString credentials dial).outcome = Outcome.returned none →
        handled.outcome = Outcome.returned acknowledged) ∧
      (∀ err, (database.Reconnect durationString credentials dial).outcome =
          Outcome.returned (some err) →
        handled.outcome = Outcome.returned
          (Reply.mk ReplyStatus.FAIL ("database.reconnect:" ++ err) []) ∧
        handled.db = some database) ∧
      (database.connectionMutex = false →
        ((∃ failed, dial.opened = .error failed) ∨
          ∃ ping ∈ dial.pings,
            ping = PingResult.ok ∨ ∃ err, ping = PingResult.failed err true) →
        ∃ reply, handled.outcome = Outcome.returned reply)) ∧
    (handled.outcome = Outcome.returned acknowledged ↔
      ∃ credentials, Interface request.Parameters = .ok credentials ∧
        database.Connection ≠ none ∧
        (database.Reconnect durationString credentials dial).outcome =
          Outcome.returned none) ∧
    (∀ reply, handled.outcome = Outcome.returned reply →
      reply = acknowledged ∨ (reply.Status = ReplyStatus.FAIL ∧ reply.Parameters = [])) ∧
    (∀ reason, handled.outcome ≠ Outcome.panicked reason) := by
  intro handled acknowledged
  cases hdecode : Interface request.Parameters with
  | error failed =>
    have hvalue : handled = Handled.mk
        (Outcome.returned
          (Reply.mk ReplyStatus.FAIL "the received database credentials are invalid" []))
        (some database) [] [] := by
      simp only [handled, onNewCredentials, hdecode]
      rfl
    rw [hvalue]
    simp [acknowledged]
  | ok credentials =>
    by_cases hconn : database.Connection = none
    · have hvalue : handled = Handled.mk
          (Outcome.returned
            (Reply.mk ReplyStatus.FAIL
              "database.Connection is nil, please open the connection first" []))
          (some database) [] [] := by
        simp only [handled, onNewCredentials, hdecode, hconn, if_true]
        rfl
      rw [hvalue]
      simp [acknowledged, hconn]
    · have hvalue := onNewCredentials_populated Interface durationString database request
        dial credentials hdecode hconn
      have hreturns := Reconnect_returns durationString database credentials dial
      simp only [handled]
      rw [hvalue]
      cases hout : (database.Reconnect durationString credentials dial).outcome with
      | blocked =>
        have hnot : ∀ result, (database.Reconnect durationString credentials dial).outcome ≠
            Outcome.returned result := by
          intro result h
          rw [hout] at h
          exact Outcome.noConfusion h
        refine ⟨by simp [hout], by simp [hout], by simp [hout], by simp [hout], by simp [hout], ?_, ?_, ?_, by simp [hout],
          by simp [hout]⟩
        · intro c hc hnil
          exact absurd hnil hconn
        · intro c hc _
          have hc := Except.ok.inj hc
          subst hc
          refine ⟨by rw [hout], rfl, rfl, by simp [hout], by simp [hout], ?_⟩
          intro hfree hends
          obtain ⟨result, hresult⟩ := hreturns.2 hfree hends
          exact absurd hresult (hnot result)
        · simp [hout]
      | panicked reason => exact absurd hout (hreturns.1 reason)
      | returned result =>
        cases result with
        | none =>
          refine ⟨by simp [hout], by simp [acknowledged, hout], by simp [acknowledged, hout],
            by simp [hout], by simp [hout], ?_, ?_, ?_, by simp [acknowledged, hout], by simp [hout]⟩
          · intro c hc hnil
            exact absurd hnil hconn
          · intro c hc _
            have hc := Except.ok.inj hc
            subst hc
            exact ⟨by rw [hout], rfl, rfl, by simp [acknowledged, hout], by simp [hout],
              fun _ _ => ⟨_, rfl⟩⟩
          · simp [acknowledged, hconn, hout]
        | some err =>
          have hkeep := Reconnect_error durationString database credentials dial err hout
          refine ⟨by simp [hout], by simp [hout], by simp [acknowledged, hout], by simp [hkeep, hout],
            by simp [hout], ?_, ?_, ?_, by simp [hout], by simp [hout]⟩
          · intro c hc hnil
            exact absurd hnil hconn
          · intro c hc _
            have hc := Except.ok.inj hc
            subst hc
            exact ⟨by rw [hout], rfl, rfl, by simp [hout], by simp [hkeep, hout],
              fun _ _ => ⟨_, rfl⟩⟩
          · simp [acknowledged, hout]

/-! ## The claims on a running sample -/

section Witnesses

open Sample

theorem Run_parse_error_replies_fail_and_continues_witness :
    controller.is_repliable = true ∧
    (controller.serve parse handlers [()] [incoming ["count"] none] 0).result = none ∧
    parse [""] = .error "empty" ∧
    (controller.pass parse handlers [()] (incoming [""] none)
      (controller.serve parse handlers [()] [incoming ["count"] none] 0).world).trace =
      [Event.recv (incoming [""] none).recv,
       Event.send { Status := ReplyStatus.FAIL, Message := "message.ParseRequest: " ++ "empty",
                    Parameters := [] }] :=
  ⟨rfl, rfl, rfl,
    (Run_parse_error_replies_fail_and_continues controller rfl parse handlers [()]
      [incoming ["count"] none] [incoming ["count"] none] (incoming [""] none) 0 [""]
      [("pub_key", "key")] "empty" rfl rfl rfl).1⟩

theorem Run_unknown_command_replies_fail_and_continues_witness :
    controller.is_repliable = true ∧
    (controller.serve parse handlers [()] [incoming ["count"] none] 0).result = none ∧
    parse ["drop"] = .ok { Command := "drop", Parameters := [], public_key := "" } ∧
    handlers.Exist "drop" = false ∧
    (controller.pass parse handlers [()] (incoming ["drop"] none)
      (controller.serve parse handlers [()] [incoming ["count"] none] 0).world).trace =
      [Event.recv (incoming ["drop"] none).recv,
       Event.send { Status := ReplyStatus.FAIL,
                    Message := "handler not found for command: " ++ "drop",
                    Parameters := [] }] :=
  ⟨rfl, rfl, rfl, rfl,
    (Run_unknown_command_replies_fail_and_continues controller rfl parse handlers [()]
      [incoming ["count"] none] [incoming ["count"] none] (incoming ["drop"] none) 0 ["drop"]
      [("pub_key", "key")] { Command := "drop", Parameters := [], public_key := "" }
      rfl rfl rfl rfl).1⟩

theorem Run_registered_command_invokes_once_and_replies_verbatim_witness :
    controller.is_repliable = true ∧
    (controller.serve parse handlers [()] [incoming ["count"] none] 0).result = none ∧
    parse ["count"] = .ok { Command := "count", Parameters := [], public_key := "" } ∧
    handlers "count" = some count ∧
    (controller.pass parse handlers [()] (incoming ["count"] none)
      (controller.serve parse handlers [()] [incoming ["count"] none] 0).world).trace =
      [Event.recv (incoming ["count"] none).recv,
       Event.invoke "count" { Command := "count", Parameters := [], public_key := "key" }
         controller.logger [()],
       Event.send { Status := ReplyStatus.FAIL, Message := "odd", Parameters := [] }] :=
  ⟨rfl, rfl, rfl, rfl,
    (Run_registered_command_invokes_once_and_replies_verbatim controller rfl parse handlers
      [()] [incoming ["count"] none] [incoming ["count"] none] (incoming ["count"] none) 0
      ["count"] [("pub_key", "key")] { Command := "count", Parameters := [], public_key := "" }
      count rfl rfl rfl rfl).1⟩

theorem Run_returns_exactly_on_transport_failure_witness :
    controller.is_repliable = true ∧
    (controller.serve parse handlers [()] [incoming ["count"] none] 0).result = none ∧
    (controller.Run parse handlers [()]
      { bind := none,
        exchanges := [incoming ["count"] none] ++
          { recv := .error "closed", send := none } :: [incoming ["count"] none] } 0).result =
      some (some "socket.recvMessageWithMetadata: closed") :=
  ⟨rfl, rfl,
    ((Run_returns_exactly_on_transport_failure controller parse handlers [()]
      { bind := none,
        exchanges := [incoming ["count"] none] ++
          { recv := .error "closed", send := none } :: [incoming ["count"] none] } 0).2.2.2
      [incoming ["count"] none] { recv := .error "closed", send := none }
      [incoming ["count"] none] "closed" rfl rfl rfl rfl).2.2⟩

theorem Run_one_outstanding_request_in_arrival_order_witness :
    controller.is_repliable = true ∧
    ((controller.Run parse handlers [()]
      { bind := none,
        exchanges := [(["count"], []), ([""], []), (["drop"], []), (["count"], [])].map
          fun message => { recv := .ok message, send := none } } 0).trace.filter
        Event.isSend).length = 4 :=
  ⟨rfl,
    (Run_one_outstanding_request_in_arrival_order controller rfl parse handlers [()]
      [(["count"], []), ([""], []), (["drop"], []), (["count"], [])] 0).2.1⟩

theorem Reconnect_error_keeps_connection_witness :
    (database.Reconnect seconds credentials
      { opened := .ok 2,
        pings := [PingResult.failed "refused" false, PingResult.failed "refused" true] }).outcome =
      Outcome.returned (some "database ping error: refused") ∧
    (database.Reconnect seconds credentials
      { opened := .ok 2,
        pings := [PingResult.failed "refused" false, PingResult.failed "refused" true] }).database.Connection =
      some 1 :=
  ⟨rfl,
    (Reconnect_error_keeps_connection seconds database credentials
      { opened := .ok 2,
        pings := [PingResult.failed "refused" false, PingResult.failed "refused" true] }
      "database ping error: refused" rfl).2.1⟩

theorem ReconnectEach_leaves_one_live_connection_witness :
    (database.ReconnectEach seconds
      [(credentials, { opened := .ok 2, pings := [PingResult.ok] }),
       (credentials, { opened := .ok 3,
                       pings := [PingResult.failed "starting" false, PingResult.ok] })]).1 =
      [Outcome.returned none, Outcome.returned none] ∧
    (database.Connection.toList ++ [2, 3]).Nodup ∧
    ∀ h ∈ database.Connection.toList ++ [2, 3].dropLast,
      (closes (database.ReconnectEach seconds
        [(credentials, { opened := .ok 2, pings := [PingResult.ok] }),
         (credentials, { opened := .ok 3,
                         pings := [PingResult.failed "starting" false, PingResult.ok] })]).2.2).count h = 1 :=
  ⟨rfl, by decide,
    (ReconnectEach_leaves_one_live_connection seconds database
      [(credentials, { opened := .ok 2, pings := [PingResult.ok] }),
       (credentials, { opened := .ok 3,
                       pings := [PingResult.failed "starting" false, PingResult.ok] })]
      (by simp) (by decide) (by decide)).2.2.1⟩

theorem Close_closes_once_and_mutex_is_released_witness :
    database.connectionMutex = false ∧
    database.Connection = some 1 ∧
    (database.Close (some "busy")).trace =
      [DbEvent.lock, DbEvent.close 1, DbEvent.unlock] ∧
    (database.Close (some "busy")).database.connectionMutex = false :=
  ⟨rfl, rfl,
    ((Close_closes_once_and_mutex_is_released { q := String.quote, v := fun _ => "[]" }
      database rfl (some "busy") 2 "SELECT 1" [] (.error "gone")).2.1 1 rfl).1,
    ((Close_closes_once_and_mutex_is_released { q := String.quote, v := fun _ => "[]" }
      database rfl (some "busy") 2 "SELECT 1" [] (.error "gone")).2.2.1 _ rfl).2.1⟩

theorem onNewCredentials_acknowledges_or_fails_witness :
    decode newCredentials.Parameters = .ok credentials ∧
    database.Connection ≠ none ∧
    (onNewCredentials decode seconds (some database) newCredentials
        (Dial.mk (.ok 2) [PingResult.failed "starting" false, PingResult.ok])).outcome =
      Outcome.returned (Reply.mk ReplyStatus.OK "" []) ∧
    (onNewCredentials decode seconds (some database) newCredentials
        (Dial.mk (.ok 2) [PingResult.failed "starting" false, PingResult.ok])).reconnects =
      [(credentials, Outcome.returned none)] ∧
    (onNewCredentials decode seconds (some database) newCredentials
        (Dial.mk (.ok 2) [PingResult.failed "refused" true])).outcome =
      Outcome.returned
        (Reply.mk ReplyStatus.FAIL ("database.reconnect:" ++ "database ping error: refused")
          []) ∧
    (onNewCredentials decode seconds (some database) newCredentials
        (Dial.mk (.ok 2) [PingResult.failed "refused" true])).db = some database :=
  ⟨rfl, by decide,
    ((onNewCredentials_acknowledges_or_fails decode seconds database newCredentials
      (Dial.mk (.ok 2) [PingResult.failed "starting" false, PingResult.ok])).2.2.2.2.2.2.1
      credentials rfl (by decide)).2.2.2.1 rfl,
    ((onNewCredentials_acknowledges_or_fails decode seconds database newCredentials
      (Dial.mk (.ok 2) [PingResult.failed "starting" false, PingResult.ok])).2.2.2.2.2.2.1
      credentials rfl (by decide)).1,
    (((onNewCredentials_acknowledges_or_fails decode seconds database newCredentials
      (Dial.mk (.ok 2) [PingResult.failed "refused" true])).2.2.2.2.2.2.1
      credentials rfl (by decide)).2.2.2.2.1 "database ping error: refused" rfl).1,
    (((onNewCredentials_acknowledges_or_fails decode seconds database newCredentials
      (Dial.mk (.ok 2) [PingResult.failed "refused" true])).2.2.2.2.2.2.1
      credentials rfl (by decide)).2.2.2.2.1 "database ping error: refused" rfl).2⟩

end Witnesses

/-! ## Resource handle: the log records of `Reconnect` -/

theorem logs_append (xs ys : List DbEvent) : logs (xs ++ ys) = logs xs ++ logs ys := by
  induction xs with
  | nil => rfl
  | cons e rest ih => cases e <;> simp [logs, ih]

theorem logs_of_pings (connection : Handle) (trace : List DbEvent)
    (h : ∀ e ∈ trace, e = DbEvent.ping connection) : logs trace = [] := by
  induction trace with
  | nil => rfl
  | cons e rest ih =>
    have he := h e (List.mem_cons_self _ _)
    subst he
    simpa [logs] using ih (fun e he => h e (List.mem_cons_of_mem _ he))

/-- The log records of a `Reconnect`: the record of the connection attempt, whose
fields are protocol, database, host, port, user and timeout, followed by the record of
the success when the call returns nil. -/
theorem Reconnect_logs (durationString : Duration → String) (database : Database)
    (credentials : DatabaseCredentials) (dial : Dial) :
    logs (database.Reconnect durationString credentials dial).trace =
      (database.logger, "connecting to `mysql` database",
        [("protocol", LogValue.text "tcp"),
         ("database", LogValue.text database.parameters.name),
         ("host", LogValue.text database.parameters.hostname),
         ("port", LogValue.text database.parameters.port),
         ("user", LogValue.text credentials.Username),
         ("timeout", LogValue.duration database.parameters.timeout)]) ::
      (if (database.Reconnect durationString credentials dial).outcome = Outcome.returned none
        then [(database.logger, "connection success!",
          [("database", LogValue.text database.parameters.name)])]
        else []) := by
  rcases Reconnect_cases dial database.connectionMutex with
    ⟨failed, hopen⟩ | ⟨connection, pinged, hopen, hpings, hloop⟩
  · rw [Reconnect_open_failed durationString database credentials dial failed hopen]
    simp [logs, Database.connecting]
  · rcases hloop with hloop | ⟨failed, hloop⟩ | ⟨hloop, hheld⟩ | ⟨hloop, hfree⟩
    · rw [Reconnect_ping_blocked durationString database credentials dial connection pinged
        hopen hloop]
      simp [logs, logs_append, logs_of_pings connection pinged hpings, Database.connecting]
    · rw [Reconnect_ping_deadline durationString database credentials dial connection pinged
        failed hopen hloop]
      simp [logs, logs_append, logs_of_pings connection pinged hpings, Database.connecting]
    · rw [Reconnect_swap_blocked durationString database credentials dial connection pinged
        hopen hloop hheld]
      simp [logs, logs_append, logs_of_pings connection pinged hpings, Database.connecting]
    · rw [Reconnect_swapped durationString database credentials dial connection pinged
        hopen hloop hfree]
      cases database.Connection <;>
        simp [logs, logs_append, logs_of_pings connection pinged hpings, Database.connecting,
          Database.connected]

/-- The way a `Reconnect` ends does not depend on the credentials. -/
theorem Reconnect_outcome_credentials (durationString : Duration → String)
    (database : Database) (first second : DatabaseCredentials) (dial : Dial) :
    (database.Reconnect durationString first dial).outcome =
      (database.Reconnect durationString second dial).outcome := by
  rcases Reconnect_cases dial database.connectionMutex with
    ⟨failed, hopen⟩ | ⟨connection, pinged, hopen, hpings, hloop⟩
  · rw [Reconnect_open_failed durationString database first dial failed hopen,
      Reconnect_open_failed durationString database second dial failed hopen]
  · rcases hloop with hloop | ⟨failed, hloop⟩ | ⟨hloop, hheld⟩ | ⟨hloop, hfree⟩
    · rw [Reconnect_ping_blocked durationString database first dial connection pinged
        hopen hloop, Reconnect_ping_blocked durationString database second dial connection
        pinged hopen hloop]
    · rw [Reconnect_ping_deadline durationString database first dial connection pinged
        failed hopen hloop, Reconnect_ping_deadline durationString database second dial
        connection pinged failed hopen hloop]
    · rw [Reconnect_swap_blocked durationString database first dial connection pinged
        hopen hloop hheld, Reconnect_swap_blocked durationString database second dial
        connection pinged hopen hloop hheld]
    · rw [Reconnect_swapped durationString database first dial connection pinged
        hopen hloop hfree, Reconnect_swapped durationString database second dial
        connection pinged hopen hloop hfree]

/-- C11: the log records of `Reconnect` do not depend on the password. For two
credentials with the same user name, whatever their passwords, on the same handle (the
same parameters) and with the same outcomes of `sql.Open` and of the pings, the
sequence of logger calls with their arguments is the same, and so is the way the call
ends; the first record carries the fields protocol, database, host, port, user and
timeout, in which the password has no part, and the only other record is the one of
the success, with the field database. -/
theorem Reconnect_logs_do_not_depend_on_password (durationString : Duration → String)
    (database : Database) (first second : DatabaseCredentials) (dial : Dial)
    (huser : first.Username = second.Username) :
    logs (database.Reconnect durationString first dial).trace =
      logs (database.Reconnect durationString second dial).trace ∧
    (database.Reconnect durationString first dial).outcome =
      (database.Reconnect durationString second dial).outcome ∧
    (∀ record ∈ logs (database.Reconnect durationString first dial).trace,
      record.2.2.map Prod.fst =
        ["protocol", "database", "host", "port", "user", "timeout"] ∨
      record.2.2.map Prod.fst = ["database"]) ∧
    (∀ record ∈ logs (database.Reconnect durationString first dial).trace,
      ∀ field ∈ record.2.2,
        field.2 = LogValue.text "tcp" ∨
        field.2 = LogValue.text database.parameters.name ∨
        field.2 = LogValue.text database.parameters.hostname ∨
        field.2 = LogValue.text database.parameters.port ∨
        field.2 = LogValue.text first.Username ∨
        field.2 = LogValue.duration database.parameters.timeout) := by
  have hout := Reconnect_outcome_credentials durationString database first second dial
  refine ⟨?_, hout, ?_, ?_⟩
  · rw [Reconnect_logs, Reconnect_logs, huser, hout]
  · intro record hrecord
    rw [Reconnect_logs] at hrecord
    split at hrecord
    · simp only [List.mem_cons, List.mem_singleton, List.not_mem_nil, or_false] at hrecord
      rcases hrecord with rfl | rfl <;> simp
    · simp only [List.mem_cons, List.not_mem_nil, or_false] at hrecord
      subst hrecord
      simp
  · intro record hrecord field hfield
    rw [Reconnect_logs] at hrecord
    split at hrecord
    · simp only [List.mem_cons, List.mem_singleton, List.not_mem_nil, or_false] at hrecord
      rcases hrecord with rfl | rfl
      · simp only [List.mem_cons, List.not_mem_nil, or_false] at hfield
        rcases hfield with rfl | rfl | rfl | rfl | rfl | rfl <;> simp
      · simp only [List.mem_cons, List.not_mem_nil, or_false] at hfield
        subst hfield
        simp
    · simp only [List.mem_cons, List.not_mem_nil, or_false] at hrecord
      subst hrecord
      simp only [List.mem_cons, List.not_mem_nil, or_false] at hfield
      rcases hfield with rfl | rfl | rfl | rfl | rfl | rfl <;> simp

theorem Reconnect_logs_do_not_depend_on_password_witness :
    Sample.credentials.Username = (DatabaseCredentials.mk "root" "lion").Username ∧
    logs (Sample.database.Reconnect Sample.seconds Sample.credentials
      (Dial.mk (.ok 2) [PingResult.failed "starting" false, PingResult.ok])).trace =
    logs (Sample.database.Reconnect Sample.seconds (DatabaseCredentials.mk "root" "lion")
      (Dial.mk (.ok 2) [PingResult.failed "starting" false, PingResult.ok])).trace :=
  ⟨rfl, (Reconnect_logs_do_not_depend_on_password Sample.seconds Sample.database
    Sample.credentials (DatabaseCredentials.mk "root" "lion")
    (Dial.mk (.ok 2) [PingResult.failed "starting" false, PingResult.ok]) rfl).1⟩

/-! ## Configuration: `GetParameters` and `GetDefaultCredentials` -/

/-- C14: `GetParameters` returns an error if and only if the configured
SDS_DATABASE_TIMEOUT is 0 or greater than `TimeoutCap`, which is 3600. Otherwise it
returns parameters whose hostname, port and name are the configured SDS_DATABASE_HOST,
SDS_DATABASE_PORT and SDS_DATABASE_NAME and whose timeout is exactly that many seconds:
the int64 product does not overflow, and the timeout is above zero and at most 3600
seconds. -/
theorem GetParameters_rejects_zero_and_above_cap (appConfig : Config) :
    TimeoutCap = 3600 ∧
    ((∃ err, GetParameters appConfig = .error err) ↔
      (appConfig.GetUint64 "SDS_DATABASE_TIMEOUT" = 0 ∨
       appConfig.GetUint64 "SDS_DATABASE_TIMEOUT" > TimeoutCap)) ∧
    (¬ (appConfig.GetUint64 "SDS_DATABASE_TIMEOUT" = 0 ∨
        appConfig.GetUint64 "SDS_DATABASE_TIMEOUT" > TimeoutCap) →
      ∃ parameters, GetParameters appConfig = .ok parameters) ∧
    (∀ parameters, GetParameters appConfig = .ok parameters →
      parameters.hostname = appConfig.GetString "SDS_DATABASE_HOST" ∧
      parameters.port = appConfig.GetString "SDS_DATABASE_PORT" ∧
      parameters.name = appConfig.GetString "SDS_DATABASE_NAME" ∧
      parameters.timeout =
        (appConfig.GetUint64 "SDS_DATABASE_TIMEOUT" : Int) * 1000000000 ∧
      0 < parameters.timeout ∧ parameters.timeout ≤ 3600 * Second) := by
  refine ⟨rfl, ?_, ?_, ?_⟩
  · unfold GetParameters
    simp only
    split
    · simp_all
    · split
      · simp_all
      · constructor
        · rintro ⟨err, herr⟩
          exact Except.noConfusion herr
        · intro h
          unfold TimeoutCap at *
          omega
  · intro h
    unfold GetParameters
    simp only
    rw [if_neg (by unfold TimeoutCap at *; omega), if_neg (by omega)]
    exact ⟨_, rfl⟩
  · intro parameters h
    unfold GetParameters at h
    simp only at h
    split at h
    · exact Except.noConfusion h
    · split at h
      · exact Except.noConfusion h
      · rename_i hcap hzero
        have hle : appConfig.GetUint64 "SDS_DATABASE_TIMEOUT" ≤ 3600 := by
          unfold TimeoutCap at hcap
          omega
        have hpos : 0 < appConfig.GetUint64 "SDS_DATABASE_TIMEOUT" := by omega
        injection h with h
        rw [← h]
        have hprod : int64 (int64 (appConfig.GetUint64 "SDS_DATABASE_TIMEOUT" : Int) * Second) =
            (appConfig.GetUint64 "SDS_DATABASE_TIMEOUT" : Int) * 1000000000 := by
          unfold int64 Second
          omega
        refine ⟨rfl, rfl, rfl, hprod, ?_, ?_⟩
        · simp only
          rw [hprod]
          show (0 : Int) < (appConfig.GetUint64 "SDS_DATABASE_TIMEOUT" : Int) * 1000000000
          omega
        · simp only
          rw [hprod]
          show (appConfig.GetUint64 "SDS_DATABASE_TIMEOUT" : Int) * 1000000000 ≤
            (3600 : Int) * 1000000000
          omega

theorem GetParameters_rejects_zero_and_above_cap_witness :
    GetParameters ((Config.mk [] []).SetDefaults DatabaseConfigurations) =
      .ok (DatabaseParameters.mk "localhost" "3306" "seascape_sds" 10000000000) ∧
    (DatabaseParameters.mk "localhost" "3306" "seascape_sds" 10000000000).timeout ≤
      3600 * Second :=
  ⟨rfl, ((GetParameters_rejects_zero_and_above_cap
    ((Config.mk [] []).SetDefaults DatabaseConfigurations)).2.2.2
    (DatabaseParameters.mk "localhost" "3306" "seascape_sds" 10000000000) rfl).2.2.2.2.2⟩

theorem SetDefaults_DatabaseConfigurations_value (appConfig : Config) (name : String) :
    ((appConfig.SetDefaults DatabaseConfigurations).value name) =
      match appConfig.provided.lookup name with
      | some setting => some setting
      | none =>
        (("SDS_DATABASE_PASSWORD", Setting.text "tiger") ::
         ("SDS_DATABASE_USERNAME", Setting.text "root") ::
         ("SDS_DATABASE_TIMEOUT", Setting.uint64 10) ::
         ("SDS_DATABASE_NAME", Setting.text "seascape_sds") ::
         ("SDS_DATABASE_PORT", Setting.text "3306") ::
         ("SDS_DATABASE_HOST", Setting.text "localhost") :: appConfig.defaults).lookup name :=
  rfl

/-- C15: for every configuration `GetDefaultCredentials` returns the configured
SDS_DATABASE_USERNAME and SDS_DATABASE_PASSWORD. Both fields are empty when neither
parameter has a value, and after `SetDefaults(DatabaseConfigurations)` on a
configuration in which the user provided neither they are "root" and "tiger". -/
theorem GetDefaultCredentials_returns_configured_pair (appConfig : Config) :
    GetDefaultCredentials appConfig =
      DatabaseCredentials.mk (appConfig.GetString "SDS_DATABASE_USERNAME")
        (appConfig.GetString "SDS_DATABASE_PASSWORD") ∧
    (appConfig.value "SDS_DATABASE_USERNAME" = none →
      appConfig.value "SDS_DATABASE_PASSWORD" = none →
      GetDefaultCredentials appConfig = DatabaseCredentials.mk "" "") ∧
    (appConfig.provided.lookup "SDS_DATABASE_USERNAME" = none →
      appConfig.provided.lookup "SDS_DATABASE_PASSWORD" = none →
      GetDefaultCredentials (appConfig.SetDefaults DatabaseConfigurations) =
        DatabaseCredentials.mk "root" "tiger") := by
  refine ⟨rfl, ?_, ?_⟩
  · intro huser hpassword
    simp [GetDefaultCredentials, Config.GetString, huser, hpassword]
  · intro huser hpassword
    simp only [GetDefaultCredentials, Config.GetString,
      SetDefaults_DatabaseConfigurations_value, huser, hpassword]
    simp [List.lookup]

theorem GetDefaultCredentials_returns_configured_pair_witness :
    (Config.mk [] []).value "SDS_DATABASE_USERNAME" = none ∧
    (Config.mk [] []).value "SDS_DATABASE_PASSWORD" = none ∧
    GetDefaultCredentials (Config.mk [] []) = DatabaseCredentials.mk "" "" ∧
    GetDefaultCredentials ((Config.mk [] []).SetDefaults DatabaseConfigurations) =
      DatabaseCredentials.mk "root" "tiger" :=
  ⟨rfl, rfl,
    (GetDefaultCredentials_returns_configured_pair (Config.mk [] [])).2.1 rfl rfl,
    (GetDefaultCredentials_returns_configured_pair (Config.mk [] [])).2.2 rfl rfl⟩

/-! ## Database handlers -/

theorem current_eq_none (db : Option Database)
    (hnil : db = none ∨ ∃ database, db = some database ∧ database.Connection = none) :
    current db = none := by
  rcases hnil with rfl | ⟨database, rfl, hconn⟩
  · rfl
  · exact hconn

/-- C12: each of the six database handlers, for every request, when `db` is nil or
`db.Connection` is nil, returns the FAIL reply whose message is
"database.Connection is nil, please open the connection first", which contains
"Connection is nil", and makes no call at all: no parameter is parsed, no query is
built and nothing is executed; `db` is left as it is. -/
theorem handlers_fail_on_nil_connection (library : Library) (db : Option Database)
    (request : Request) (sql : Answers)
    (hnil : db = none ∨ ∃ database, db = some database ∧ database.Connection = none) :
    ∀ handler ∈ [onSelectAll, onExist, onSelectRow, onDelete, onInsert, onUpdate],
      (handler library db request sql).outcome = Outcome.returned
        (Reply.mk ReplyStatus.FAIL
          "database.Connection is nil, please open the connection first" []) ∧
      contains "database.Connection is nil, please open the connection first"
        "Connection is nil" ∧
      (handler library db request sql).trace = [] ∧
      (handler library db request sql).reconnects = [] ∧
      (handler library db request sql).db = db := by
  have hcurrent := current_eq_none db hnil
  have hcontains : contains "database.Connection is nil, please open the connection first"
      "Connection is nil" := ⟨"database.", ", please open the connection first", by decide⟩
  intro handler hmem
  simp only [List.mem_cons, List.mem_singleton, List.not_mem_nil, or_false] at hmem
  rcases hmem with rfl | rfl | rfl | rfl | rfl | rfl
  · simp [onSelectAll, hcurrent, replied, Fail, KeyValue.Empty, hcontains]
  · simp [onExist, hcurrent, replied, Fail, KeyValue.Empty, hcontains]
  · refine ⟨?_, hcontains, ?_, ?_, ?_⟩ <;>
    · unfold onSelectRow
      split
      · rename_i database connection hdb hconn
        rw [hcurrent] at hconn
        exact Option.noConfusion hconn
      · rfl
  · simp [onDelete, hcurrent, replied, Fail, KeyValue.Empty, hcontains]
  · simp [onInsert, hcurrent, replied, Fail, KeyValue.Empty, hcontains]
  · simp [onUpdate, hcurrent, replied, Fail, KeyValue.Empty, hcontains]


theorem handlers_fail_on_nil_connection_witness :
    (onSelectRow Sample.library
      (some (secureDatabase Sample.parameters (Logger.mk "main"))) Sample.selectRow
      Sample.oneRow).outcome = Outcome.returned
        (Reply.mk ReplyStatus.FAIL
          "database.Connection is nil, please open the connection first" []) ∧
    (onSelectRow Sample.library
      (some (secureDatabase Sample.parameters (Logger.mk "main"))) Sample.selectRow
      Sample.oneRow).trace = [] :=
  ⟨(handlers_fail_on_nil_connection Sample.library
      (some (secureDatabase Sample.parameters (Logger.mk "main"))) Sample.selectRow
      Sample.oneRow (Or.inr ⟨_, rfl, rfl⟩) onSelectRow (by simp)).1,
   (handlers_fail_on_nil_connection Sample.library
      (some (secureDatabase Sample.parameters (Logger.mk "main"))) Sample.selectRow
      Sample.oneRow (Or.inr ⟨_, rfl, rfl⟩) onSelectRow (by simp)).2.2.1⟩

theorem monitor_nil_watcher (moments : List Moment) :
    monitor "true" none moments =
      (Renewed.panicked "invalid memory address or nil pointer dereference", []) := by
  unfold monitor
  simp

theorem monitor_without_auth_nil (secure : String) (hsecure : secure ≠ "true")
    (authTokenWatcher : Option Secret) :
    monitor secure authTokenWatcher [] = (Renewed.watching, []) := by
  unfold monitor
  simp [hsecure]

theorem monitor_without_auth_cons (secure : String) (hsecure : secure ≠ "true")
    (authTokenWatcher : Option Secret) (moment : Moment) (rest : List Moment) :
    monitor secure authTokenWatcher (moment :: rest) =
      match moment.chosen Signal.withoutAuth with
      | some Signal.ctxDone => (Renewed.returned exitRequested none, [])
      | some (Signal.databaseCredentialsDone err) =>
        (Renewed.returned expiringDatabaseCredentialsLease err, [])
      | some (Signal.databaseCredentialsRenew leaseDuration) =>
        ((monitor secure authTokenWatcher rest).1,
          VaultEvent.log
            ("database credentials: successfully renewed; remaining lease duration: " ++
              toString leaseDuration ++ "s") :: (monitor secure authTokenWatcher rest).2)
      | _ => monitor secure authTokenWatcher rest := by
  rw [monitor.eq_def]
  simp only [hsecure, if_false]

/-- A moment at which the select of the branch without the authentication layer does
not end the cycle: no case can proceed, or it proceeds with a renewal. -/
theorem monitor_without_auth_renewals (secure : String) (hsecure : secure ≠ "true")
    (authTokenWatcher : Option Secret) (before rest : List Moment)
    (hbefore : ∀ moment ∈ before, ∀ signal,
      moment.chosen Signal.withoutAuth = some signal →
      ∃ leaseDuration, signal = Signal.databaseCredentialsRenew leaseDuration) :
    (monitor secure authTokenWatcher (before ++ rest)).1 =
      (monitor secure authTokenWatcher rest).1 := by
  induction before with
  | nil => rfl
  | cons moment others ih =>
    have hothers := ih (fun m hm => hbefore m (List.mem_cons_of_mem _ hm))
    have hmoment := hbefore moment (List.mem_cons_self _ _)
    rw [List.cons_append, monitor_without_auth_cons secure hsecure]
    cases hchosen : moment.chosen Signal.withoutAuth with
    | none => simpa using hothers
    | some signal =>
      obtain ⟨leaseDuration, rfl⟩ := hmoment signal hchosen
      simpa using hothers

/-- The watch cycle without the authentication layer, once the watcher of the
database credentials is created: how it ends is how its selects end. -/
theorem renewLeases_without_auth (v : Vault) (authToken lease : Secret) (watch : Watch)
    (hsecure : watch.secure ≠ "true") (hwatcher : watch.databaseCredentialsWatcher = none) :
    (v.renewLeases authToken lease watch).ended = (monitor watch.secure none watch.moments).1 := by
  unfold Vault.renewLeases
  simp only [hsecure, if_false, hwatcher]
  rcases hmonitor : monitor watch.secure none watch.moments with ⟨ended, monitored⟩
  cases ended <;> simp

/-- C16: with the authentication layer enabled (SDS_VAULT_SECURE is "true") and both
watchers created, `renewLeases` classifies no event at all: whatever the selects could
proceed with (a done event of the auth-token watcher, a done event of the watcher of
the database credentials, a cancelled context, a renewal), the call panics on the nil
`authTokenWatcher` of the function scope and returns no renewResult. -/
theorem renewLeases_secure_branch_classifies_nothing (v : Vault) (authToken lease : Secret)
    (moments : List Moment) :
    (v.renewLeases authToken lease (Watch.mk "true" none none moments)).ended =
      Renewed.panicked "invalid memory address or nil pointer dereference" ∧
    (∀ result err,
      (v.renewLeases authToken lease (Watch.mk "true" none none moments)).ended ≠
        Renewed.returned result err) ∧
    (Sample.vault.renewLeases "token-1" "lease-1"
      (Watch.mk "true" none none [Moment.mk [Signal.authTokenDone none] 0])).ended ≠
      Renewed.returned (expiringAuthToken ||| expiringDatabaseCredentialsLease) none := by
  have hpanic : (v.renewLeases authToken lease (Watch.mk "true" none none moments)).ended =
      Renewed.panicked "invalid memory address or nil pointer dereference" := by
    unfold Vault.renewLeases
    simp [monitor_nil_watcher]
  refine ⟨hpanic, ?_, by decide⟩
  intro result err h
  rw [hpanic] at h
  exact Renewed.noConfusion h

/-! ## Lease renewal: the recovery -/

/-- C17: one pass of the loop of `PeriodicallyRenewLeases` in which `renewLeases`
returned a nil error and no exit flag, with the flag of the database credentials
raised and `GetDatabaseCredentials` returning credentials. When the flag of the auth
token is raised too and `login` returns a token, the calls are `login`, once, then
`GetDatabaseCredentials`, once, made on the vault whose `auth_token` is already the
new token, then `db_reconnect`, once, with exactly the fetched credentials. When the
flag of the auth token is not raised, `login` is not called, `auth_token` is unchanged
and the calls are `GetDatabaseCredentials`, once, then `db_reconnect`, once, with
exactly the fetched credentials. -/
theorem recover_logs_in_before_it_refetches_and_reconnects (v : Vault)
    (renewed : renewResult) (round : Round) (databaseCredentials : DatabaseCredentials)
    (lease : Secret)
    (hexit : renewed &&& exitRequested = 0)
    (hdatabase : renewed &&& expiringDatabaseCredentialsLease ≠ 0)
    (hfetched : round.credentials = .ok (databaseCredentials, lease)) :
    (∀ auth_token, renewed &&& expiringAuthToken ≠ 0 → round.login = .ok auth_token →
      recoveries (v.recover renewed none round).trace =
        [VaultEvent.login v,
         VaultEvent.GetDatabaseCredentials { v with auth_token := auth_token },
         VaultEvent.db_reconnect databaseCredentials] ∧
      (v.recover renewed none round).vault.auth_token = auth_token) ∧
    (renewed &&& expiringAuthToken = 0 →
      recoveries (v.recover renewed none round).trace =
        [VaultEvent.GetDatabaseCredentials v,
         VaultEvent.db_reconnect databaseCredentials] ∧
      (v.recover renewed none round).vault.auth_token = v.auth_token) := by
  refine ⟨?_, ?_⟩
  · intro auth_token hauth hlogin
    unfold Vault.recover
    simp only [hexit, ne_eq, not_true_eq_false, if_false, hauth, not_false_eq_true, if_true,
      hlogin, hdatabase, hfetched]
    cases round.reconnect <;> simp [recoveries]
  · intro hauth
    unfold Vault.recover
    simp only [hexit, ne_eq, not_true_eq_false, if_false, hauth, hdatabase,
      not_false_eq_true, if_true, hfetched]
    cases round.reconnect <;> simp [recoveries]

theorem recover_logs_in_before_it_refetches_and_reconnects_witness :
    (expiringAuthToken ||| expiringDatabaseCredentialsLease) &&& exitRequested = 0 ∧
    (expiringAuthToken ||| expiringDatabaseCredentialsLease) &&&
      expiringDatabaseCredentialsLease ≠ 0 ∧
    (expiringAuthToken ||| expiringDatabaseCredentialsLease) &&& expiringAuthToken ≠ 0 ∧
    recoveries (Sample.vault.recover (expiringAuthToken ||| expiringDatabaseCredentialsLease)
      none (Sample.round (Watch.mk "false" none none []))).trace =
      [VaultEvent.login Sample.vault,
       VaultEvent.GetDatabaseCredentials { Sample.vault with auth_token := "token-2" },
       VaultEvent.db_reconnect (DatabaseCredentials.mk "v-user" "v-pass")] :=
  ⟨by decide, by decide, by decide,
    ((recover_logs_in_before_it_refetches_and_reconnects Sample.vault
      (expiringAuthToken ||| expiringDatabaseCredentialsLease)
      (Sample.round (Watch.mk "false" none none []))
      (DatabaseCredentials.mk "v-user" "v-pass") "lease-2"
      (by decide) (by decide) rfl).1 "token-2" (by decide) rfl).1⟩

/-! ## Lease renewal: cancellation -/

theorem recoveries_append (xs ys : List VaultEvent) :
    recoveries (xs ++ ys) = recoveries xs ++ recoveries ys := by
  induction xs with
  | nil => rfl
  | cons e rest ih => cases e <;> simp [recoveries, ih]

/-- The loop body after a `renewLeases` that returned the exit flag and a nil error:
the loop returns at once, whatever other flag is raised. -/
theorem recover_exit (v : Vault) (renewed : renewResult) (round : Round)
    (hexit : renewed &&& exitRequested ≠ 0) :
    v.recover renewed none round = { ended := some Ending.returned, vault := v, trace := [] } := by
  unfold Vault.recover
  simp [hexit]

/-- The watch cycle of a trace makes none of the recovery calls. -/
theorem monitor_recoveries (secure : String) (authTokenWatcher : Option Secret)
    (moments : List Moment) :
    recoveries (monitor secure authTokenWatcher moments).2 = [] := by
  induction moments with
  | nil =>
    unfold monitor
    split
    · split <;> rfl
    · rfl
  | cons moment rest ih =>
    rw [monitor.eq_def]
    split
    · split
      · rfl
      · simp only
        split <;> first | rfl | exact ih
    · simp only
      split <;> first | rfl | exact ih

theorem renewLeases_recoveries (v : Vault) (authToken lease : Secret) (watch : Watch) :
    recoveries (v.renewLeases authToken lease watch).trace = [] := by
  obtain ⟨secure, authTokenWatcher, databaseCredentialsWatcher, moments⟩ := watch
  have hmonitor := monitor_recoveries secure none moments
  rcases hm : monitor secure none moments with ⟨ended, monitored⟩
  rw [hm] at hmonitor
  simp only at hmonitor
  by_cases hs : secure = "true"
  · subst hs
    cases authTokenWatcher <;> cases databaseCredentialsWatcher <;> cases ended <;>
      simp [Vault.renewLeases, hm, recoveries_append, recoveries, hmonitor]
  · cases authTokenWatcher <;> cases databaseCredentialsWatcher <;> cases ended <;>
      simp [Vault.renewLeases, hs, hm, recoveries_append, recoveries, hmonitor]



theorem loop_nil (v : Vault) : v.loop [] = { ended := none, vault := v, trace := [] } := rfl

theorem loop_cons (v : Vault) (round : Round) (rest : List Round) :
    v.loop (round :: rest) =
      match (v.iteration round).ended with
      | some ending =>
        { ended := some ending, vault := (v.iteration round).vault,
          trace := (v.iteration round).trace }
      | none =>
        { ended := ((v.iteration round).vault.loop rest).ended,
          vault := ((v.iteration round).vault.loop rest).vault,
          trace := (v.iteration round).trace ++ ((v.iteration round).vault.loop rest).trace } :=
  rfl

/-- The loop over rounds that follow `pre`: when the loop has not ended in `pre` it
goes on from the vault that `pre` left, otherwise the later rounds are never looked
at. -/
theorem loop_append (v : Vault) (pre post : List Round) :
    v.loop (pre ++ post) =
      match (v.loop pre).ended with
      | none =>
        { ended := ((v.loop pre).vault.loop post).ended,
          vault := ((v.loop pre).vault.loop post).vault,
          trace := (v.loop pre).trace ++ ((v.loop pre).vault.loop post).trace }
      | some _ => v.loop pre := by
  induction pre generalizing v with
  | nil => simp [loop_nil]
  | cons round rest ih =>
    rw [List.cons_append, loop_cons, loop_cons]
    cases hx : (v.iteration round).ended with
    | some ending => simp
    | none =>
      simp only []
      rw [ih]
      cases hr : ((v.iteration round).vault.loop rest).ended <;> simp [hr]

/-- A loop that has not ended in `pre` and ends in the pass that follows: the later
rounds are never looked at. -/
theorem loop_reach_end (v : Vault) (pre post : List Round) (round : Round) (ending : Ending)
    (hreach : (v.loop pre).ended = none)
    (hend : ((v.loop pre).vault.iteration round).ended = some ending) :
    v.loop (pre ++ round :: post) =
      { ended := some ending, vault := ((v.loop pre).vault.iteration round).vault,
        trace := (v.loop pre).trace ++ ((v.loop pre).vault.iteration round).trace } := by
  rw [loop_append, hreach]
  simp only []
  rw [loop_cons, hend]

/-- A pass whose watch cycle returns the exit flag and a nil error. -/
theorem iteration_exit (v : Vault) (round : Round) (renewed : renewResult)
    (hrenewed : (v.renewLeases v.auth_token v.database_auth_token round.watch).ended =
      Renewed.returned renewed none)
    (hexit : renewed &&& exitRequested ≠ 0) :
    v.iteration round =
      { ended := some Ending.returned, vault := v,
        trace := (v.renewLeases v.auth_token v.database_auth_token round.watch).trace } := by
  unfold Vault.iteration
  simp only [hrenewed, recover_exit v renewed round hexit, List.append_nil]

/-- C18, as the code has it: without the authentication layer and with the watcher of
the database credentials created, a watch cycle whose selects proceeded with renewals
only (or could not proceed) and whose next select proceeds with the cancelled context
makes `renewLeases` return exactly `exitRequested` with a nil error, at whatever pass
of the loop; `PeriodicallyRenewLeases` then returns, leaving the vault as it is and
making no call of `login`, `GetDatabaseCredentials` or `db_reconnect` in that pass,
and it never looks at a later round. For every renewResult with the `exitRequested`
bit set and a nil error the loop returns before it tests any other flag. -/
theorem cancellation_taken_by_the_select_ends_the_loop (v : Vault) (round : Round)
    (before rest : List Moment) (moment : Moment)
    (hsecure : round.watch.secure ≠ "true")
    (hwatcher : round.watch.databaseCredentialsWatcher = none)
    (hmoments : round.watch.moments = before ++ moment :: rest)
    (hbefore : ∀ earlier ∈ before, ∀ signal,
      earlier.chosen Signal.withoutAuth = some signal →
      ∃ leaseDuration, signal = Signal.databaseCredentialsRenew leaseDuration)
    (hcancel : moment.chosen Signal.withoutAuth = some Signal.ctxDone) :
    (v.renewLeases v.auth_token v.database_auth_token round.watch).ended =
      Renewed.returned exitRequested none ∧
    (v.iteration round).ended = some Ending.returned ∧
    (v.iteration round).vault = v ∧
    recoveries (v.iteration round).trace = [] ∧
    (∀ (u : Vault) (pre post : List Round), (u.loop pre).ended = none →
      (u.loop pre).vault = v →
      (u.PeriodicallyRenewLeases (pre ++ round :: post)).ended = some Ending.returned ∧
      (u.PeriodicallyRenewLeases (pre ++ round :: post)).vault = v ∧
      recoveries (u.PeriodicallyRenewLeases (pre ++ round :: post)).trace =
        recoveries (u.loop pre).trace) ∧
    (∀ (renewed : renewResult) (other : Round), renewed &&& exitRequested ≠ 0 →
      v.recover renewed none other =
        { ended := some Ending.returned, vault := v, trace := [] }) := by
  have hrenewed : (v.renewLeases v.auth_token v.database_auth_token round.watch).ended =
      Renewed.returned exitRequested none := by
    rw [renewLeases_without_auth v _ _ round.watch hsecure hwatcher, hmoments,
      monitor_without_auth_renewals round.watch.secure hsecure none before _ hbefore,
      monitor_without_auth_cons round.watch.secure hsecure, hcancel]
  have hiteration := iteration_exit v round exitRequested hrenewed (by decide)
  have hnone : recoveries (v.iteration round).trace = [] := by
    rw [hiteration]
    exact renewLeases_recoveries v _ _ _
  refine ⟨hrenewed, by rw [hiteration], by rw [hiteration], hnone, ?_, ?_⟩
  · intro u pre post hreach hvault
    have hend : ((u.loop pre).vault.iteration round).ended = some Ending.returned := by
      rw [hvault, hiteration]
    have hloop := loop_reach_end u pre post round Ending.returned hreach hend
    rw [hvault] at hloop
    unfold Vault.PeriodicallyRenewLeases
    simp only [hloop]
    refine ⟨trivial, by rw [hiteration], ?_⟩
    simp [recoveries, recoveries_append, hnone]
  · intro renewed other hexit
    exact recover_exit v renewed other hexit

/-- C18, as it is stated, fails when a done event is ready at the same time as the
cancellation: the select may proceed with the done event. Here the context is
cancelled and the watcher of the database credentials is done; the runtime picks the
done event, `renewLeases` returns `expiringDatabaseCredentialsLease`, not
`exitRequested`, and `PeriodicallyRenewLeases` calls `GetDatabaseCredentials` and
`db_reconnect`. -/
theorem cancellation_may_lose_against_a_done_event :
    Signal.ctxDone ∈ (Moment.mk [Signal.ctxDone, Signal.databaseCredentialsDone none] 1).ready ∧
    (Sample.vault.renewLeases "token-1" "lease-1" (Watch.mk "false" none none
      [Moment.mk [Signal.ctxDone, Signal.databaseCredentialsDone none] 1])).ended =
      Renewed.returned expiringDatabaseCredentialsLease none ∧
    (Sample.vault.renewLeases "token-1" "lease-1" (Watch.mk "false" none none
      [Moment.mk [Signal.ctxDone, Signal.databaseCredentialsDone none] 1])).ended ≠
      Renewed.returned exitRequested none ∧
    recoveries (Sample.vault.PeriodicallyRenewLeases
      [Sample.round (Watch.mk "false" none none
        [Moment.mk [Signal.ctxDone, Signal.databaseCredentialsDone none] 1])]).trace =
      [VaultEvent.GetDatabaseCredentials Sample.vault,
       VaultEvent.db_reconnect (DatabaseCredentials.mk "v-user" "v-pass")] := by
  decide

theorem cancellation_taken_by_the_select_ends_the_loop_witness :
    (Moment.mk [Signal.databaseCredentialsDone none, Signal.ctxDone] 1).chosen
      Signal.withoutAuth = some Signal.ctxDone ∧
    (Sample.vault.PeriodicallyRenewLeases
      ([] ++ Sample.round (Watch.mk "false" none none
        ([Moment.mk [Signal.databaseCredentialsRenew 30] 0] ++
          Moment.mk [Signal.databaseCredentialsDone none, Signal.ctxDone] 1 :: [])) ::
        [])).ended = some Ending.returned :=
  ⟨by decide,
    ((cancellation_taken_by_the_select_ends_the_loop Sample.vault
      (Sample.round (Watch.mk "false" none none
        ([Moment.mk [Signal.databaseCredentialsRenew 30] 0] ++
          Moment.mk [Signal.databaseCredentialsDone none, Signal.ctxDone] 1 :: [])))
      [Moment.mk [Signal.databaseCredentialsRenew 30] 0] []
      (Moment.mk [Signal.databaseCredentialsDone none, Signal.ctxDone] 1)
      (by decide) rfl rfl
      (by
        intro earlier hmem signal hchosen
        rw [List.mem_singleton.mp hmem] at hchosen
        exact ⟨30, (Option.some.inj hchosen).symm⟩)
      (by decide)).2.2.2.2.1 Sample.vault [] [] rfl rfl).1⟩

/-! ## Lease renewal: done events -/

/-- A pass whose watch cycle returns: the rest of the body follows. -/
theorem iteration_returned (v : Vault) (round : Round) (renewed : renewResult) (err : Error)
    (hrenewed : (v.renewLeases v.auth_token v.database_auth_token round.watch).ended =
      Renewed.returned renewed err) :
    v.iteration round =
      { ended := (v.recover renewed err round).ended,
        vault := (v.recover renewed err round).vault,
        trace := (v.renewLeases v.auth_token v.database_auth_token round.watch).trace ++
          (v.recover renewed err round).trace } := by
  unfold Vault.iteration
  simp only [hrenewed]

/-- C19, as the code has it: without the authentication layer and with the watcher of
the database credentials created, a done event of that watcher that a select proceeds
with makes `renewLeases` return `expiringDatabaseCredentialsLease` together with the
error that the event carries. When the event carries a nil error the loop treats the
lease as expiring and performs the recovery in that pass: `GetDatabaseCredentials`
and, with the credentials it returned, `db_reconnect`; `login` is not called. When the
event carries an error the loop terminates the process with "renew error: " followed
by the text of the error, and makes no recovery call. -/
theorem done_event_recovers_only_with_nil_error (v : Vault) (round : Round)
    (before rest : List Moment) (moment : Moment) (err : Error)
    (hsecure : round.watch.secure ≠ "true")
    (hwatcher : round.watch.databaseCredentialsWatcher = none)
    (hmoments : round.watch.moments = before ++ moment :: rest)
    (hbefore : ∀ earlier ∈ before, ∀ signal,
      earlier.chosen Signal.withoutAuth = some signal →
      ∃ leaseDuration, signal = Signal.databaseCredentialsRenew leaseDuration)
    (hdone : moment.chosen Signal.withoutAuth = some (Signal.databaseCredentialsDone err)) :
    (v.renewLeases v.auth_token v.database_auth_token round.watch).ended =
      Renewed.returned expiringDatabaseCredentialsLease err ∧
    (err = none → ∀ databaseCredentials lease,
      round.credentials = .ok (databaseCredentials, lease) →
      recoveries (v.iteration round).trace =
        [VaultEvent.GetDatabaseCredentials v, VaultEvent.db_reconnect databaseCredentials] ∧
      (v.iteration round).vault.auth_token = v.auth_token) ∧
    (∀ text, err = some text →
      (v.iteration round).ended = some (Ending.exited ("renew error: " ++ text)) ∧
      (v.iteration round).trace.getLast? = some (VaultEvent.fatal ("renew error: " ++ text)) ∧
      recoveries (v.iteration round).trace = [] ∧
      (v.iteration round).vault = v) := by
  have hrenewed : (v.renewLeases v.auth_token v.database_auth_token round.watch).ended =
      Renewed.returned expiringDatabaseCredentialsLease err := by
    rw [renewLeases_without_auth v _ _ round.watch hsecure hwatcher, hmoments,
      monitor_without_auth_renewals round.watch.secure hsecure none before _ hbefore,
      monitor_without_auth_cons round.watch.secure hsecure, hdone]
  have hiteration := iteration_returned v round _ err hrenewed
  have hcycle := renewLeases_recoveries v v.auth_token v.database_auth_token round.watch
  refine ⟨hrenewed, ?_, ?_⟩
  · intro hnil databaseCredentials lease hfetched
    subst hnil
    rw [hiteration]
    simp only [recoveries_append, hcycle, List.nil_append]
    have hexit : expiringDatabaseCredentialsLease &&& exitRequested = 0 := by decide
    have hauth : expiringDatabaseCredentialsLease &&& expiringAuthToken = 0 := by decide
    have hdatabase : expiringDatabaseCredentialsLease &&& expiringDatabaseCredentialsLease ≠ 0 := by
      decide
    unfold Vault.recover
    simp only [hexit, ne_eq, not_true_eq_false, if_false, hauth, hdatabase,
      not_false_eq_true, if_true, hfetched]
    cases round.reconnect <;> simp [recoveries]
  · intro text htext
    subst htext
    rw [hiteration]
    simp only [recoveries_append, hcycle, List.nil_append]
    simp [Vault.recover, recoveries]

/-- C19, as it is stated, fails for a done event that carries an error: the watcher of
the database credentials is done with the error "lease expired", and the loop
terminates the process with "renew error: lease expired" without a call of
`GetDatabaseCredentials` or `db_reconnect`. -/
theorem done_event_with_error_is_fatal_without_recovery :
    (Moment.mk [Signal.databaseCredentialsDone (some "lease expired")] 0).chosen
      Signal.withoutAuth = some (Signal.databaseCredentialsDone (some "lease expired")) ∧
    (Sample.vault.PeriodicallyRenewLeases
      [Sample.round (Watch.mk "false" none none
        [Moment.mk [Signal.databaseCredentialsDone (some "lease expired")] 0])]).ended =
      some (Ending.exited "renew error: lease expired") ∧
    recoveries (Sample.vault.PeriodicallyRenewLeases
      [Sample.round (Watch.mk "false" none none
        [Moment.mk [Signal.databaseCredentialsDone (some "lease expired")] 0])]).trace = [] := by
  decide

theorem done_event_recovers_only_with_nil_error_witness :
    (Moment.mk [Signal.databaseCredentialsDone none] 0).chosen Signal.withoutAuth =
      some (Signal.databaseCredentialsDone none) ∧
    recoveries (Sample.vault.iteration (Sample.round (Watch.mk "false" none none
      ([] ++ Moment.mk [Signal.databaseCredentialsDone none] 0 :: [])))).trace =
      [VaultEvent.GetDatabaseCredentials Sample.vault,
       VaultEvent.db_reconnect (DatabaseCredentials.mk "v-user" "v-pass")] :=
  ⟨by decide,
    ((done_event_recovers_only_with_nil_error Sample.vault
      (Sample.round (Watch.mk "false" none none
        ([] ++ Moment.mk [Signal.databaseCredentialsDone none] 0 :: [])))
      [] [] (Moment.mk [Signal.databaseCredentialsDone none] 0) none
      (by decide) rfl rfl (by intro earlier hmem; exact absurd hmem (List.not_mem_nil _))
      (by decide)).2.1 rfl (DatabaseCredentials.mk "v-user" "v-pass") "lease-2" rfl).1⟩

/-! ## Lease renewal: fatal failures -/

theorem mem_recoveries (trace : List VaultEvent) (e : VaultEvent)
    (hkind : (∃ w, e = VaultEvent.login w) ∨ (∃ w, e = VaultEvent.GetDatabaseCredentials w) ∨
      (∃ c, e = VaultEvent.db_reconnect c))
    (hmem : e ∈ trace) : e ∈ recoveries trace := by
  induction trace with
  | nil => exact absurd hmem (List.not_mem_nil _)
  | cons head rest ih =>
    rcases List.mem_cons.mp hmem with rfl | hrest
    · rcases hkind with ⟨w, rfl⟩ | ⟨w, rfl⟩ | ⟨c, rfl⟩ <;> simp [recoveries]
    · have := ih hrest
      cases head <;> simp [recoveries, this]

/-- The watch cycle makes no recovery call. -/
theorem not_mem_renewLeases (v : Vault) (authToken lease : Secret) (watch : Watch)
    (e : VaultEvent)
    (hkind : (∃ w, e = VaultEvent.login w) ∨ (∃ w, e = VaultEvent.GetDatabaseCredentials w) ∨
      (∃ c, e = VaultEvent.db_reconnect c)) :
    e ∉ (v.renewLeases authToken lease watch).trace := by
  intro hmem
  have := mem_recoveries _ e hkind hmem
  rw [renewLeases_recoveries] at this
  exact absurd this (List.not_mem_nil _)

/-- The body of the loop after `renewLeases`: it terminates the process exactly when
the renewal error is not nil or a recovery call that it makes fails; the fatal call is
then its last step, and a failed login leaves the vault as it was. -/
theorem recover_fatal (v : Vault) (renewed : renewResult) (err : Error) (round : Round) :
    ((∃ message, (v.recover renewed err round).ended = some (Ending.exited message)) ↔
      (err ≠ none ∨
       (∃ w failed, VaultEvent.login w ∈ (v.recover renewed err round).trace ∧
          round.login = .error failed) ∨
       (∃ w failed, VaultEvent.GetDatabaseCredentials w ∈ (v.recover renewed err round).trace ∧
          round.credentials = .error failed) ∨
       (∃ c failed, VaultEvent.db_reconnect c ∈ (v.recover renewed err round).trace ∧
          round.reconnect = some failed))) ∧
    (∀ message, (v.recover renewed err round).ended = some (Ending.exited message) →
      (v.recover renewed err round).trace.getLast? = some (VaultEvent.fatal message)) ∧
    (∀ w failed, VaultEvent.login w ∈ (v.recover renewed err round).trace →
      round.login = .error failed → (v.recover renewed err round).vault = v) := by
  unfold Vault.recover
  cases err with
  | some text => simp
  | none =>
    by_cases hexit : renewed &&& exitRequested = 0 <;>
    by_cases hauth : renewed &&& expiringAuthToken = 0 <;>
    by_cases hdatabase : renewed &&& expiringDatabaseCredentialsLease = 0 <;>
    rcases hlogin : round.login with failed | auth_token <;>
    rcases hfetched : round.credentials with failed | ⟨databaseCredentials, lease⟩ <;>
    rcases hreconnect : round.reconnect with _ | failed <;>
    simp [hexit, hauth, hdatabase]

/-- A loop that ended did so in one of its passes, which it reached. -/
theorem loop_ended (v : Vault) (rounds : List Round) (ending : Ending)
    (h : (v.loop rounds).ended = some ending) :
    ∃ pre round post, rounds = pre ++ round :: post ∧ (v.loop pre).ended = none ∧
      ((v.loop pre).vault.iteration round).ended = some ending := by
  induction rounds generalizing v with
  | nil => simp [loop_nil] at h
  | cons round rest ih =>
    rw [loop_cons] at h
    cases hx : (v.iteration round).ended with
    | some ended =>
      rw [hx] at h
      simp only [Option.some.injEq] at h
      subst h
      exact ⟨[], round, rest, rfl, rfl, hx⟩
    | none =>
      rw [hx] at h
      simp only at h
      obtain ⟨pre, next, post, hsplit, hreach, hend⟩ := ih (v.iteration round).vault h
      refine ⟨round :: pre, next, post, by rw [hsplit]; rfl, ?_, ?_⟩
      · rw [loop_cons, hx]
        exact hreach
      · rw [loop_cons, hx]
        exact hend

/-- C20: a pass of the loop of `PeriodicallyRenewLeases` terminates the process with
`log.Fatalf` exactly when `renewLeases` returns a non-nil error, or the pass calls
`login` and it fails, or it calls `GetDatabaseCredentials` and it fails, or it calls
`db_reconnect` and it fails. The fatal call is then the last step of the pass: no
later recovery action follows, and a failed login does not replace `auth_token`. The
loop ends there: `PeriodicallyRenewLeases` makes no new watch cycle, whatever rounds
would follow, and does not log its last line. `PeriodicallyRenewLeases` terminates the
process only through such a pass. -/
theorem PeriodicallyRenewLeases_is_fatal_exactly_on_failure (v : Vault) (round : Round) :
    ((∃ message, (v.iteration round).ended = some (Ending.exited message)) ↔
      ((∃ renewed err,
          (v.renewLeases v.auth_token v.database_auth_token round.watch).ended =
            Renewed.returned renewed (some err)) ∨
       (∃ w failed, VaultEvent.login w ∈ (v.iteration round).trace ∧
          round.login = .error failed) ∨
       (∃ w failed, VaultEvent.GetDatabaseCredentials w ∈ (v.iteration round).trace ∧
          round.credentials = .error failed) ∨
       (∃ c failed, VaultEvent.db_reconnect c ∈ (v.iteration round).trace ∧
          round.reconnect = some failed))) ∧
    (∀ message, (v.iteration round).ended = some (Ending.exited message) →
      (v.iteration round).trace.getLast? = some (VaultEvent.fatal message)) ∧
    (∀ w failed, VaultEvent.login w ∈ (v.iteration round).trace →
      round.login = .error failed →
      (v.iteration round).vault.auth_token = v.auth_token) ∧
    (∀ (u : Vault) (pre post : List Round) (message : String),
      (u.loop pre).ended = none → (u.loop pre).vault = v →
      (v.iteration round).ended = some (Ending.exited message) →
      u.PeriodicallyRenewLeases (pre ++ round :: post) =
        { ended := some (Ending.exited message), vault := (v.iteration round).vault,
          trace := VaultEvent.log "renew / recreate secrets loop: begin" ::
            (u.loop pre).trace ++ (v.iteration round).trace }) ∧
    (∀ (u : Vault) (rounds : List Round) (message : String),
      (u.PeriodicallyRenewLeases rounds).ended = some (Ending.exited message) →
      ∃ pre failing post, rounds = pre ++ failing :: post ∧ (u.loop pre).ended = none ∧
        ((u.loop pre).vault.iteration failing).ended = some (Ending.exited message)) := by
  have hcycle : ∀ e,
      ((∃ w, e = VaultEvent.login w) ∨ (∃ w, e = VaultEvent.GetDatabaseCredentials w) ∨
        (∃ c, e = VaultEvent.db_reconnect c)) →
      e ∉ (v.renewLeases v.auth_token v.database_auth_token round.watch).trace :=
    fun e hkind => not_mem_renewLeases v _ _ _ e hkind
  have hlogin := fun w => hcycle (VaultEvent.login w) (Or.inl ⟨w, rfl⟩)
  have hfetch := fun w =>
    hcycle (VaultEvent.GetDatabaseCredentials w) (Or.inr (Or.inl ⟨w, rfl⟩))
  have hreconnect := fun c => hcycle (VaultEvent.db_reconnect c) (Or.inr (Or.inr ⟨c, rfl⟩))
  have hpass : ((∃ message, (v.iteration round).ended = some (Ending.exited message)) ↔
      ((∃ renewed err,
          (v.renewLeases v.auth_token v.database_auth_token round.watch).ended =
            Renewed.returned renewed (some err)) ∨
       (∃ w failed, VaultEvent.login w ∈ (v.iteration round).trace ∧
          round.login = .error failed) ∨
       (∃ w failed, VaultEvent.GetDatabaseCredentials w ∈ (v.iteration round).trace ∧
          round.credentials = .error failed) ∨
       (∃ c failed, VaultEvent.db_reconnect c ∈ (v.iteration round).trace ∧
          round.reconnect = some failed))) ∧
    (∀ message, (v.iteration round).ended = some (Ending.exited message) →
      (v.iteration round).trace.getLast? = some (VaultEvent.fatal message)) ∧
    (∀ w failed, VaultEvent.login w ∈ (v.iteration round).trace →
      round.login = .error failed →
      (v.iteration round).vault.auth_token = v.auth_token) := by
    cases hended : (v.renewLeases v.auth_token v.database_auth_token round.watch).ended with
    | watching =>
      have hiteration : v.iteration round = Step.mk (some Ending.watching) v
          (v.renewLeases v.auth_token v.database_auth_token round.watch).trace := by
        unfold Vault.iteration
        simp only [hended]
      rw [hiteration]
      simp [hlogin, hfetch, hreconnect]
    | panicked reason =>
      have hiteration : v.iteration round = Step.mk (some (Ending.panicked reason)) v
          (v.renewLeases v.auth_token v.database_auth_token round.watch).trace := by
        unfold Vault.iteration
        simp only [hended]
      rw [hiteration]
      simp [hlogin, hfetch, hreconnect]
    | returned renewed err =>
      obtain ⟨hiff, hlast, hkeep⟩ := recover_fatal v renewed err round
      rw [iteration_returned v round renewed err hended]
      simp only [List.mem_append, hlogin, hfetch, hreconnect, false_or]
      refine ⟨?_, ?_, ?_⟩
      · rw [hiff]
        constructor
        · rintro (herr | h)
          · left
            cases err with
            | none => exact absurd rfl herr
            | some text => exact ⟨renewed, text, rfl⟩
          · exact Or.inr h
        · rintro (⟨r, text, h⟩ | h)
          · left
            injection h with _ h
            rw [h]
            simp
          · exact Or.inr h
      · intro message hmessage
        have := hlast message hmessage
        rw [List.getLast?_append, this]
        rfl
      · intro w failed hmem hfailed
        rw [hkeep w failed hmem hfailed]
  refine ⟨hpass.1, hpass.2.1, hpass.2.2, ?_, ?_⟩
  · intro u pre post message hreach hvault hend
    have hloop := loop_reach_end u pre post round (Ending.exited message) hreach
      (by rw [hvault]; exact hend)
    rw [hvault] at hloop
    unfold Vault.PeriodicallyRenewLeases
    simp only [hloop, List.append_nil, List.cons_append]
  · intro u rounds message h
    exact loop_ended u rounds (Ending.exited message) h

theorem PeriodicallyRenewLeases_is_fatal_exactly_on_failure_witness :
    (Sample.vault.iteration (Round.mk
        (Watch.mk "false" none none [Moment.mk [Signal.databaseCredentialsDone none] 0])
        (.error "denied") (.error "sealed") none)).ended =
      some (Ending.exited "database credentials error: sealed") ∧
    (Sample.vault.iteration (Round.mk
        (Watch.mk "false" none none [Moment.mk [Signal.databaseCredentialsDone none] 0])
        (.error "denied") (.error "sealed") none)).trace.getLast? =
      some (VaultEvent.fatal "database credentials error: sealed") :=
  ⟨by decide,
    (PeriodicallyRenewLeases_is_fatal_exactly_on_failure Sample.vault (Round.mk
        (Watch.mk "false" none none [Moment.mk [Signal.databaseCredentialsDone none] 0])
        (.error "denied") (.error "sealed") none)).2.1
      "database credentials error: sealed" (by decide)⟩

/-! ## Query builders -/

theorem intercalate_go (separator : String) (names : List String) (name acc : String) :
    String.intercalate.go acc separator (name :: names) =
      acc ++ separator ++ joined separator (name :: names) := by
  induction names generalizing name acc with
  | nil => simp [String.intercalate.go, joined]
  | cons next rest ih =>
    rw [String.intercalate.go, ih]
    simp [joined, String.append_assoc]

/-- The loop of the builders joins the names by the separator. -/
theorem joined_eq_intercalate (separator : String) (names : List String) :
    joined separator names = separator.intercalate names := by
  cases names with
  | nil => rfl
  | cons name rest =>
    cases rest with
    | nil => rfl
    | cons next others =>
      rw [String.intercalate, intercalate_go]
      simp [joined]

theorem placeholders_append (a b : String) :
    placeholders (a ++ b) = placeholders a + placeholders b := by
  simp [placeholders, String.toList, String.data_append, List.count_append]

theorem placeholders_joined (names : List String) :
    placeholders (joined ", " names) = (names.map placeholders).sum := by
  induction names with
  | nil => rfl
  | cons name rest ih =>
    cases rest with
    | nil => simp [joined]
    | cons next others =>
      have hsep : placeholders ", " = 0 := by decide
      have hjoined : joined ", " (name :: next :: others) =
          name ++ ", " ++ joined ", " (next :: others) := rfl
      rw [hjoined, placeholders_append, placeholders_append, ih, hsep]
      simp

/-- C22: `BuildUpdateQuery` returns an error if and only if Fields, Tables, Arguments
or Where is empty, and a query otherwise; a query that it returns is "UPDATE ", the
tables joined by ", ", " SET ", each field followed by " = ?" joined by ", ",
" WHERE " and the Where of the request, which is not empty, so no UPDATE is made
without a WHERE clause; the SET list holds one placeholder per field, in the order of
the fields, besides the question marks of the field names themselves. -/
theorem BuildUpdateQuery_requires_where_and_sets_each_field
    (request : DatabaseQueryRequest) :
    ((∃ err, request.BuildUpdateQuery = .error err) ↔
      (request.Fields = [] ∨ request.Tables = [] ∨ request.Arguments = [] ∨
        request.Where = "")) ∧
    (¬ (request.Fields = [] ∨ request.Tables = [] ∨ request.Arguments = [] ∨
        request.Where = "") →
      ∃ query, request.BuildUpdateQuery = .ok query) ∧
    (∀ query, request.BuildUpdateQuery = .ok query →
      request.Where ≠ "" ∧
      query = "UPDATE " ++ ", ".intercalate request.Tables ++ " SET " ++
        ", ".intercalate (request.Fields.map fun field => field ++ " = ?") ++
        " WHERE " ++ request.Where ∧
      contains query (" WHERE " ++ request.Where) ∧
      placeholders (", ".intercalate (request.Fields.map fun field => field ++ " = ?")) =
        request.Fields.length + (request.Fields.map placeholders).sum) := by
  have hcount : placeholders
      (", ".intercalate (request.Fields.map fun field => field ++ " = ?")) =
        request.Fields.length + (request.Fields.map placeholders).sum := by
    rw [← joined_eq_intercalate, placeholders_joined]
    induction request.Fields with
    | nil => rfl
    | cons field rest ih =>
      have hmark : placeholders " = ?" = 1 := by decide
      simp only [List.map_cons, List.sum_cons, List.length_cons, placeholders_append, hmark, ih]
      omega
  by_cases hfields : request.Fields = []
  · simp [DatabaseQueryRequest.BuildUpdateQuery, hfields]
  by_cases htables : request.Tables = []
  · simp [DatabaseQueryRequest.BuildUpdateQuery, hfields, htables]
  by_cases harguments : request.Arguments = []
  · simp [DatabaseQueryRequest.BuildUpdateQuery, hfields, htables, harguments]
  by_cases hwhere : request.Where = ""
  · simp [DatabaseQueryRequest.BuildUpdateQuery, hfields, htables, harguments, hwhere]
  have hbuilt : request.BuildUpdateQuery =
      .ok ("UPDATE " ++ ", ".intercalate request.Tables ++ " SET " ++
        ", ".intercalate (request.Fields.map fun field => field ++ " = ?") ++
        " WHERE " ++ request.Where) := by
    simp [DatabaseQueryRequest.BuildUpdateQuery, hfields, htables, harguments, hwhere,
      joined_eq_intercalate]
  rw [hbuilt]
  refine ⟨⟨fun h => ?_, fun h => ?_⟩, fun _ => ⟨_, rfl⟩, ?_⟩
  · obtain ⟨err, herr⟩ := h
    exact Except.noConfusion herr
  · rcases h with h | h | h | h
    · exact absurd h hfields
    · exact absurd h htables
    · exact absurd h harguments
    · exact absurd h hwhere
  · intro query hquery
    have hsame := Except.ok.inj hquery
    subst hsame
    exact ⟨hwhere, rfl,
      ⟨"UPDATE " ++ ", ".intercalate request.Tables ++ " SET " ++
          ", ".intercalate (request.Fields.map fun field => field ++ " = ?"), "",
        by simp [String.append_assoc]⟩, hcount⟩

theorem BuildUpdateQuery_requires_where_and_sets_each_field_witness :
    (DatabaseQueryRequest.mk ["name", "age"] ["t"] "id = ?"
      [Value.text "x", Value.number 7, Value.number 1]).BuildUpdateQuery =
      .ok "UPDATE t SET name = ?, age = ? WHERE id = ?" ∧
    placeholders (", ".intercalate (["name", "age"].map fun field => field ++ " = ?")) =
      2 + (["name", "age"].map placeholders).sum :=
  ⟨rfl,
    ((BuildUpdateQuery_requires_where_and_sets_each_field
      (DatabaseQueryRequest.mk ["name", "age"] ["t"] "id = ?"
        [Value.text "x", Value.number 7, Value.number 1])).2.2
      "UPDATE t SET name = ?, age = ? WHERE id = ?" rfl).2.2.2⟩

theorem placeholders_replicate (n : Nat) :
    placeholders (joined ", " (List.replicate n "?")) = n := by
  rw [placeholders_joined]
  induction n with
  | zero => rfl
  | succ n ih =>
    have hmark : placeholders "?" = 1 := by decide
    simp only [List.replicate_succ, List.map_cons, List.sum_cons, hmark, ih]
    omega

theorem map_const_eq_replicate (names : List String) :
    (names.map fun _ => "?") = List.replicate names.length "?" := by
  induction names with
  | nil => rfl
  | cons name rest ih => simp [List.replicate_succ, ih]

/-- C23: `BuildInsertRowQuery` returns an error if and only if Fields is empty, Tables
is empty or the number of arguments differs from the number of fields, and a query
otherwise; a query that it returns is "INSERT INTO ", the tables joined by ", ", " (",
the fields joined by ", ", ") VALUES ( ", as many "?" as there are fields joined by
", ", and ") "; the number of placeholders of the VALUES list is the number of fields
and the number of arguments. -/
theorem BuildInsertRowQuery_one_placeholder_per_field_and_argument
    (request : DatabaseQueryRequest) :
    ((∃ err, request.BuildInsertRowQuery = .error err) ↔
      (request.Fields = [] ∨ request.Tables = [] ∨
        request.Arguments.length ≠ request.Fields.length)) ∧
    (¬ (request.Fields = [] ∨ request.Tables = [] ∨
        request.Arguments.length ≠ request.Fields.length) →
      ∃ query, request.BuildInsertRowQuery = .ok query) ∧
    (∀ query, request.BuildInsertRowQuery = .ok query →
      query = "INSERT INTO " ++ ", ".intercalate request.Tables ++ " (" ++
        ", ".intercalate request.Fields ++ ") VALUES ( " ++
        ", ".intercalate (List.replicate request.Fields.length "?") ++ ") " ∧
      placeholders (", ".intercalate (List.replicate request.Fields.length "?")) =
        request.Fields.length ∧
      placeholders (", ".intercalate (List.replicate request.Fields.length "?")) =
        request.Arguments.length) := by
  have hcount : placeholders
      (", ".intercalate (List.replicate request.Fields.length "?")) =
        request.Fields.length := by
    rw [← joined_eq_intercalate, placeholders_replicate]
  by_cases hfields : request.Fields = []
  · simp [DatabaseQueryRequest.BuildInsertRowQuery, hfields]
  by_cases htables : request.Tables = []
  · simp [DatabaseQueryRequest.BuildInsertRowQuery, hfields, htables]
  by_cases harguments : request.Arguments.length ≠ request.Fields.length
  · simp [DatabaseQueryRequest.BuildInsertRowQuery, hfields, htables, harguments]
  have hsame : request.Arguments.length = request.Fields.length := not_not.mp harguments
  have hbuilt : request.BuildInsertRowQuery =
      .ok ("INSERT INTO " ++ ", ".intercalate request.Tables ++ " (" ++
        ", ".intercalate request.Fields ++ ") VALUES ( " ++
        ", ".intercalate (List.replicate request.Fields.length "?") ++ ") ") := by
    simp [DatabaseQueryRequest.BuildInsertRowQuery, hfields, htables, hsame,
      joined_eq_intercalate, map_const_eq_replicate]
  rw [hbuilt]
  refine ⟨⟨fun h => ?_, fun h => ?_⟩, fun _ => ⟨_, rfl⟩, ?_⟩
  · obtain ⟨err, herr⟩ := h
    exact Except.noConfusion herr
  · rcases h with h | h | h
    · exact absurd h hfields
    · exact absurd h htables
    · exact absurd h harguments
  · intro query hquery
    have hquery := Except.ok.inj hquery
    subst hquery
    exact ⟨rfl, hcount, hcount.trans hsame.symm⟩

theorem BuildInsertRowQuery_one_placeholder_per_field_and_argument_witness :
    (DatabaseQueryRequest.mk ["name", "age"] ["t"] ""
      [Value.text "x", Value.number 7]).BuildInsertRowQuery =
      .ok "INSERT INTO t (name, age) VALUES ( ?, ?) " ∧
    placeholders (", ".intercalate
      (List.replicate (DatabaseQueryRequest.mk ["name", "age"] ["t"] ""
        [Value.text "x", Value.number 7]).Fields.length "?")) =
      (DatabaseQueryRequest.mk ["name", "age"] ["t"] ""
        [Value.text "x", Value.number 7]).Arguments.length :=
  ⟨rfl,
    ((BuildInsertRowQuery_one_placeholder_per_field_and_argument
      (DatabaseQueryRequest.mk ["name", "age"] ["t"] ""
        [Value.text "x", Value.number 7])).2.2
      "INSERT INTO t (name, age) VALUES ( ?, ?) " rfl).2.2⟩

/-- C24: `BuildSelectQuery` returns an error if and only if Tables is empty or Where is
not empty while Arguments is empty, and a query otherwise; a query that it returns is
"SELECT ", then " * FROM " when Fields is empty and else the fields joined by ", "
followed by " FROM ", then the tables joined by ", ", " WHERE ", and " 1 " when Where
is empty and else the Where of the request. `BuildSelectRowQuery` fails exactly when
`BuildSelectQuery` fails and otherwise returns that query followed by " LIMIT 1 ". For
the tables ["t"], the where "id=?" and the arguments [1] both succeed. -/
theorem BuildSelectQuery_and_BuildSelectRowQuery_agree (request : DatabaseQueryRequest) :
    ((∃ err, request.BuildSelectQuery = .error err) ↔
      (request.Tables = [] ∨ (request.Where ≠ "" ∧ request.Arguments = []))) ∧
    (¬ (request.Tables = [] ∨ (request.Where ≠ "" ∧ request.Arguments = [])) →
      ∃ query, request.BuildSelectQuery = .ok query) ∧
    (∀ query, request.BuildSelectQuery = .ok query →
      query = "SELECT " ++
        (if request.Fields = [] then " * FROM "
         else ", ".intercalate request.Fields ++ " FROM ") ++
        ", ".intercalate request.Tables ++ " WHERE " ++
        (if request.Where = "" then " 1 " else request.Where)) ∧
    ((∃ err, request.BuildSelectRowQuery = .error err) ↔
      (∃ err, request.BuildSelectQuery = .error err)) ∧
    (∀ query, request.BuildSelectQuery = .ok query →
      request.BuildSelectRowQuery = .ok (query ++ " LIMIT 1 ")) ∧
    (DatabaseQueryRequest.mk [] ["t"] "id=?" [Value.number 1]).BuildSelectQuery =
      .ok "SELECT  * FROM t WHERE id=?" ∧
    (DatabaseQueryRequest.mk [] ["t"] "id=?" [Value.number 1]).BuildSelectRowQuery =
      .ok "SELECT  * FROM t WHERE id=? LIMIT 1 " := by
  have hrow : ((∃ err, request.BuildSelectRowQuery = .error err) ↔
      (∃ err, request.BuildSelectQuery = .error err)) ∧
      (∀ query, request.BuildSelectQuery = .ok query →
        request.BuildSelectRowQuery = .ok (query ++ " LIMIT 1 ")) := by
    unfold DatabaseQueryRequest.BuildSelectRowQuery
    cases request.BuildSelectQuery with
    | error err => simp
    | ok query => simp
  refine ⟨?_, ?_, ?_, hrow.1, hrow.2, rfl, rfl⟩
  · unfold DatabaseQueryRequest.BuildSelectQuery
    by_cases htables : request.Tables = []
    · simp [htables]
    by_cases hwhere : request.Where = ""
    · simp [htables, hwhere]
    by_cases harguments : request.Arguments = []
    · simp [htables, hwhere, harguments]
    · simp [htables, hwhere, harguments]
  · unfold DatabaseQueryRequest.BuildSelectQuery
    by_cases htables : request.Tables = []
    · simp [htables]
    by_cases hwhere : request.Where = ""
    · simp [htables, hwhere]
    by_cases harguments : request.Arguments = []
    · simp [htables, hwhere, harguments]
    · simp [htables, hwhere, harguments]
  · intro query
    unfold DatabaseQueryRequest.BuildSelectQuery
    by_cases htables : request.Tables = []
    · simp [htables]
    by_cases hwhere : request.Where = ""
    · simp only [List.length_eq_zero, htables, hwhere, joined_eq_intercalate]
      simp only [if_false, if_true, ne_eq, not_true_eq_false, false_and, Except.ok.injEq]
      intro h
      exact h.symm
    by_cases harguments : request.Arguments = []
    · simp [htables, hwhere, harguments]
    · simp only [List.length_eq_zero, htables, hwhere, harguments, joined_eq_intercalate]
      simp only [if_false, ne_eq, not_false_eq_true, and_false, Except.ok.injEq]
      intro h
      exact h.symm

theorem BuildSelectQuery_and_BuildSelectRowQuery_agree_witness :
    (DatabaseQueryRequest.mk ["id", "name"] ["t", "u"] "" []).BuildSelectQuery =
      .ok "SELECT id, name FROM t, u WHERE  1 " ∧
    (DatabaseQueryRequest.mk ["id", "name"] ["t", "u"] "" []).BuildSelectRowQuery =
      .ok ("SELECT id, name FROM t, u WHERE  1 " ++ " LIMIT 1 ") :=
  ⟨rfl,
    (BuildSelectQuery_and_BuildSelectRowQuery_agree
      (DatabaseQueryRequest.mk ["id", "name"] ["t", "u"] "" [])).2.2.2.2.1
      "SELECT id, name FROM t, u WHERE  1 " rfl⟩

/-- What `BuildDeleteQuery` returns for a request that has fields and tables. -/
theorem BuildDeleteQuery_accepted (request : DatabaseQueryRequest)
    (hfields : request.Fields ≠ []) (htables : request.Tables ≠ []) :
    request.BuildDeleteQuery =
      .ok (if request.Where = "" then "DELETE FROM " ++ ", ".intercalate request.Tables
        else "DELETE FROM " ++ ", ".intercalate request.Tables ++ " WHERE " ++
          " AND ".intercalate request.Fields) := by
  by_cases hwhere : request.Where = ""
  · simp [DatabaseQueryRequest.BuildDeleteQuery, hfields, htables, hwhere,
      joined_eq_intercalate]
  · simp [DatabaseQueryRequest.BuildDeleteQuery, hfields, htables, hwhere,
      joined_eq_intercalate]

/-- The requests for which `BuildDeleteQuery` returns an error. -/
theorem BuildDeleteQuery_error (request : DatabaseQueryRequest) :
    (∃ err, request.BuildDeleteQuery = .error err) ↔
      (request.Fields = [] ∨ request.Tables = []) := by
  by_cases hfields : request.Fields = []
  · simp [DatabaseQueryRequest.BuildDeleteQuery, hfields]
  by_cases htables : request.Tables = []
  · simp [DatabaseQueryRequest.BuildDeleteQuery, hfields, htables]
  rw [BuildDeleteQuery_accepted request hfields htables]
  simp [hfields, htables]

/-- C25: for a request that `BuildDeleteQuery` accepts with a non-empty Where, the
query is "DELETE FROM ", the tables joined by ", ", " WHERE " and the fields joined by
" AND ": the text of Where is not written. For the fields ["id"], the tables ["t"]
and the where "id = ?" the query is "DELETE FROM t WHERE id", which is not
"DELETE FROM t WHERE id = ?", whereas the select, exist and update builders end their
query in " WHERE id = ?". -/
theorem BuildDeleteQuery_writes_the_fields_in_place_of_Where :
    (∀ request : DatabaseQueryRequest, request.Fields ≠ [] → request.Tables ≠ [] →
      request.Where ≠ "" →
      request.BuildDeleteQuery =
        .ok ("DELETE FROM " ++ ", ".intercalate request.Tables ++ " WHERE " ++
          " AND ".intercalate request.Fields)) ∧
    (DatabaseQueryRequest.mk ["id"] ["t"] "id = ?" [Value.number 1]).BuildDeleteQuery =
      .ok "DELETE FROM t WHERE id" ∧
    (DatabaseQueryRequest.mk ["id"] ["t"] "id = ?" [Value.number 1]).BuildDeleteQuery ≠
      .ok ("DELETE FROM " ++ ", ".intercalate ["t"] ++ " WHERE " ++ "id = ?") ∧
    (DatabaseQueryRequest.mk ["id"] ["t"] "id = ?" [Value.number 1]).BuildSelectQuery =
      .ok ("SELECT id FROM t" ++ " WHERE " ++ "id = ?") ∧
    (DatabaseQueryRequest.mk ["id"] ["t"] "id = ?" [Value.number 1]).BuildExistQuery =
      .ok ("SELECT 1 FROM t" ++ " WHERE " ++ "id = ?") ∧
    (DatabaseQueryRequest.mk ["id"] ["t"] "id = ?" [Value.number 1]).BuildUpdateQuery =
      .ok ("UPDATE t SET id = ?" ++ " WHERE " ++ "id = ?") := by
  refine ⟨?_, rfl, ?_, rfl, rfl, rfl⟩
  · intro request hfields htables hwhere
    rw [BuildDeleteQuery_accepted request hfields htables]
    simp [hwhere]
  · intro h
    have hquery : "DELETE FROM t WHERE id" = "DELETE FROM t WHERE id = ?" :=
      Except.ok.inj h
    exact absurd hquery (by decide)

theorem BuildDeleteQuery_writes_the_fields_in_place_of_Where_witness :
    (DatabaseQueryRequest.mk ["id", "owner"] ["t"] "id = ? AND owner = ?"
      [Value.number 1, Value.text "a"]).BuildDeleteQuery =
      .ok "DELETE FROM t WHERE id AND owner" :=
  BuildDeleteQuery_writes_the_fields_in_place_of_Where.1
    (DatabaseQueryRequest.mk ["id", "owner"] ["t"] "id = ? AND owner = ?"
      [Value.number 1, Value.text "a"]) (by decide) (by decide) (by decide)

/-- C30: `BuildDeleteQuery` returns an error if and only if Fields or Tables is empty,
and a query otherwise; for a request that it accepts with an empty Where the query is
"DELETE FROM " and the tables joined by ", ", with nothing behind them: no WHERE
clause, a delete of every row. `BuildUpdateQuery` returns an error for the same
request, as for every request with an empty Where. -/
theorem BuildDeleteQuery_without_Where_deletes_every_row (request : DatabaseQueryRequest) :
    ((∃ err, request.BuildDeleteQuery = .error err) ↔
      (request.Fields = [] ∨ request.Tables = [])) ∧
    (¬ (request.Fields = [] ∨ request.Tables = []) →
      ∃ query, request.BuildDeleteQuery = .ok query) ∧
    (request.Where = "" →
      (∃ err, request.BuildUpdateQuery = .error err) ∧
      (request.Fields ≠ [] → request.Tables ≠ [] →
        request.BuildDeleteQuery =
          .ok ("DELETE FROM " ++ ", ".intercalate request.Tables))) := by
  refine ⟨BuildDeleteQuery_error request, ?_, ?_⟩
  · intro h
    rw [not_or] at h
    exact ⟨_, BuildDeleteQuery_accepted request h.1 h.2⟩
  · intro hwhere
    refine ⟨?_, ?_⟩
    · unfold DatabaseQueryRequest.BuildUpdateQuery
      split_ifs <;> exact ⟨_, rfl⟩
    · intro hfields htables
      rw [BuildDeleteQuery_accepted request hfields htables]
      simp [hwhere]

theorem BuildDeleteQuery_without_Where_deletes_every_row_witness :
    (DatabaseQueryRequest.mk ["id"] ["t", "u"] "" []).BuildDeleteQuery =
      .ok "DELETE FROM t, u" ∧
    (∃ err, (DatabaseQueryRequest.mk ["id"] ["t", "u"] "" []).BuildUpdateQuery =
      .error err) :=
  ⟨((BuildDeleteQuery_without_Where_deletes_every_row
      (DatabaseQueryRequest.mk ["id"] ["t", "u"] "" [])).2.2 rfl).2
      (by decide) (by decide),
    ((BuildDeleteQuery_without_Where_deletes_every_row
      (DatabaseQueryRequest.mk ["id"] ["t", "u"] "" [])).2.2 rfl).1⟩

/-! ## Dispatcher: controllers that do not reply -/

section Unrepliable

variable {σ π : Type}

/-- The socket types for which `is_repliable` holds. -/
theorem is_repliable_iff (c : Controller) :
    c.is_repliable = true ↔ c.socket_type = SocketType.REP := by
  unfold Controller.is_repliable
  exact beq_iff_eq

/-- One pass of the loop of a controller that does not reply: nothing is sent, and
the one warning is that of a handler reply that is not OK. -/
theorem pass_not_repliable (c : Controller) (hrep : c.is_repliable = false)
    (ParseRequest : List String → Except String Request)
    (handlers : Handlers σ π) (parameters : List π) (x : Exchange) (world : σ) :
    (c.pass ParseRequest handlers parameters x world).trace.filter Event.isSend = [] ∧
    (c.pass ParseRequest handlers parameters x world).trace.filter Event.isWarn =
      match x.recv with
      | .error _ => []
      | .ok (msg_raw, metadata) =>
        match ParseRequest msg_raw with
        | .error _ => []
        | .ok parsed =>
          match handlers parsed.Command with
          | none => []
          | some handler =>
            if (handler (parsed.SetPublicKey (Metadata.get metadata "pub_key")) c.logger
                parameters world).1.IsOK then []
            else
              [Event.warn parsed.Command parsed.Parameters
                (handler (parsed.SetPublicKey (Metadata.get metadata "pub_key")) c.logger
                  parameters world).1.Message] := by
  cases hrecv : x.recv with
  | error e =>
    simp [Controller.pass, hrecv, Controller.reply_error, Controller.reply, hrep, Event.isSend,
      Event.isWarn]
  | ok received =>
    obtain ⟨msg_raw, metadata⟩ := received
    cases hparse : ParseRequest msg_raw with
    | error e =>
      simp [Controller.pass, hrecv, hparse, Controller.reply_error, Controller.reply, hrep,
        Event.isSend, Event.isWarn]
    | ok parsed =>
      have hcommand : (parsed.SetPublicKey (Metadata.get metadata "pub_key")).Command =
          parsed.Command := rfl
      have hparameters : (parsed.SetPublicKey (Metadata.get metadata "pub_key")).Parameters =
          parsed.Parameters := rfl
      cases hfound : handlers parsed.Command with
      | none =>
        simp [Controller.pass, hrecv, hparse, Controller.reply_error, Controller.reply, hrep,
          hcommand, hfound, Event.isSend, Event.isWarn]
      | some handler =>
        cases hok : (handler (parsed.SetPublicKey (Metadata.get metadata "pub_key")) c.logger
            parameters world).1.IsOK <;>
          simp [Controller.pass, hrecv, hparse, Controller.reply, hrep, hcommand, hparameters,
            hfound, hok, Event.isSend, Event.isWarn]

/-- The pass of a well-formed request of a registered command, for a controller that
does not reply: the handler is invoked, nothing is sent, the warning is logged when
the reply is not OK, and the loop goes on. -/
theorem pass_handled_not_repliable (c : Controller) (hrep : c.is_repliable = false)
    (ParseRequest : List String → Except String Request)
    (handlers : Handlers σ π) (parameters : List π) (x : Exchange) (world : σ)
    (msg_raw : List String) (metadata : Metadata) (parsed : Request)
    (handler : HandleFunc σ π)
    (hrecv : x.recv = .ok (msg_raw, metadata)) (hparse : ParseRequest msg_raw = .ok parsed)
    (hfound : handlers parsed.Command = some handler) :
    c.pass ParseRequest handlers parameters x world =
      { trace := Event.recv x.recv ::
          Event.invoke parsed.Command (parsed.SetPublicKey (Metadata.get metadata "pub_key"))
            c.logger parameters ::
          (if (handler (parsed.SetPublicKey (Metadata.get metadata "pub_key"))
              c.logger parameters world).1.IsOK then []
           else [Event.warn parsed.Command parsed.Parameters
             (handler (parsed.SetPublicKey (Metadata.get metadata "pub_key"))
               c.logger parameters world).1.Message]),
        world := (handler (parsed.SetPublicKey (Metadata.get metadata "pub_key"))
            c.logger parameters world).2,
        result := none } := by
  have hcommand : (parsed.SetPublicKey (Metadata.get metadata "pub_key")).Command =
      parsed.Command := rfl
  have hparameters : (parsed.SetPublicKey (Metadata.get metadata "pub_key")).Parameters =
      parsed.Parameters := rfl
  cases hok : (handler (parsed.SetPublicKey (Metadata.get metadata "pub_key")) c.logger
      parameters world).1.IsOK <;>
    simp [Controller.pass, hrecv, hparse, Controller.reply, hrep, hcommand, hparameters,
      hfound, hok]

/-- A controller that does not reply sends nothing in its loop. -/
theorem serve_not_repliable_sends_nothing (c : Controller) (hrep : c.is_repliable = false)
    (ParseRequest : List String → Except String Request)
    (handlers : Handlers σ π) (parameters : List π) (xs : List Exchange) (world : σ) :
    (c.serve ParseRequest handlers parameters xs world).trace.filter Event.isSend = [] := by
  induction xs generalizing world with
  | nil => simp [serve_nil]
  | cons x rest ih =>
    rw [serve_cons]
    have hpass := (pass_not_repliable c hrep ParseRequest handlers parameters x world).1
    cases hx : (c.pass ParseRequest handlers parameters x world).result with
    | some err => simpa using hpass
    | none =>
      simp only [List.filter_append, hpass, List.nil_append]
      exact ih _

/-- One pass of the loop of a controller that replies logs no warning. -/
theorem pass_repliable_warns_nothing (c : Controller) (hrep : c.is_repliable = true)
    (ParseRequest : List String → Except String Request)
    (handlers : Handlers σ π) (parameters : List π) (x : Exchange) (world : σ) :
    (c.pass ParseRequest handlers parameters x world).trace.filter Event.isWarn = [] := by
  cases hsend : x.send <;> cases hrecv : x.recv with
  | error e =>
    simp [Controller.pass, hrecv, hsend, Controller.reply_error, Controller.reply, hrep,
      Event.isWarn]
  | ok received =>
    obtain ⟨msg_raw, metadata⟩ := received
    cases hparse : ParseRequest msg_raw with
    | error e =>
      simp [Controller.pass, hrecv, hsend, hparse, Controller.reply_error, Controller.reply,
        hrep, Event.isWarn]
    | ok parsed =>
      cases hfound : handlers (parsed.SetPublicKey (Metadata.get metadata "pub_key")).Command with
      | none =>
        simp [Controller.pass, hrecv, hsend, hparse, Controller.reply_error, Controller.reply,
          hrep, hfound, Event.isWarn]
      | some handler =>
        simp [Controller.pass, hrecv, hsend, hparse, Controller.reply, hrep, hfound,
          Event.isWarn]

/-- A controller that replies logs no warning in its loop. -/
theorem serve_repliable_warns_nothing (c : Controller) (hrep : c.is_repliable = true)
    (ParseRequest : List String → Except String Request)
    (handlers : Handlers σ π) (parameters : List π) (xs : List Exchange) (world : σ) :
    (c.serve ParseRequest handlers parameters xs world).trace.filter Event.isWarn = [] := by
  induction xs generalizing world with
  | nil => simp [serve_nil]
  | cons x rest ih =>
    rw [serve_cons]
    have hpass := pass_repliable_warns_nothing c hrep ParseRequest handlers parameters x world
    cases hx : (c.pass ParseRequest handlers parameters x world).result with
    | some err => simpa using hpass
    | none =>
      simp only [List.filter_append, hpass, List.nil_append]
      exact ih _

/-- What `Run` adds to the trace of its loop is the bind. -/
theorem Run_trace_filter (c : Controller)
    (ParseRequest : List String → Except String Request)
    (handlers : Handlers σ π) (parameters : List π) (socket : Transport) (world : σ)
    (kind : Event π → Bool) (hbind : kind (Event.bind c.service.Url) = false)
    (hserve : (c.serve ParseRequest handlers parameters socket.exchanges world).trace.filter
      kind = []) :
    (c.Run ParseRequest handlers parameters socket world).trace.filter kind = [] := by
  unfold Controller.Run
  cases socket.bind with
  | some err => simp [hbind]
  | none => simp [hbind, hserve]

end Unrepliable

section Unrepliable

variable {σ π : Type}

/-- C26: for a controller whose socket type is not REP, `reply` and `reply_error` send
nothing and return nil for every message and every state of the socket, `Run` sends
nothing at all, and the warnings of a pass of its loop are exactly the one of a handler
reply that is not OK (none for a message that does not parse or whose command is not
registered); at whatever place of the arrival order the loop reaches a well-formed
request of a registered command, the handler is invoked, the warning with the command,
the parameters of the request and the message of the reply is logged if and only if the
reply is not OK, and the loop goes on. For a REP controller, `reply` sends exactly one
message, the one it is given, and returns a non-nil error if and only if the send
fails; `Run` logs no warning. -/
theorem reply_is_skipped_without_REP_and_failed_replies_are_logged (c : Controller)
    (ParseRequest : List String → Except String Request)
    (handlers : Handlers σ π) (parameters : List π) :
    (c.socket_type ≠ SocketType.REP →
      (∀ (message : Reply) (send : Error),
        (c.reply message send : List (Event π) × Error) = ([], none)) ∧
      (∀ (err : String) (send : Error),
        (c.reply_error err send : List (Event π) × Error) = ([], none)) ∧
      (∀ socket world,
        (c.Run ParseRequest handlers parameters socket world).trace.filter Event.isSend =
          []) ∧
      (∀ x world,
        (c.pass ParseRequest handlers parameters x world).trace.filter Event.isWarn =
          match x.recv with
          | .error _ => []
          | .ok (msg_raw, metadata) =>
            match ParseRequest msg_raw with
            | .error _ => []
            | .ok parsed =>
              match handlers parsed.Command with
              | none => []
              | some handler =>
                if (handler (parsed.SetPublicKey (Metadata.get metadata "pub_key")) c.logger
                    parameters world).1.IsOK then []
                else
                  [Event.warn parsed.Command parsed.Parameters
                    (handler (parsed.SetPublicKey (Metadata.get metadata "pub_key"))
                      c.logger parameters world).1.Message]) ∧
      (∀ pre x post world msg_raw metadata parsed handler,
        (c.serve ParseRequest handlers parameters pre world).result = none →
        x.recv = .ok (msg_raw, metadata) →
        ParseRequest msg_raw = .ok parsed →
        handlers parsed.Command = some handler →
        let before := c.serve ParseRequest handlers parameters pre world
        let once := c.pass ParseRequest handlers parameters x before.world
        let request := parsed.SetPublicKey (Metadata.get metadata "pub_key")
        let returned := handler request c.logger parameters before.world
        let later := c.serve ParseRequest handlers parameters post returned.2
        let ran := c.Run ParseRequest handlers parameters
          { bind := none, exchanges := pre ++ x :: post } world
        once.trace = Event.recv x.recv ::
          Event.invoke parsed.Command request c.logger parameters ::
          (if returned.1.IsOK then []
           else [Event.warn parsed.Command parsed.Parameters returned.1.Message]) ∧
        (Event.warn parsed.Command parsed.Parameters returned.1.Message ∈ once.trace ↔
          returned.1.IsOK = false) ∧
        once.result = none ∧
        ran.trace = Event.bind c.service.Url :: before.trace ++ once.trace ++ later.trace ∧
        ran.result = later.result)) ∧
    (c.socket_type = SocketType.REP →
      (∀ (message : Reply) (send : Error),
        (c.reply message send : List (Event π) × Error).1 = [Event.send message] ∧
        ((c.reply message send : List (Event π) × Error).2 ≠ none ↔ send ≠ none)) ∧
      (∀ socket world,
        (c.Run ParseRequest handlers parameters socket world).trace.filter Event.isWarn =
          [])) := by
  refine ⟨fun hsocket => ?_, fun hsocket => ?_⟩
  · have hrep : c.is_repliable = false := by
      cases h : c.is_repliable with
      | false => rfl
      | true => exact absurd ((is_repliable_iff c).mp h) hsocket
    refine ⟨fun message send => reply_not_repliable c hrep message send,
      fun err send => reply_not_repliable c hrep (Fail err) send,
      fun socket world => Run_trace_filter c ParseRequest handlers parameters socket world
        Event.isSend rfl
        (serve_not_repliable_sends_nothing c hrep ParseRequest handlers parameters _ world),
      fun x world => (pass_not_repliable c hrep ParseRequest handlers parameters x world).2,
      ?_⟩
    intro pre x post world msg_raw metadata parsed handler hreach hrecv hparse hfound
    intro before once request returned later ran
    have hpass : once = _ :=
      pass_handled_not_repliable c hrep ParseRequest handlers parameters x before.world
        msg_raw metadata parsed handler hrecv hparse hfound
    have hresult : (c.pass ParseRequest handlers parameters x
        (c.serve ParseRequest handlers parameters pre world).world).result = none := by
      show once.result = none
      rw [hpass]
    have hworld : (c.pass ParseRequest handlers parameters x
        (c.serve ParseRequest handlers parameters pre world).world).world = returned.2 := by
      show once.world = returned.2
      rw [hpass]
    have hran : ran = _ :=
      Run_reach_continue c ParseRequest handlers parameters pre post x world hreach hresult
    rw [hworld] at hran
    refine ⟨by rw [hpass], ?_, hresult, by rw [hran], by rw [hran]⟩
    rw [hpass]
    cases hok : returned.1.IsOK with
    | false =>
      have hok1 : (handler (parsed.SetPublicKey (Metadata.get metadata "pub_key")) c.logger
          parameters before.world).1.IsOK = false := hok
      simp [hok1]
    | true =>
      have hok1 : (handler (parsed.SetPublicKey (Metadata.get metadata "pub_key")) c.logger
          parameters before.world).1.IsOK = true := hok
      simp [hok1]
  · have hrep : c.is_repliable = true := (is_repliable_iff c).mpr hsocket
    refine ⟨fun message send => ?_,
      fun socket world => Run_trace_filter c ParseRequest handlers parameters socket world
        Event.isWarn rfl
        (serve_repliable_warns_nothing c hrep ParseRequest handlers parameters _ world)⟩
    rw [reply_repliable c hrep message send]
    cases send <;> simp

end Unrepliable

theorem reply_is_skipped_without_REP_and_failed_replies_are_logged_witness :
    Sample.puller.socket_type ≠ SocketType.REP ∧
    Sample.controller.socket_type = SocketType.REP ∧
    (Sample.puller.Run Sample.parse Sample.handlers [()]
      { bind := none,
        exchanges := [Sample.incoming ["count"] none, Sample.incoming ["count"] none,
          Sample.incoming ["drop"] none] } 0).trace.filter Event.isWarn =
      [Event.warn "count" [] "odd"] ∧
    (Sample.puller.Run Sample.parse Sample.handlers [()]
      { bind := none,
        exchanges := [Sample.incoming ["count"] none, Sample.incoming ["count"] none,
          Sample.incoming ["drop"] none] } 0).trace.filter Event.isSend = [] ∧
    (Sample.controller.Run Sample.parse Sample.handlers [()]
      { bind := none,
        exchanges := [Sample.incoming ["count"] none, Sample.incoming ["count"] none,
          Sample.incoming ["drop"] none] } 0).trace.filter Event.isWarn = [] :=
  ⟨by decide, rfl, rfl,
    ((reply_is_skipped_without_REP_and_failed_replies_are_logged Sample.puller Sample.parse
      Sample.handlers [()]).1 (by decide)).2.2.1 _ 0,
    ((reply_is_skipped_without_REP_and_failed_replies_are_logged Sample.controller
      Sample.parse Sample.handlers [()]).2 rfl).2 _ 0⟩

/-! ## Lease renewal: the flags -/

theorem renewFlags_values : renewFlags = [1, 2, 4, 8] := by decide

/-- One step of the OR of a set of flags, on the values of a `uint8` below 16. -/
theorem flag_or_and :
    ∀ a ∈ renewFlags, ∀ f ∈ renewFlags, ∀ r < 16,
      ((a ||| r) &&& f ≠ 0 ↔ (f = a ∨ r &&& f ≠ 0)) ∧ a ||| r < 16 := by
  decide

theorem orOf_lt (flags : List renewResult) (hflags : ∀ a ∈ flags, a ∈ renewFlags) :
    orOf flags < 16 := by
  induction flags with
  | nil => decide
  | cons a rest ih =>
    have hrest := ih (fun b hb => hflags b (List.mem_cons_of_mem _ hb))
    exact (flag_or_and a (hflags a (List.mem_cons_self _ _)) 1 (by decide)
      (orOf rest) hrest).2

/-- A flag tests positive in the OR of a set of flags exactly when it is in the set. -/
theorem orOf_and (flags : List renewResult) (hflags : ∀ a ∈ flags, a ∈ renewFlags)
    (f : renewResult) (hf : f ∈ renewFlags) :
    orOf flags &&& f ≠ 0 ↔ f ∈ flags := by
  induction flags with
  | nil => simp [orOf]
  | cons a rest ih =>
    have hrest := fun b hb => hflags b (List.mem_cons_of_mem _ hb)
    have hstep := (flag_or_and a (hflags a (List.mem_cons_self _ _)) f hf
      (orOf rest) (orOf_lt rest hrest)).1
    have hor : orOf (a :: rest) = a ||| orOf rest := rfl
    rw [hor, hstep, ih hrest, List.mem_cons]

/-- The select of the secure branch, read with a watcher that is not nil, at a moment
when only the done event of the auth-token watcher can proceed. -/
theorem monitor_auth_token_done (watcher : Secret) (err : Error) (pick : Nat)
    (rest : List Moment) :
    monitor "true" (some watcher) (Moment.mk [Signal.authTokenDone err] pick :: rest) =
      (Renewed.returned (expiringAuthToken ||| expiringDatabaseCredentialsLease) err, []) := by
  rw [monitor.eq_def]
  simp [Moment.chosen, Nat.mod_one]

/-- C28: the four flags of `renewResult` are 1, 2, 4 and 8, distinct powers of two
below 2^8, so that they fit a `uint8` as does the OR of any of them; for every set of
flags and every flag, the flag tests positive (the AND with the OR of the set is not 0)
if and only if it is in the set. The value that the select returns for a done event of
the auth-token watcher, expiringAuthToken|expiringDatabaseCredentialsLease, tests
positive for both expiring flags and negative for exitRequested and for renewError, so
the loop logs in, fetches the credentials and reconnects, and does not return. -/
theorem renewResult_flags_are_distinct_single_bits (flags : List renewResult)
    (hflags : ∀ a ∈ flags, a ∈ renewFlags) (f : renewResult) (hf : f ∈ renewFlags) :
    (renewError = 1 ∧ exitRequested = 2 ∧ expiringAuthToken = 4 ∧
      expiringDatabaseCredentialsLease = 8) ∧
    renewFlags.Nodup ∧
    (∀ a ∈ renewFlags, ∃ n, n < 8 ∧ a = 2 ^ n ∧ a < 2 ^ 8) ∧
    orOf flags < 2 ^ 8 ∧
    (orOf flags &&& f ≠ 0 ↔ f ∈ flags) ∧
    (∀ watcher err pick rest,
      (monitor "true" (some watcher)
        (Moment.mk [Signal.authTokenDone err] pick :: rest)).1 =
        Renewed.returned (orOf [expiringAuthToken, expiringDatabaseCredentialsLease]) err) ∧
    orOf [expiringAuthToken, expiringDatabaseCredentialsLease] &&& expiringAuthToken ≠ 0 ∧
    orOf [expiringAuthToken, expiringDatabaseCredentialsLease] &&&
      expiringDatabaseCredentialsLease ≠ 0 ∧
    orOf [expiringAuthToken, expiringDatabaseCredentialsLease] &&& exitRequested = 0 ∧
    orOf [expiringAuthToken, expiringDatabaseCredentialsLease] &&& renewError = 0 ∧
    (∀ (v : Vault) (watch : Watch),
      recoveries (v.recover (orOf [expiringAuthToken, expiringDatabaseCredentialsLease])
        none (Sample.round watch)).trace =
        [VaultEvent.login v,
         VaultEvent.GetDatabaseCredentials { v with auth_token := "token-2" },
         VaultEvent.db_reconnect { Username := "v-user", Password := "v-pass" }]) := by
  refine ⟨by decide, by decide, by decide, ?_, orOf_and flags hflags f hf, ?_, by decide,
    by decide, by decide, by decide, ?_⟩
  · exact lt_trans (orOf_lt flags hflags) (by decide)
  · intro watcher err pick rest
    rw [monitor_auth_token_done]
    rfl
  · intro v watch
    rfl

theorem renewResult_flags_are_distinct_single_bits_witness :
    (orOf [exitRequested, expiringDatabaseCredentialsLease] &&& expiringAuthToken ≠ 0 ↔
      expiringAuthToken ∈ [exitRequested, expiringDatabaseCredentialsLease]) ∧
    orOf [exitRequested, expiringDatabaseCredentialsLease] = 10 :=
  ⟨(renewResult_flags_are_distinct_single_bits
      [exitRequested, expiringDatabaseCredentialsLease] (by decide) expiringAuthToken
      (by decide)).2.2.2.2.1, by decide⟩

/-! ## Lease renewal: the watcher of the auth token -/

theorem created_append (first second : List VaultEvent) :
    created (first ++ second) = created first ++ created second := by
  induction first with
  | nil => rfl
  | cons e rest ih => cases e <;> simp [created, ih]

/-- The selects create no watcher. -/
theorem monitor_created (secure : String) (authTokenWatcher : Option Secret)
    (moments : List Moment) :
    created (monitor secure authTokenWatcher moments).2 = [] := by
  induction moments with
  | nil =>
    unfold monitor
    split
    · split <;> rfl
    · rfl
  | cons moment rest ih =>
    rw [monitor.eq_def]
    split
    · split
      · rfl
      · simp only
        split <;> first | rfl | exact ih
    · simp only
      split <;> first | rfl | exact ih

/-- The select of the secure branch does not panic on a watcher that is not nil. -/
theorem monitor_with_watcher (secure : String) (watcher : Secret) (moments : List Moment)
    (reason : String) :
    (monitor secure (some watcher) moments).1 ≠ Renewed.panicked reason := by
  induction moments with
  | nil =>
    unfold monitor
    split <;> simp
  | cons moment rest ih =>
    rw [monitor.eq_def]
    split
    · simp only
      split <;> first | exact ih | simp
    · simp only
      split <;> first | exact ih | simp

/-- The select of the branch without the authentication layer does not read the
watcher of the auth token. -/
theorem monitor_without_auth_watcher (secure : String) (hsecure : secure ≠ "true")
    (first second : Option Secret) (moments : List Moment) :
    monitor secure first moments = monitor secure second moments := by
  induction moments with
  | nil => rw [monitor_without_auth_nil secure hsecure, monitor_without_auth_nil secure hsecure]
  | cons moment rest ih =>
    rw [monitor_without_auth_cons secure hsecure, monitor_without_auth_cons secure hsecure, ih]

/-- C27: with SDS_VAULT_SECURE "true" and both watchers created, `renewLeases` creates
a watcher from authToken and starts it, but the watcher that its select reads is the
nil `authTokenWatcher` of the function scope and not the created one: the cycle ends in
the panic of a nil dereference, after which the deferred calls stop both watchers,
whereas the same select reading the created watcher never panics. With the layer
disabled the only watcher created is that of the database credentials, the cycle does
not depend on authToken nor on what the watcher of the auth token would be, and it
does not panic. -/
theorem renewLeases_selects_on_the_nil_watcher_when_secure (v : Vault)
    (authToken lease : Secret) (moments : List Moment) :
    (v.renewLeases authToken lease (Watch.mk "true" none none moments)).trace =
      [VaultEvent.log "renew cycle: begin",
       VaultEvent.NewLifetimeWatcher authToken, VaultEvent.Start authToken,
       VaultEvent.NewLifetimeWatcher lease, VaultEvent.Start lease,
       VaultEvent.Stop lease, VaultEvent.Stop authToken,
       VaultEvent.log "renew cycle: end"] ∧
    (v.renewLeases authToken lease (Watch.mk "true" none none moments)).ended =
      Renewed.panicked "invalid memory address or nil pointer dereference" ∧
    (∀ reason, (monitor "true" (some authToken) moments).1 ≠ Renewed.panicked reason) ∧
    (∀ secure first second databaseCredentialsWatcher other, secure ≠ "true" →
      v.renewLeases authToken lease
          (Watch.mk secure first databaseCredentialsWatcher moments) =
        v.renewLeases other lease
          (Watch.mk secure second databaseCredentialsWatcher moments) ∧
      created (v.renewLeases authToken lease
          (Watch.mk secure first databaseCredentialsWatcher moments)).trace = [lease] ∧
      ∀ reason, (v.renewLeases authToken lease
          (Watch.mk secure first databaseCredentialsWatcher moments)).ended ≠
        Renewed.panicked reason) := by
  refine ⟨?_, ?_, monitor_with_watcher "true" authToken moments, ?_⟩
  · unfold Vault.renewLeases
    simp [monitor_nil_watcher]
  · unfold Vault.renewLeases
    simp [monitor_nil_watcher]
  · intro secure first second databaseCredentialsWatcher other hsecure
    have hcreated := monitor_created secure none moments
    have hended : ∀ reason, (monitor secure none moments).1 ≠ Renewed.panicked reason := by
      intro reason
      rw [monitor_without_auth_watcher secure hsecure none (some authToken)]
      exact monitor_with_watcher secure authToken moments reason
    rcases hm : monitor secure none moments with ⟨ended, monitored⟩
    rw [hm] at hcreated hended
    simp only at hcreated hended
    refine ⟨?_, ?_, ?_⟩
    · simp [Vault.renewLeases, hsecure]
    · cases databaseCredentialsWatcher <;> cases ended <;>
        simp [Vault.renewLeases, hsecure, hm, created_append, created, hcreated]
    · intro reason
      cases databaseCredentialsWatcher with
      | some err => simp [Vault.renewLeases, hsecure]
      | none =>
        have := hended reason
        cases ended <;> simp_all [Vault.renewLeases]

theorem renewLeases_selects_on_the_nil_watcher_when_secure_witness :
    (Sample.vault.renewLeases "token-1" "lease-1"
      (Watch.mk "false" none none [Moment.mk [Signal.databaseCredentialsDone none] 0])) =
      Cycle.mk (Renewed.returned expiringDatabaseCredentialsLease none)
        [VaultEvent.log "renew cycle: begin",
         VaultEvent.NewLifetimeWatcher "lease-1", VaultEvent.Start "lease-1",
         VaultEvent.Stop "lease-1", VaultEvent.log "renew cycle: end"] ∧
    "false" ≠ "true" ∧
    created (Sample.vault.renewLeases "token-1" "lease-1"
      (Watch.mk "false" none none
        [Moment.mk [Signal.databaseCredentialsDone none] 0])).trace = ["lease-1"] :=
  ⟨by decide, by decide,
    ((renewLeases_selects_on_the_nil_watcher_when_secure Sample.vault "token-1" "lease-1"
      [Moment.mk [Signal.databaseCredentialsDone none] 0]).2.2.2
      "false" none none none "token-1" (by decide)).2.1⟩

/-! ## Resource handle: the handle that `Reconnect` opens -/

/-- C29: a `Reconnect` whose `sql.Open` returned a fresh handle. When it returns nil,
that handle is installed as `database.Connection` and has not been closed. When it
returns an error, a ping failed with the context of the timeout done, and the opened
handle is neither installed (`database.Connection` is what it was) nor closed: no
`Close` is called at all, so the handle is left open and unreferenced. -/
theorem Reconnect_deadline_leaves_the_opened_handle_open (durationString : Duration → String)
    (database : Database) (credentials : DatabaseCredentials) (dial : Dial)
    (connection : Handle)
    (hopen : dial.opened = .ok connection)
    (hfresh : database.Connection ≠ some connection) :
    DbEvent.sqlOpen "mysql" (database.dsn durationString credentials) ∈
      (database.Reconnect durationString credentials dial).trace ∧
    ((database.Reconnect durationString credentials dial).outcome = Outcome.returned none →
      (database.Reconnect durationString credentials dial).database.Connection =
        some connection ∧
      connection ∉ closes (database.Reconnect durationString credentials dial).trace) ∧
    (∀ err, (database.Reconnect durationString credentials dial).outcome =
        Outcome.returned (some err) →
      (∃ failed, err = "database ping error: " ++ failed ∧
        PingResult.failed failed true ∈ dial.pings) ∧
      (database.Reconnect durationString credentials dial).database.Connection ≠
        some connection ∧
      (database.Reconnect durationString credentials dial).database.Connection =
        database.Connection ∧
      connection ∉ closes (database.Reconnect durationString credentials dial).trace ∧
      closes (database.Reconnect durationString credentials dial).trace = []) := by
  rcases Reconnect_cases dial database.connectionMutex with
    ⟨failed, hfailed⟩ | ⟨opened, pinged, hopened, hpings, hloop⟩
  · rw [hopen] at hfailed
    exact Except.noConfusion hfailed
  · have hsame : opened = connection := by
      rw [hopen] at hopened
      exact (Except.ok.inj hopened).symm
    subst hsame
    have hpinged : closes pinged = [] := closes_of_pings opened pinged hpings
    rcases hloop with hloop | ⟨failed, hloop⟩ | ⟨hloop, hheld⟩ | ⟨hloop, hfree⟩
    · rw [Reconnect_ping_blocked durationString database credentials dial opened pinged
        hopen hloop]
      simp
    · rw [Reconnect_ping_deadline durationString database credentials dial opened pinged
        failed hopen hloop]
      refine ⟨by simp, by simp, ?_⟩
      intro err herr
      have herr : failed = err := by simpa using herr
      subst herr
      have hping := pingLoop_error opened dial.pings failed (by rw [hloop])
      refine ⟨hping, hfresh, rfl, ?_, ?_⟩ <;>
        simp [closes_append, closes, Database.connecting, hpinged]
    · rw [Reconnect_swap_blocked durationString database credentials dial opened pinged
        hopen hloop hheld]
      simp
    · rw [Reconnect_swapped durationString database credentials dial opened pinged
        hopen hloop hfree]
      refine ⟨by simp, ?_, by simp⟩
      intro _
      refine ⟨rfl, ?_⟩
      cases hold : database.Connection with
      | none => simp [closes_append, closes, Database.connecting, Database.connected, hpinged]
      | some old =>
        have hne : opened ≠ old := by
          intro h
          rw [hold, h] at hfresh
          exact hfresh rfl
        simp [closes_append, closes, Database.connecting, Database.connected, hpinged, hne]

theorem Reconnect_deadline_leaves_the_opened_handle_open_witness :
    (Sample.database.Reconnect Sample.seconds Sample.credentials
      { opened := .ok 2,
        pings := [PingResult.failed "refused" false, PingResult.failed "refused" true] }).outcome =
      Outcome.returned (some "database ping error: refused") ∧
    (Sample.database.Reconnect Sample.seconds Sample.credentials
      { opened := .ok 2,
        pings := [PingResult.failed "refused" false, PingResult.failed "refused" true] }).database.Connection ≠
      some 2 ∧
    (2 : Handle) ∉ closes (Sample.database.Reconnect Sample.seconds Sample.credentials
      { opened := .ok 2,
        pings := [PingResult.failed "refused" false, PingResult.failed "refused" true] }).trace :=
  ⟨rfl,
    ((Reconnect_deadline_leaves_the_opened_handle_open Sample.seconds Sample.database
      Sample.credentials
      { opened := .ok 2,
        pings := [PingResult.failed "refused" false, PingResult.failed "refused" true] }
      2 rfl (by decide)).2.2 "database ping error: refused" rfl).2.1,
    ((Reconnect_deadline_leaves_the_opened_handle_open Sample.seconds Sample.database
      Sample.credentials
      { opened := .ok 2,
        pings := [PingResult.failed "refused" false, PingResult.failed "refused" true] }
      2 rfl (by decide)).2.2 "database ping error: refused" rfl).2.2.2.1⟩

/-! ## Database handlers: the mutex of the handle -/

theorem executed_trace (library : Library) (db : Option Database) (trace : List DbEvent)
    (sql : Answers) (none_affected : String) (body : ReplyBody) :
    (executed library db trace sql none_affected body).trace = trace ∧
    (executed library db trace sql none_affected body).outcome ≠ Outcome.blocked ∧
    (executed library db trace sql none_affected body).db = db := by
  unfold executed
  repeat' split
  all_goals simp [replied]

/-- The six handlers never wait, never call `connectionMutex.Lock` or `Unlock`, and
leave the handle, its mutex included, as it is. -/
theorem handlers_take_no_lock (library : Library) (db : Option Database)
    (request : Request) (sql : Answers) :
    ∀ handler ∈ [onSelectAll, onExist, onSelectRow, onDelete, onInsert, onUpdate],
      DbEvent.lock ∉ (handler library db request sql).trace ∧
      DbEvent.unlock ∉ (handler library db request sql).trace ∧
      (handler library db request sql).outcome ≠ Outcome.blocked ∧
      (handler library db request sql).db = db := by
  intro handler hmem
  simp only [List.mem_cons, List.mem_singleton, List.not_mem_nil, or_false] at hmem
  rcases hmem with rfl | rfl | rfl | rfl | rfl | rfl
  · unfold onSelectAll
    repeat' split
    all_goals simp [replied]
  · unfold onExist
    repeat' split
    all_goals try simp [replied]
    all_goals try (repeat' split)
    all_goals try simp [replied]
  · unfold onSelectRow
    repeat' split
    all_goals try simp [replied]
    all_goals try (repeat' split)
    all_goals try simp [replied]
  · unfold onDelete
    repeat' split
    all_goals simp [replied, executed_trace]
  · unfold onInsert
    repeat' split
    all_goals simp [replied, executed_trace]
  · unfold onUpdate
    repeat' split
    all_goals simp [replied, executed_trace]

/-- The handle that `connectWithDefault` leaves when it returns nil: the connection
that `sql.Open` returned is installed and the mutex is free. -/
theorem connectWithDefault_connected (durationString : Duration → String) (logger : Logger)
    (parameters : DatabaseParameters) (credentials : DatabaseCredentials) (dial : Dial)
    (hstart : (connectWithDefault durationString logger parameters credentials dial).outcome =
      Outcome.returned (.ok ())) :
    ∃ connection, dial.handle = some connection ∧
      (connectWithDefault durationString logger parameters credentials dial).database =
        Database.mk (some connection) false parameters logger := by
  unfold connectWithDefault at hstart ⊢
  simp only at hstart ⊢
  cases hout : (Database.Reconnect durationString
      (Database.mk none false parameters logger) credentials dial).outcome with
  | blocked => simp [hout] at hstart
  | panicked reason => simp [hout] at hstart
  | returned result =>
    cases result with
    | some err => simp [hout] at hstart
    | none =>
      obtain ⟨connection, hhandle, hdatabase, _⟩ :=
        Reconnect_success durationString (Database.mk none false parameters logger)
          credentials dial hout
      refine ⟨connection, hhandle, ?_⟩
      simp [hout, hdatabase]

/-- What `Database.Query` does on a free mutex: it locks first and unlocks last. -/
theorem Query_locks (fmt : Fmt) (database : Database) (query : String)
    (arguments : List Value) (answer : Except String Rows)
    (hfree : database.connectionMutex = false) :
    ∃ body, (database.Query fmt query arguments answer).trace =
      DbEvent.lock :: body ++ [DbEvent.unlock] := by
  unfold Database.Query
  simp only [Database.Lock, hfree]
  exact ⟨_, rfl⟩

/-- C21: no handler takes `connectionMutex`: for every handle, request and answer of
the database, none of the six handlers calls `Lock` or `Unlock` or waits, and the
mutex is left as it was. So on the handle that `connectWithDefault` leaves at start-up
(a connection installed, the mutex free), `onSelectRow` reads `db.Connection` and
sends its query to that connection while the mutex is held by nobody, whereas
`Database.Query` on the same handle locks the mutex before it touches the connection
and unlocks it at the end. -/
theorem handlers_read_the_connection_without_the_mutex (library : Library)
    (durationString : Duration → String) (logger : Logger) (parameters : DatabaseParameters)
    (credentials : DatabaseCredentials) (dial : Dial) (request : Request) (sql : Answers)
    (queryParameters : DatabaseQueryRequest) (query : String)
    (hstart : (connectWithDefault durationString logger parameters credentials dial).outcome =
      Outcome.returned (.ok ()))
    (hparse : library.Interface request.Parameters = .ok queryParameters)
    (hbuild : queryParameters.BuildSelectRowQuery = .ok query) :
    (∀ handler ∈ [onSelectAll, onExist, onSelectRow, onDelete, onInsert, onUpdate],
      ∀ db incoming answers,
        DbEvent.lock ∉ (handler library db incoming answers).trace ∧
        DbEvent.unlock ∉ (handler library db incoming answers).trace ∧
        (handler library db incoming answers).outcome ≠ Outcome.blocked ∧
        (handler library db incoming answers).db = db) ∧
    ∃ connection,
      (connectWithDefault durationString logger parameters credentials dial).database =
        Database.mk (some connection) false parameters logger ∧
      (onSelectRow library
        (some (connectWithDefault durationString logger parameters credentials dial).database)
        request sql).trace.take 3 =
        [DbEvent.parse request.Parameters,
         DbEvent.build "BuildSelectRowQuery" queryParameters,
         DbEvent.query connection query queryParameters.Arguments] ∧
      DbEvent.lock ∉ (onSelectRow library
        (some (connectWithDefault durationString logger parameters credentials dial).database)
        request sql).trace ∧
      (onSelectRow library
        (some (connectWithDefault durationString logger parameters credentials dial).database)
        request sql).db =
        some (Database.mk (some connection) false parameters logger) ∧
      (∀ fmt text arguments answer, ∃ body,
        ((connectWithDefault durationString logger parameters credentials dial).database.Query
          fmt text arguments answer).trace = DbEvent.lock :: body ++ [DbEvent.unlock]) := by
  have hlock := fun db incoming answers handler hmem =>
    handlers_take_no_lock library db incoming answers handler hmem
  refine ⟨fun handler hmem db incoming answers => hlock db incoming answers handler hmem, ?_⟩
  obtain ⟨connection, _, hdatabase⟩ :=
    connectWithDefault_connected durationString logger parameters credentials dial hstart
  rw [hdatabase]
  refine ⟨connection, rfl, ?_, (hlock _ request sql onSelectRow (by simp)).1,
    (hlock _ request sql onSelectRow (by simp)).2.2.2,
    fun fmt text arguments answer => Query_locks fmt _ text arguments answer rfl⟩
  unfold onSelectRow
  simp only [current, hparse, hbuild]
  repeat' split
  all_goals simp [replied]

theorem handlers_read_the_connection_without_the_mutex_witness :
    (connectWithDefault Sample.seconds (Logger.mk "main") Sample.parameters
      Sample.credentials (Dial.mk (.ok 1) [PingResult.ok])).outcome =
      Outcome.returned (.ok ()) ∧
    (onSelectRow Sample.library
      (some (connectWithDefault Sample.seconds (Logger.mk "main") Sample.parameters
        Sample.credentials (Dial.mk (.ok 1) [PingResult.ok])).database)
      Sample.selectRow Sample.oneRow).trace =
      [DbEvent.parse Sample.selectRow.Parameters,
       DbEvent.build "BuildSelectRowQuery"
         (DatabaseQueryRequest.mk [] ["t"] "id=?" [Value.number 1]),
       DbEvent.query 1 "SELECT  * FROM t WHERE id=? LIMIT 1 " [Value.number 1],
       DbEvent.rowsClose] ∧
    DbEvent.lock ∉ (onSelectRow Sample.library
      (some (connectWithDefault Sample.seconds (Logger.mk "main") Sample.parameters
        Sample.credentials (Dial.mk (.ok 1) [PingResult.ok])).database)
      Sample.selectRow Sample.oneRow).trace :=
  ⟨rfl, rfl,
    (handlers_read_the_connection_without_the_mutex Sample.library Sample.seconds
      (Logger.mk "main") Sample.parameters Sample.credentials
      (Dial.mk (.ok 1) [PingResult.ok]) Sample.selectRow Sample.oneRow
      (DatabaseQueryRequest.mk [] ["t"] "id=?" [Value.number 1])
      "SELECT  * FROM t WHERE id=? LIMIT 1 " rfl rfl rfl).2.elim
      fun _ h => h.2.2.1⟩

end Seascape
